import Mathlib

/-!
A shallow embedding of the IEEE 754 binary64 <-> decimal text conversion code in
src/internal/cgen/base/f64conv-submodule.c (the wuffs "f64conv" submodule).

Modelling conventions:
  - C byte slices (wuffs_base__slice_u8) are `List Nat` of byte values.
  - C `double` values are represented by their 64-bit IEEE 754 bit patterns (`Nat`),
    and the few genuine floating-point operations on the fast path (casts, `*`, `/`,
    `>=`) are modelled by exact rational arithmetic followed by IEEE
    round-to-nearest-even (`ratToF64Bits`), which is the IEEE 754 semantics of those
    operations on finite operands.
  - The C `uint8_t digits[800]` array is a total function `Nat -> Nat`; writes are
    pointwise updates guarded exactly as in the C code, reads only ever touch
    indices the C code also reads.
  - C status strings (`status.repr`) form the four-element inductive `Status`.
  - Machine integers are `Nat` / `Int`; where the C code can actually wrap
    (uint64 accumulators, uint8 stores) an explicit `% 2^64` / `% 256` is kept.
  - The three static tables are transcribed verbatim from the C file.
-/

namespace WuffsF64Conv

/-- Status values: the C code's `status.repr` string constants plus NULL. -/
inductive Status where
  | null
  | badReceiver
  | badArgument
  | mpbFailed
deriving DecidableEq, Repr

/-- Result of parsing: a status and an f64 value, the latter as its IEEE 754
bit pattern (the C `wuffs_base__result_f64` holds a `double`). -/
structure ResultF64 where
  status : Status
  value : Nat
deriving DecidableEq, Repr

set_option maxHeartbeats 1600000 in
def wuffs_hpd_left_shift : List Nat := [
  0x0000, 0x0800, 0x0801, 0x0803, 0x1006, 0x1009, 0x100D, 0x1812, 0x1817, 0x181D,
  0x2024, 0x202B, 0x2033, 0x203C, 0x2846, 0x2850, 0x285B, 0x3067, 0x3073, 0x3080,
  0x388E, 0x389C, 0x38AB, 0x38BB, 0x40CC, 0x40DD, 0x40EF, 0x4902, 0x4915, 0x4929,
  0x513E, 0x5153, 0x5169, 0x5180, 0x5998, 0x59B0, 0x59C9, 0x61E3, 0x61FD, 0x6218,
  0x6A34, 0x6A50, 0x6A6D, 0x6A8B, 0x72AA, 0x72C9, 0x72E9, 0x7B0A, 0x7B2B, 0x7B4D,
  0x8370, 0x8393, 0x83B7, 0x83DC, 0x8C02, 0x8C28, 0x8C4F, 0x9477, 0x949F, 0x94C8,
  0x9CF2, 0x051C, 0x051C, 0x051C, 0x051C
]
set_option maxHeartbeats 1600000 in
def wuffs_powers_of_5 : List Nat := [
  5, 2, 5, 1, 2, 5, 6, 2, 5, 3,
  1, 2, 5, 1, 5, 6, 2, 5, 7, 8,
  1, 2, 5, 3, 9, 0, 6, 2, 5, 1,
  9, 5, 3, 1, 2, 5, 9, 7, 6, 5,
  6, 2, 5, 4, 8, 8, 2, 8, 1, 2,
  5, 2, 4, 4, 1, 4, 0, 6, 2, 5,
  1, 2, 2, 0, 7, 0, 3, 1, 2, 5,
  6, 1, 0, 3, 5, 1, 5, 6, 2, 5,
  3, 0, 5, 1, 7, 5, 7, 8, 1, 2,
  5, 1, 5, 2, 5, 8, 7, 8, 9, 0,
  6, 2, 5, 7, 6, 2, 9, 3, 9, 4,
  5, 3, 1, 2, 5, 3, 8, 1, 4, 6,
  9, 7, 2, 6, 5, 6, 2, 5, 1, 9,
  0, 7, 3, 4, 8, 6, 3, 2, 8, 1,
  2, 5, 9, 5, 3, 6, 7, 4, 3, 1,
  6, 4, 0, 6, 2, 5, 4, 7, 6, 8,
  3, 7, 1, 5, 8, 2, 0, 3, 1, 2,
  5, 2, 3, 8, 4, 1, 8, 5, 7, 9,
  1, 0, 1, 5, 6, 2, 5, 1, 1, 9,
  2, 0, 9, 2, 8, 9, 5, 5, 0, 7,
  8, 1, 2, 5, 5, 9, 6, 0, 4, 6,
  4, 4, 7, 7, 5, 3, 9, 0, 6, 2,
  5, 2, 9, 8, 0, 2, 3, 2, 2, 3,
  8, 7, 6, 9, 5, 3, 1, 2, 5, 1,
  4, 9, 0, 1, 1, 6, 1, 1, 9, 3,
  8, 4, 7, 6, 5, 6, 2, 5, 7, 4,
  5, 0, 5, 8, 0, 5, 9, 6, 9, 2,
  3, 8, 2, 8, 1, 2, 5, 3, 7, 2,
  5, 2, 9, 0, 2, 9, 8, 4, 6, 1,
  9, 1, 4, 0, 6, 2, 5, 1, 8, 6,
  2, 6, 4, 5, 1, 4, 9, 2, 3, 0,
  9, 5, 7, 0, 3, 1, 2, 5, 9, 3,
  1, 3, 2, 2, 5, 7, 4, 6, 1, 5,
  4, 7, 8, 5, 1, 5, 6, 2, 5, 4,
  6, 5, 6, 6, 1, 2, 8, 7, 3, 0,
  7, 7, 3, 9, 2, 5, 7, 8, 1, 2,
  5, 2, 3, 2, 8, 3, 0, 6, 4, 3,
  6, 5, 3, 8, 6, 9, 6, 2, 8, 9,
  0, 6, 2, 5, 1, 1, 6, 4, 1, 5,
  3, 2, 1, 8, 2, 6, 9, 3, 4, 8,
  1, 4, 4, 5, 3, 1, 2, 5, 5, 8,
  2, 0, 7, 6, 6, 0, 9, 1, 3, 4,
  6, 7, 4, 0, 7, 2, 2, 6, 5, 6,
  2, 5, 2, 9, 1, 0, 3, 8, 3, 0,
  4, 5, 6, 7, 3, 3, 7, 0, 3, 6,
  1, 3, 2, 8, 1, 2, 5, 1, 4, 5,
  5, 1, 9, 1, 5, 2, 2, 8, 3, 6,
  6, 8, 5, 1, 8, 0, 6, 6, 4, 0,
  6, 2, 5, 7, 2, 7, 5, 9, 5, 7,
  6, 1, 4, 1, 8, 3, 4, 2, 5, 9,
  0, 3, 3, 2, 0, 3, 1, 2, 5, 3,
  6, 3, 7, 9, 7, 8, 8, 0, 7, 0,
  9, 1, 7, 1, 2, 9, 5, 1, 6, 6,
  0, 1, 5, 6, 2, 5, 1, 8, 1, 8,
  9, 8, 9, 4, 0, 3, 5, 4, 5, 8,
  5, 6, 4, 7, 5, 8, 3, 0, 0, 7,
  8, 1, 2, 5, 9, 0, 9, 4, 9, 4,
  7, 0, 1, 7, 7, 2, 9, 2, 8, 2,
  3, 7, 9, 1, 5, 0, 3, 9, 0, 6,
  2, 5, 4, 5, 4, 7, 4, 7, 3, 5,
  0, 8, 8, 6, 4, 6, 4, 1, 1, 8,
  9, 5, 7, 5, 1, 9, 5, 3, 1, 2,
  5, 2, 2, 7, 3, 7, 3, 6, 7, 5,
  4, 4, 3, 2, 3, 2, 0, 5, 9, 4,
  7, 8, 7, 5, 9, 7, 6, 5, 6, 2,
  5, 1, 1, 3, 6, 8, 6, 8, 3, 7,
  7, 2, 1, 6, 1, 6, 0, 2, 9, 7,
  3, 9, 3, 7, 9, 8, 8, 2, 8, 1,
  2, 5, 5, 6, 8, 4, 3, 4, 1, 8,
  8, 6, 0, 8, 0, 8, 0, 1, 4, 8,
  6, 9, 6, 8, 9, 9, 4, 1, 4, 0,
  6, 2, 5, 2, 8, 4, 2, 1, 7, 0,
  9, 4, 3, 0, 4, 0, 4, 0, 0, 7,
  4, 3, 4, 8, 4, 4, 9, 7, 0, 7,
  0, 3, 1, 2, 5, 1, 4, 2, 1, 0,
  8, 5, 4, 7, 1, 5, 2, 0, 2, 0,
  0, 3, 7, 1, 7, 4, 2, 2, 4, 8,
  5, 3, 5, 1, 5, 6, 2, 5, 7, 1,
  0, 5, 4, 2, 7, 3, 5, 7, 6, 0,
  1, 0, 0, 1, 8, 5, 8, 7, 1, 1,
  2, 4, 2, 6, 7, 5, 7, 8, 1, 2,
  5, 3, 5, 5, 2, 7, 1, 3, 6, 7,
  8, 8, 0, 0, 5, 0, 0, 9, 2, 9,
  3, 5, 5, 6, 2, 1, 3, 3, 7, 8,
  9, 0, 6, 2, 5, 1, 7, 7, 6, 3,
  5, 6, 8, 3, 9, 4, 0, 0, 2, 5,
  0, 4, 6, 4, 6, 7, 7, 8, 1, 0,
  6, 6, 8, 9, 4, 5, 3, 1, 2, 5,
  8, 8, 8, 1, 7, 8, 4, 1, 9, 7,
  0, 0, 1, 2, 5, 2, 3, 2, 3, 3,
  8, 9, 0, 5, 3, 3, 4, 4, 7, 2,
  6, 5, 6, 2, 5, 4, 4, 4, 0, 8,
  9, 2, 0, 9, 8, 5, 0, 0, 6, 2,
  6, 1, 6, 1, 6, 9, 4, 5, 2, 6,
  6, 7, 2, 3, 6, 3, 2, 8, 1, 2,
  5, 2, 2, 2, 0, 4, 4, 6, 0, 4,
  9, 2, 5, 0, 3, 1, 3, 0, 8, 0,
  8, 4, 7, 2, 6, 3, 3, 3, 6, 1,
  8, 1, 6, 4, 0, 6, 2, 5, 1, 1,
  1, 0, 2, 2, 3, 0, 2, 4, 6, 2,
  5, 1, 5, 6, 5, 4, 0, 4, 2, 3,
  6, 3, 1, 6, 6, 8, 0, 9, 0, 8,
  2, 0, 3, 1, 2, 5, 5, 5, 5, 1,
  1, 1, 5, 1, 2, 3, 1, 2, 5, 7,
  8, 2, 7, 0, 2, 1, 1, 8, 1, 5,
  8, 3, 4, 0, 4, 5, 4, 1, 0, 1,
  5, 6, 2, 5, 2, 7, 7, 5, 5, 5,
  7, 5, 6, 1, 5, 6, 2, 8, 9, 1,
  3, 5, 1, 0, 5, 9, 0, 7, 9, 1,
  7, 0, 2, 2, 7, 0, 5, 0, 7, 8,
  1, 2, 5, 1, 3, 8, 7, 7, 7, 8,
  7, 8, 0, 7, 8, 1, 4, 4, 5, 6,
  7, 5, 5, 2, 9, 5, 3, 9, 5, 8,
  5, 1, 1, 3, 5, 2, 5, 3, 9, 0,
  6, 2, 5, 6, 9, 3, 8, 8, 9, 3,
  9, 0, 3, 9, 0, 7, 2, 2, 8, 3,
  7, 7, 6, 4, 7, 6, 9, 7, 9, 2,
  5, 5, 6, 7, 6, 2, 6, 9, 5, 3,
  1, 2, 5, 3, 4, 6, 9, 4, 4, 6,
  9, 5, 1, 9, 5, 3, 6, 1, 4, 1,
  8, 8, 8, 2, 3, 8, 4, 8, 9, 6,
  2, 7, 8, 3, 8, 1, 3, 4, 7, 6,
  5, 6, 2, 5, 1, 7, 3, 4, 7, 2,
  3, 4, 7, 5, 9, 7, 6, 8, 0, 7,
  0, 9, 4, 4, 1, 1, 9, 2, 4, 4,
  8, 1, 3, 9, 1, 9, 0, 6, 7, 3,
  8, 2, 8, 1, 2, 5, 8, 6, 7, 3,
  6, 1, 7, 3, 7, 9, 8, 8, 4, 0,
  3, 5, 4, 7, 2, 0, 5, 9, 6, 2,
  2, 4, 0, 6, 9, 5, 9, 5, 3, 3,
  6, 9, 1, 4, 0, 6, 2, 5
]
set_option maxHeartbeats 3200000 in
def wuffs_powers_of_10 : List Nat := [
  0xF7604B57, 0x014BB630, 0xFE98746D, 0x84A57695, 0x0004, 0x35385E2D, 0x419EA3BD, 0x7E3E9188, 0xA5CED43B, 0x0007,
  0x828675B9, 0x52064CAC, 0x5DCE35EA, 0xCF42894A, 0x000A, 0xD1940993, 0x7343EFEB, 0x7AA0E1B2, 0x818995CE, 0x000E,
  0xC5F90BF8, 0x1014EBE6, 0x19491A1F, 0xA1EBFB42, 0x0011, 0x77774EF6, 0xD41A26E0, 0x9F9B60A6, 0xCA66FA12, 0x0014,
  0x955522B4, 0x8920B098, 0x478238D0, 0xFD00B897, 0x0017, 0x5D5535B0, 0x55B46E5F, 0x8CB16382, 0x9E20735E, 0x001B,
  0x34AA831D, 0xEB2189F7, 0x2FDDBC62, 0xC5A89036, 0x001E, 0x01D523E4, 0xA5E9EC75, 0xBBD52B7B, 0xF712B443, 0x0021,
  0x2125366E, 0x47B233C9, 0x55653B2D, 0x9A6BB0AA, 0x0025, 0x696E840A, 0x999EC0BB, 0xEABE89F8, 0xC1069CD4, 0x0028,
  0x43CA250D, 0xC00670EA, 0x256E2C76, 0xF148440A, 0x002B, 0x6A5E5728, 0x38040692, 0x5764DBCA, 0x96CD2A86, 0x002F,
  0x04F5ECF2, 0xC6050837, 0xED3E12BC, 0xBC807527, 0x0032, 0xC633682E, 0xF7864A44, 0xE88D976B, 0xEBA09271, 0x0035,
  0xFBE0211D, 0x7AB3EE6A, 0x31587EA3, 0x93445B87, 0x0039, 0xBAD82964, 0x5960EA05, 0xFDAE9E4C, 0xB8157268, 0x003C,
  0x298E33BD, 0x6FB92487, 0x3D1A45DF, 0xE61ACF03, 0x003F, 0x79F8E056, 0xA5D3B6D4, 0x06306BAB, 0x8FD0C162, 0x0043,
  0x9877186C, 0x8F48A489, 0x87BC8696, 0xB3C4F1BA, 0x0046, 0xFE94DE87, 0x331ACDAB, 0x29ABA83C, 0xE0B62E29, 0x0049,
  0x7F1D0B14, 0x9FF0C08B, 0xBA0B4925, 0x8C71DCD9, 0x004D, 0x5EE44DD9, 0x07ECF0AE, 0x288E1B6F, 0xAF8E5410, 0x0050,
  0xF69D6150, 0xC9E82CD9, 0x32B1A24A, 0xDB71E914, 0x0053, 0x3A225CD2, 0xBE311C08, 0x9FAF056E, 0x892731AC, 0x0057,
  0x48AAF406, 0x6DBD630A, 0xC79AC6CA, 0xAB70FE17, 0x005A, 0xDAD5B108, 0x092CBBCC, 0xB981787D, 0xD64D3D9D, 0x005D,
  0x08C58EA5, 0x25BBF560, 0x93F0EB4E, 0x85F04682, 0x0061, 0x0AF6F24E, 0xAF2AF2B8, 0x38ED2621, 0xA76C5823, 0x0064,
  0x0DB4AEE1, 0x1AF5AF66, 0x07286FAA, 0xD1476E2C, 0x0067, 0xC890ED4D, 0x50D98D9F, 0x847945CA, 0x82CCA4DB, 0x006B,
  0xBAB528A0, 0xE50FF107, 0x6597973C, 0xA37FCE12, 0x006E, 0xA96272C8, 0x1E53ED49, 0xFEFD7D0C, 0xCC5FC196, 0x0071,
  0x13BB0F7A, 0x25E8E89C, 0xBEBCDC4F, 0xFF77B1FC, 0x0074, 0x8C54E9AC, 0x77B19161, 0xF73609B1, 0x9FAACF3D, 0x0078,
  0xEF6A2417, 0xD59DF5B9, 0x75038C1D, 0xC795830D, 0x007B, 0x6B44AD1D, 0x4B057328, 0xD2446F25, 0xF97AE3D0, 0x007E,
  0x430AEC32, 0x4EE367F9, 0x836AC577, 0x9BECCE62, 0x0082, 0x93CDA73F, 0x229C41F7, 0x244576D5, 0xC2E801FB, 0x0085,
  0x78C1110F, 0x6B435275, 0xED56D48A, 0xF3A20279, 0x0088, 0x6B78AAA9, 0x830A1389, 0x345644D6, 0x9845418C, 0x008C,
  0xC656D553, 0x23CC986B, 0x416BD60C, 0xBE5691EF, 0x008F, 0xB7EC8AA8, 0x2CBFBE86, 0x11C6CB8F, 0xEDEC366B, 0x0092,
  0x32F3D6A9, 0x7BF7D714, 0xEB1C3F39, 0x94B3A202, 0x0096, 0x3FB0CC53, 0xDAF5CCD9, 0xA5E34F07, 0xB9E08A83, 0x0099,
  0x8F9CFF68, 0xD1B3400F, 0x8F5C22C9, 0xE858AD24, 0x009C, 0xB9C21FA1, 0x23100809, 0xD99995BE, 0x91376C36, 0x00A0,
  0x2832A78A, 0xABD40A0C, 0x8FFFFB2D, 0xB5854744, 0x00A3, 0x323F516C, 0x16C90C8F, 0xB3FFF9F9, 0xE2E69915, 0x00A6,
  0x7F6792E3, 0xAE3DA7D9, 0x907FFC3B, 0x8DD01FAD, 0x00AA, 0xDF41779C, 0x99CD11CF, 0xF49FFB4A, 0xB1442798, 0x00AD,
  0xD711D583, 0x40405643, 0x31C7FA1D, 0xDD95317F, 0x00B0, 0x666B2572, 0x482835EA, 0x7F1CFC52, 0x8A7D3EEF, 0x00B4,
  0x0005EECF, 0xDA324365, 0x5EE43B66, 0xAD1C8EAB, 0x00B7, 0x40076A82, 0x90BED43E, 0x369D4A40, 0xD863B256, 0x00BA,
  0xE804A291, 0x5A7744A6, 0xE2224E68, 0x873E4F75, 0x00BE, 0xA205CB36, 0x711515D0, 0x5AAAE202, 0xA90DE353, 0x00C1,
  0xCA873E03, 0x0D5A5B44, 0x31559A83, 0xD3515C28, 0x00C4, 0xFE9486C2, 0xE858790A, 0x1ED58091, 0x8412D999, 0x00C8,
  0xBE39A872, 0x626E974D, 0x668AE0B6, 0xA5178FFF, 0x00CB, 0x2DC8128F, 0xFB0A3D21, 0x402D98E3, 0xCE5D73FF, 0x00CE,
  0xBC9D0B99, 0x7CE66634, 0x881C7F8E, 0x80FA687F, 0x00D2, 0xEBC44E80, 0x1C1FFFC1, 0x6A239F72, 0xA139029F, 0x00D5,
  0x66B56220, 0xA327FFB2, 0x44AC874E, 0xC9874347, 0x00D8, 0x0062BAA8, 0x4BF1FF9F, 0x15D7A922, 0xFBE91419, 0x00DB,
  0x603DB4A9, 0x6F773FC3, 0xADA6C9B5, 0x9D71AC8F, 0x00DF, 0x384D21D3, 0xCB550FB4, 0x99107C22, 0xC4CE17B3, 0x00E2,
  0x46606A48, 0x7E2A53A1, 0x7F549B2B, 0xF6019DA0, 0x00E5, 0xCBFC426D, 0x2EDA7444, 0x4F94E0FB, 0x99C10284, 0x00E9,
  0xFEFB5308, 0xFA911155, 0x637A1939, 0xC0314325, 0x00EC, 0x7EBA27CA, 0x793555AB, 0xBC589F88, 0xF03D93EE, 0x00EF,
  0x2F3458DE, 0x4BC1558B, 0x35B763B5, 0x96267C75, 0x00F3, 0xFB016F16, 0x9EB1AAED, 0x83253CA2, 0xBBB01B92, 0x00F6,
  0x79C1CADC, 0x465E15A9, 0x23EE8BCB, 0xEA9C2277, 0x00F9, 0xEC191EC9, 0x0BFACD89, 0x7675175F, 0x92A1958A, 0x00FD,
  0x671F667B, 0xCEF980EC, 0x14125D36, 0xB749FAED, 0x0100, 0x80E7401A, 0x82B7E127, 0x5916F484, 0xE51C79A8, 0x0103,
  0xB0908810, 0xD1B2ECB8, 0x37AE58D2, 0x8F31CC09, 0x0107, 0xDCB4AA15, 0x861FA7E6, 0x8599EF07, 0xB2FE3F0B, 0x010A,
  0x93E1D49A, 0x67A791E0, 0x67006AC9, 0xDFBDCECE, 0x010D, 0x5C6D24E0, 0xE0C8BB2C, 0x006042BD, 0x8BD6A141, 0x0111,
  0x73886E18, 0x58FAE9F7, 0x4078536D, 0xAECC4991, 0x0114, 0x506A899E, 0xAF39A475, 0x90966848, 0xDA7F5BF5, 0x0117,
  0x52429603, 0x6D8406C9, 0x7A5E012D, 0x888F9979, 0x011B, 0xA6D33B83, 0xC8E5087B, 0xD8F58178, 0xAAB37FD7, 0x011E,
  0x90880A64, 0xFB1E4A9A, 0xCF32E1D6, 0xD5605FCD, 0x0121, 0x9A55067F, 0x5CF2EEA0, 0xA17FCD26, 0x855C3BE0, 0x0125,
  0xC0EA481E, 0xF42FAA48, 0xC9DFC06F, 0xA6B34AD8, 0x0128, 0xF124DA26, 0xF13B94DA, 0xFC57B08B, 0xD0601D8E, 0x012B,
  0xD6B70858, 0x76C53D08, 0x5DB6CE57, 0x823C1279, 0x012F, 0x0C64CA6E, 0x54768C4B, 0xB52481ED, 0xA2CB1717, 0x0132,
  0xCF7DFD09, 0xA9942F5D, 0xA26DA268, 0xCB7DDCDD, 0x0135, 0x435D7C4C, 0xD3F93B35, 0x0B090B02, 0xFE5D5415, 0x0138,
  0x4A1A6DAF, 0xC47BC501, 0x26E5A6E1, 0x9EFA548D, 0x013C, 0x9CA1091B, 0x359AB641, 0x709F109A, 0xC6B8E9B0, 0x013F,
  0x03C94B62, 0xC30163D2, 0x8CC6D4C0, 0xF867241C, 0x0142, 0x425DCF1D, 0x79E0DE63, 0xD7FC44F8, 0x9B407691, 0x0146,
  0x12F542E4, 0x985915FC, 0x4DFB5636, 0xC2109436, 0x0149, 0x17B2939D, 0x3E6F5B7B, 0xE17A2BC4, 0xF294B943, 0x014C,
  0xEECF9C42, 0xA705992C, 0x6CEC5B5A, 0x979CF3CA, 0x0150, 0x2A838353, 0x50C6FF78, 0x08277231, 0xBD8430BD, 0x0153,
  0x35246428, 0xA4F8BF56, 0x4A314EBD, 0xECE53CEC, 0x0156, 0xE136BE99, 0x871B7795, 0xAE5ED136, 0x940F4613, 0x015A,
  0x59846E3F, 0x28E2557B, 0x99F68584, 0xB9131798, 0x015D, 0x2FE589CF, 0x331AEADA, 0xC07426E5, 0xE757DD7E, 0x0160,
  0x5DEF7621, 0x3FF0D2C8, 0x3848984F, 0x9096EA6F, 0x0164, 0x756B53A9, 0x0FED077A, 0x065ABE63, 0xB4BCA50B, 0x0167,
  0x12C62894, 0xD3E84959, 0xC7F16DFB, 0xE1EBCE4D, 0x016A, 0xABBBD95C, 0x64712DD7, 0x9CF6E4BD, 0x8D3360F0, 0x016E,
  0x96AACFB3, 0xBD8D794D, 0xC4349DEC, 0xB080392C, 0x0171, 0xFC5583A0, 0xECF0D7A0, 0xF541C567, 0xDCA04777, 0x0174,
  0x9DB57244, 0xF41686C4, 0xF9491B60, 0x89E42CAA, 0x0178, 0xC522CED5, 0x311C2875, 0xB79B6239, 0xAC5D37D5, 0x017B,
  0x366B828B, 0x7D633293, 0x25823AC7, 0xD77485CB, 0x017E, 0x02033197, 0xAE5DFF9C, 0xF77164BC, 0x86A8D39E, 0x0182,
  0x0283FDFC, 0xD9F57F83, 0xB54DBDEB, 0xA8530886, 0x0185, 0xC324FD7B, 0xD072DF63, 0x62A12D66, 0xD267CAA8, 0x0188,
  0x59F71E6D, 0x4247CB9E, 0x3DA4BC60, 0x8380DEA9, 0x018C, 0xF074E608, 0x52D9BE85, 0x8D0DEB78, 0xA4611653, 0x018F,
  0x6C921F8B, 0x67902E27, 0x70516656, 0xCD795BE8, 0x0192, 0xA3DB53B6, 0x00BA1CD8, 0x4632DFF6, 0x806BD971, 0x0196,
  0xCCD228A4, 0x80E8A40E, 0x97BF97F3, 0xA086CFCD, 0x0199, 0x8006B2CD, 0x6122CD12, 0xFDAF7DF0, 0xC8A883C0, 0x019C,
  0x20085F81, 0x796B8057, 0x3D1B5D6C, 0xFAD2A4B1, 0x019F, 0x74053BB0, 0xCBE33036, 0xC6311A63, 0x9CC3A6EE, 0x01A3,
  0x11068A9C, 0xBEDBFC44, 0x77BD60FC, 0xC3F490AA, 0x01A6, 0x15482D44, 0xEE92FB55, 0x15ACB93B, 0xF4F1B4D5, 0x01A9,
  0x2D4D1C4A, 0x751BDD15, 0x2D8BF3C5, 0x99171105, 0x01AD, 0x78A0635D, 0xD262D45A, 0x78EEF0B6, 0xBF5CD546, 0x01B0,
  0x16C87C34, 0x86FB8971, 0x172AACE4, 0xEF340A98, 0x01B3, 0xAE3D4DA0, 0xD45D35E6, 0x0E7AAC0E, 0x9580869F, 0x01B7,
  0x59CCA109, 0x89748360, 0xD2195712, 0xBAE0A846, 0x01BA, 0x703FC94B, 0x2BD1A438, 0x869FACD7, 0xE998D258, 0x01BD,
  0x4627DDCF, 0x7B6306A3, 0x5423CC06, 0x91FF8377, 0x01C1, 0x17B1D542, 0x1A3BC84C, 0x292CBF08, 0xB67F6455, 0x01C4,
  0x1D9E4A93, 0x20CABA5F, 0x7377EECA, 0xE41F3D6A, 0x01C7, 0x7282EE9C, 0x547EB47B, 0x882AF53E, 0x8E938662, 0x01CB,
  0x4F23AA43, 0xE99E619A, 0x2A35B28D, 0xB23867FB, 0x01CE, 0xE2EC94D4, 0x6405FA00, 0xF4C31F31, 0xDEC681F9, 0x01D1,
  0x8DD3DD04, 0xDE83BC40, 0x38F9F37E, 0x8B3C113C, 0x01D5, 0xB148D445, 0x9624AB50, 0x4738705E, 0xAE0B158B, 0x01D8,
  0xDD9B0957, 0x3BADD624, 0x19068C76, 0xD98DDAEE, 0x01DB, 0x0A80E5D6, 0xE54CA5D7, 0xCFA417C9, 0x87F8A8D4, 0x01DF,
  0xCD211F4C, 0x5E9FCF4C, 0x038D1DBC, 0xA9F6D30A, 0x01E2, 0x0069671F, 0x7647C320, 0x8470652B, 0xD47487CC, 0x01E5,
  0x0041E073, 0x29ECD9F4, 0xD2C63F3B, 0x84C8D4DF, 0x01E9, 0x00525890, 0xF4681071, 0xC777CF09, 0xA5FB0A17, 0x01EC,
  0x4066EEB4, 0x7182148D, 0xB955C2CC, 0xCF79CC9D, 0x01EF, 0x48405530, 0xC6F14CD8, 0x93D599BF, 0x81AC1FE2, 0x01F3,
  0x5A506A7C, 0xB8ADA00E, 0x38CB002F, 0xA21727DB, 0x01F6, 0xF0E4851C, 0xA6D90811, 0x06FDC03B, 0xCA9CF1D2, 0x01F9,
  0x6D1DA663, 0x908F4A16, 0x88BD304A, 0xFD442E46, 0x01FC, 0x043287FE, 0x9A598E4E, 0x15763E2E, 0x9E4A9CEC, 0x0200,
  0x853F29FD, 0x40EFF1E1, 0x1AD3CDBA, 0xC5DD4427, 0x0203, 0xE68EF47C, 0xD12BEE59, 0xE188C128, 0xF7549530, 0x0206,
  0x301958CE, 0x82BB74F8, 0x8CF578B9, 0x9A94DD3E, 0x020A, 0x3C1FAF01, 0xE36A5236, 0x3032D6E7, 0xC13A148E, 0x020D,
  0xCB279AC1, 0xDC44E6C3, 0xBC3F8CA1, 0xF18899B1, 0x0210, 0x5EF8C0B9, 0x29AB103A, 0x15A7B7E5, 0x96F5600F, 0x0214,
  0xF6B6F0E7, 0x7415D448, 0xDB11A5DE, 0xBCB2B812, 0x0217, 0x3464AD21, 0x111B495B, 0x91D60F56, 0xEBDF6617, 0x021A,
  0x00BEEC34, 0xCAB10DD9, 0xBB25C995, 0x936B9FCE, 0x021E, 0x40EEA742, 0x3D5D514F, 0x69EF3BFB, 0xB84687C2, 0x0221,
  0x112A5112, 0x0CB4A5A3, 0x046B0AFA, 0xE65829B3, 0x0224, 0xEABA72AB, 0x47F0E785, 0xE2C2E6DC, 0x8FF71A0F, 0x0228,
  0x65690F56, 0x59ED2167, 0xDB73A093, 0xB3F4E093, 0x022B, 0x3EC3532C, 0x306869C1, 0xD25088B8, 0xE0F218B8, 0x022E,
  0xC73A13FB, 0x1E414218, 0x83725573, 0x8C974F73, 0x0232, 0xF90898FA, 0xE5D1929E, 0x644EEACF, 0xAFBD2350, 0x0235,
  0xB74ABF39, 0xDF45F746, 0x7D62A583, 0xDBAC6C24, 0x0238, 0x328EB783, 0x6B8BBA8C, 0xCE5DA772, 0x894BC396, 0x023C,
  0x3F326564, 0x066EA92F, 0x81F5114F, 0xAB9EB47C, 0x023F, 0x0EFEFEBD, 0xC80A537B, 0xA27255A2, 0xD686619B, 0x0242,
  0xE95F5F36, 0xBD06742C, 0x45877585, 0x8613FD01, 0x0246, 0x23B73704, 0x2C481138, 0x96E952E7, 0xA798FC41, 0x0249,
  0x2CA504C5, 0xF75A1586, 0xFCA3A7A0, 0xD17F3B51, 0x024C, 0xDBE722FB, 0x9A984D73, 0x3DE648C4, 0x82EF8513, 0x0250,
  0xD2E0EBBA, 0xC13E60D0, 0x0D5FDAF5, 0xA3AB6658, 0x0253, 0x079926A8, 0x318DF905, 0x10B7D1B3, 0xCC963FEE, 0x0256,
  0x497F7052, 0xFDF17746, 0x94E5C61F, 0xFFBBCFE9, 0x0259, 0xEDEFA633, 0xFEB6EA8B, 0xFD0F9BD3, 0x9FD561F1, 0x025D,
  0xE96B8FC0, 0xFE64A52E, 0x7C5382C8, 0xC7CABA6E, 0x0260, 0xA3C673B0, 0x3DFDCE7A, 0x1B68637B, 0xF9BD690A, 0x0263,
  0xA65C084E, 0x06BEA10C, 0x51213E2D, 0x9C1661A6, 0x0267, 0xCFF30A62, 0x486E494F, 0xE5698DB8, 0xC31BFA0F, 0x026A,
  0xC3EFCCFA, 0x5A89DBA3, 0xDEC3F126, 0xF3E2F893, 0x026D, 0x5A75E01C, 0xF8962946, 0x6B3A76B7, 0x986DDB5C, 0x0271,
  0xF1135823, 0xF6BBB397, 0x86091465, 0xBE895233, 0x0274, 0xED582E2C, 0x746AA07D, 0x678B597F, 0xEE2BA6C0, 0x0277,
  0xB4571CDC, 0xA8C2A44E, 0x40B717EF, 0x94DB4838, 0x027B, 0x616CE413, 0x92F34D62, 0x50E4DDEB, 0xBA121A46, 0x027E,
  0xF9C81D17, 0x77B020BA, 0xE51E1566, 0xE896A0D7, 0x0281, 0xDC1D122E, 0x0ACE1474, 0xEF32CD60, 0x915E2486, 0x0285,
  0x132456BA, 0x0D819992, 0xAAFF80B8, 0xB5B5ADA8, 0x0288, 0x97ED6C69, 0x10E1FFF6, 0xD5BF60E6, 0xE3231912, 0x028B,
  0x1EF463C1, 0xCA8D3FFA, 0xC5979C8F, 0x8DF5EFAB, 0x028F, 0xA6B17CB2, 0xBD308FF8, 0xB6FD83B3, 0xB1736B96, 0x0292,
  0xD05DDBDE, 0xAC7CB3F6, 0x64BCE4A0, 0xDDD0467C, 0x0295, 0x423AA96B, 0x6BCDF07A, 0xBEF60EE4, 0x8AA22C0D, 0x0299,
  0xD2C953C6, 0x86C16C98, 0x2EB3929D, 0xAD4AB711, 0x029C, 0x077BA8B7, 0xE871C7BF, 0x7A607744, 0xD89D64D5, 0x029F,
  0x64AD4972, 0x11471CD7, 0x6C7C4A8B, 0x87625F05, 0x02A3, 0x3DD89BCF, 0xD598E40D, 0xC79B5D2D, 0xA93AF6C6, 0x02A6,
  0x8D4EC2C3, 0x4AFF1D10, 0x79823479, 0xD389B478, 0x02A9, 0x585139BA, 0xCEDF722A, 0x4BF160CB, 0x843610CB, 0x02AD,
  0xEE658828, 0xC2974EB4, 0x1EEDB8FE, 0xA54394FE, 0x02B0, 0x29FEEA32, 0x733D2262, 0xA6A9273E, 0xCE947A3D, 0x02B3,
  0x5A3F525F, 0x0806357D, 0x8829B887, 0x811CCC66, 0x02B7, 0xB0CF26F7, 0xCA07C2DC, 0x2A3426A8, 0xA163FF80, 0x02BA,
  0xDD02F0B5, 0xFC89B393, 0x34C13052, 0xC9BCFF60, 0x02BD, 0xD443ACE2, 0xBBAC2078, 0x41F17C67, 0xFC2C3F38, 0x02C0,
  0x84AA4C0D, 0xD54B944B, 0x2936EDC0, 0x9D9BA783, 0x02C4, 0x65D4DF11, 0x0A9E795E, 0xF384A931, 0xC5029163, 0x02C7,
  0xFF4A16D5, 0x4D4617B5, 0xF065D37D, 0xF64335BC, 0x02CA, 0xBF8E4E45, 0x504BCED1, 0x163FA42E, 0x99EA0196, 0x02CE,
  0x2F71E1D6, 0xE45EC286, 0x9BCF8D39, 0xC06481FB, 0x02D1, 0xBB4E5A4C, 0x5D767327, 0x82C37088, 0xF07DA27A, 0x02D4,
  0xD510F86F, 0x3A6A07F8, 0x91BA2655, 0x964E858C, 0x02D8, 0x0A55368B, 0x890489F7, 0xB628AFEA, 0xBBE226EF, 0x02DB,
  0xCCEA842E, 0x2B45AC74, 0xA3B2DBE5, 0xEADAB0AB, 0x02DE, 0x0012929D, 0x3B0B8BC9, 0x464FC96F, 0x92C8AE6B, 0x02E2,
  0x40173744, 0x09CE6EBB, 0x17E3BBCB, 0xB77ADA06, 0x02E5, 0x101D0515, 0xCC420A6A, 0x9DDCAABD, 0xE5599087, 0x02E8,
  0x4A12232D, 0x9FA94682, 0xC2A9EAB6, 0x8F57FA54, 0x02EC, 0xDC96ABF9, 0x47939822, 0xF3546564, 0xB32DF8E9, 0x02EF,
  0x93BC56F7, 0x59787E2B, 0x70297EBD, 0xDFF97724, 0x02F2, 0x3C55B65A, 0x57EB4EDB, 0xC619EF36, 0x8BFBEA76, 0x02F6,
  0x0B6B23F1, 0xEDE62292, 0x77A06B03, 0xAEFAE514, 0x02F9, 0x8E45ECED, 0xE95FAB36, 0x958885C4, 0xDAB99E59, 0x02FC,
  0x18EBB414, 0x11DBCB02, 0xFD75539B, 0x88B402F7, 0x0300, 0x9F26A119, 0xD652BDC2, 0xFCD2A881, 0xAAE103B5, 0x0303,
  0x46F0495F, 0x4BE76D33, 0x7C0752A2, 0xD59944A3, 0x0306, 0x0C562DDB, 0x6F70A440, 0x2D8493A5, 0x857FCAE6, 0x030A,
  0x0F6BB952, 0xCB4CCD50, 0xB8E5B88E, 0xA6DFBD9F, 0x030D, 0x1346A7A7, 0x7E2000A4, 0xA71F26B2, 0xD097AD07, 0x0310,
  0x8C0C28C8, 0x8ED40066, 0xC873782F, 0x825ECC24, 0x0314, 0x2F0F32FA, 0x72890080, 0xFA90563B, 0xA2F67F2D, 0x0317,
  0x3AD2FFB9, 0x4F2B40A0, 0x79346BCA, 0xCBB41EF9, 0x031A, 0x4987BFA8, 0xE2F610C8, 0xD78186BC, 0xFEA126B7, 0x031D,
  0x2DF4D7C9, 0x0DD9CA7D, 0xE6B0F436, 0x9F24B832, 0x0321, 0x79720DBB, 0x91503D1C, 0xA05D3143, 0xC6EDE63F, 0x0324,
  0x97CE912A, 0x75A44C63, 0x88747D94, 0xF8A95FCF, 0x0327, 0x3EE11ABA, 0xC986AFBE, 0xB548CE7C, 0x9B69DBE1, 0x032B,
  0xCE996168, 0xFBE85BAD, 0x229B021B, 0xC24452DA, 0x032E, 0x423FB9C3, 0xFAE27299, 0xAB41C2A2, 0xF2D56790, 0x0331,
  0xC967D41A, 0xDCCD879F, 0x6B0919A5, 0x97C560BA, 0x0335, 0xBBC1C920, 0x5400E987, 0x05CB600F, 0xBDB6B8E9, 0x0338,
  0xAAB23B68, 0x290123E9, 0x473E3813, 0xED246723, 0x033B, 0x0AAF6521, 0xF9A0B672, 0x0C86E30B, 0x9436C076, 0x033F,
  0x8D5B3E69, 0xF808E40E, 0x8FA89BCE, 0xB9447093, 0x0342, 0x30B20E04, 0xB60B1D12, 0x7392C2C2, 0xE7958CB8, 0x0345,
  0x5E6F48C2, 0xB1C6F22B, 0x483BB9B9, 0x90BD77F3, 0x0349, 0x360B1AF3, 0x1E38AEB6, 0x1A4AA828, 0xB4ECD5F0, 0x034C,
  0xC38DE1B0, 0x25C6DA63, 0x20DD5232, 0xE2280B6C, 0x034F, 0x5A38AD0E, 0x579C487E, 0x948A535F, 0x8D590723, 0x0353,
  0xF0C6D851, 0x2D835A9D, 0x79ACE837, 0xB0AF48EC, 0x0356, 0x6CF88E65, 0xF8E43145, 0x98182244, 0xDCDB1B27, 0x0359,
  0x641B58FF, 0x1B8E9ECB, 0xBF0F156B, 0x8A08F0F8, 0x035D, 0x3D222F3F, 0xE272467E, 0xEED2DAC5, 0xAC8B2D36, 0x0360,
  0xCC6ABB0F, 0x5B0ED81D, 0xAA879177, 0xD7ADF884, 0x0363, 0x9FC2B4E9, 0x98E94712, 0xEA94BAEA, 0x86CCBB52, 0x0367,
  0x47B36224, 0x3F2398D7, 0xA539E9A5, 0xA87FEA27, 0x036A, 0x19A03AAD, 0x8EEC7F0D, 0x8E88640E, 0xD29FE4B1, 0x036D,
  0x300424AC, 0x1953CF68, 0xF9153E89, 0x83A3EEEE, 0x0371, 0x3C052DD7, 0x5FA8C342, 0xB75A8E2B, 0xA48CEAAA, 0x0374,
  0xCB06794D, 0x3792F412, 0x653131B6, 0xCDB02555, 0x0377, 0xBEE40BD0, 0xE2BBD88B, 0x5F3EBF11, 0x808E1755, 0x037B,
  0xAE9D0EC4, 0x5B6ACEAE, 0xB70E6ED6, 0xA0B19D2A, 0x037E, 0x5A445275, 0xF245825A, 0x64D20A8B, 0xC8DE0475, 0x0381,
  0xF0D56712, 0xEED6E2F0, 0xBE068D2E, 0xFB158592, 0x0384, 0x9685606B, 0x55464DD6, 0xB6C4183D, 0x9CED737B, 0x0388,
  0x3C26B886, 0xAA97E14C, 0xA4751E4C, 0xC428D05A, 0x038B, 0x4B3066A8, 0xD53DD99F, 0x4D9265DF, 0xF5330471, 0x038E,
  0x8EFE4029, 0xE546A803, 0xD07B7FAB, 0x993FE2C6, 0x0392, 0x72BDD033, 0xDE985204, 0x849A5F96, 0xBF8FDB78, 0x0395,
  0x8F6D4440, 0x963E6685, 0xA5C0F77C, 0xEF73D256, 0x0398, 0x79A44AA8, 0xDDE70013, 0x27989AAD, 0x95A86376, 0x039C,
  0x580D5D52, 0x5560C018, 0xB17EC159, 0xBB127C53, 0x039F, 0x6E10B4A6, 0xAAB8F01E, 0x9DDE71AF, 0xE9D71B68, 0x03A2,
  0x04CA70E8, 0xCAB39613, 0x62AB070D, 0x92267121, 0x03A6, 0xC5FD0D22, 0x3D607B97, 0xBB55C8D1, 0xB6B00D69, 0x03A9,
  0xB77C506A, 0x8CB89A7D, 0x2A2B3B05, 0xE45C10C4, 0x03AC, 0x92ADB242, 0x77F3608E, 0x9A5B04E3, 0x8EB98A7A, 0x03B0,
  0x37591ED3, 0x55F038B2, 0x40F1C61C, 0xB267ED19, 0x03B3, 0xC52F6688, 0x6B6C46DE, 0x912E37A3, 0xDF01E85F, 0x03B6,
  0x3B3DA015, 0x2323AC4B, 0xBABCE2C6, 0x8B61313B, 0x03BA, 0x0A0D081A, 0xABEC975E, 0xA96C1B77, 0xAE397D8A, 0x03BD,
  0x8C904A21, 0x96E7BD35, 0x53C72255, 0xD9C7DCED, 0x03C0, 0x77DA2E54, 0x7E50D641, 0x545C7575, 0x881CEA14, 0x03C4,
  0xD5D0B9E9, 0xDDE50BD1, 0x697392D2, 0xAA242499, 0x03C7, 0x4B44E864, 0x955E4EC6, 0xC3D07787, 0xD4AD2DBF, 0x03CA,
  0xEF0B113E, 0xBD5AF13B, 0xDA624AB4, 0x84EC3C97, 0x03CE, 0xEACDD58E, 0xECB1AD8A, 0xD0FADD61, 0xA6274BBD, 0x03D1,
  0xA5814AF2, 0x67DE18ED, 0x453994BA, 0xCFB11EAD, 0x03D4, 0x8770CED7, 0x80EACF94, 0x4B43FCF4, 0x81CEB32C, 0x03D8,
  0xA94D028D, 0xA1258379, 0x5E14FC31, 0xA2425FF7, 0x03DB, 0x13A04330, 0x096EE458, 0x359A3B3E, 0xCAD2F7F5, 0x03DE,
  0x188853FC, 0x8BCA9D6E, 0x8300CA0D, 0xFD87B5F2, 0x03E1, 0xCF55347D, 0x775EA264, 0x91E07E48, 0x9E74D1B7, 0x03E5,
  0x032A819D, 0x95364AFE, 0x76589DDA, 0xC6120625, 0x03E8, 0x83F52204, 0x3A83DDBD, 0xD3EEC551, 0xF79687AE, 0x03EB,
  0x72793542, 0xC4926A96, 0x44753B52, 0x9ABE14CD, 0x03EF, 0x0F178293, 0x75B7053C, 0x95928A27, 0xC16D9A00, 0x03F2,
  0x12DD6338, 0x5324C68B, 0xBAF72CB1, 0xF1C90080, 0x03F5, 0xEBCA5E03, 0xD3F6FC16, 0x74DA7BEE, 0x971DA050, 0x03F9,
  0xA6BCF584, 0x88F4BB1C, 0x92111AEA, 0xBCE50864, 0x03FC, 0xD06C32E5, 0x2B31E9E3, 0xB69561A5, 0xEC1E4A7D, 0x03FF,
  0x62439FCF, 0x3AFF322E, 0x921D5D07, 0x9392EE8E, 0x0403, 0xFAD487C2, 0x09BEFEB9, 0x36A4B449, 0xB877AA32, 0x0406,
  0x7989A9B3, 0x4C2EBE68, 0xC44DE15B, 0xE69594BE, 0x0409, 0x4BF60A10, 0x0F9D3701, 0x3AB0ACD9, 0x901D7CF7, 0x040D,
  0x9EF38C94, 0x538484C1, 0x095CD80F, 0xB424DC35, 0x0410, 0x06B06FB9, 0x2865A5F2, 0x4BB40E13, 0xE12E1342, 0x0413,
  0x442E45D3, 0xF93F87B7, 0x6F5088CB, 0x8CBCCC09, 0x0417, 0x1539D748, 0xF78F69A5, 0xCB24AAFE, 0xAFEBFF0B, 0x041A,
  0x5A884D1B, 0xB573440E, 0xBDEDD5BE, 0xDBE6FECE, 0x041D, 0xF8953030, 0x31680A88, 0x36B4A597, 0x89705F41, 0x0421,
  0x36BA7C3D, 0xFDC20D2B, 0x8461CEFC, 0xABCC7711, 0x0424, 0x04691B4C, 0x3D329076, 0xE57A42BC, 0xD6BF94D5, 0x0427,
  0xC2C1B10F, 0xA63F9A49, 0xAF6C69B5, 0x8637BD05, 0x042B, 0x33721D53, 0x0FCF80DC, 0x1B478423, 0xA7C5AC47, 0x042E,
  0x404EA4A8, 0xD3C36113, 0xE219652B, 0xD1B71758, 0x0431, 0x083126E9, 0x645A1CAC, 0x8D4FDF3B, 0x83126E97, 0x0435,
  0x0A3D70A3, 0x3D70A3D7, 0x70A3D70A, 0xA3D70A3D, 0x0438, 0xCCCCCCCC, 0xCCCCCCCC, 0xCCCCCCCC, 0xCCCCCCCC, 0x043B,
  0x00000000, 0x00000000, 0x00000000, 0x80000000, 0x043F, 0x00000000, 0x00000000, 0x00000000, 0xA0000000, 0x0442,
  0x00000000, 0x00000000, 0x00000000, 0xC8000000, 0x0445, 0x00000000, 0x00000000, 0x00000000, 0xFA000000, 0x0448,
  0x00000000, 0x00000000, 0x00000000, 0x9C400000, 0x044C, 0x00000000, 0x00000000, 0x00000000, 0xC3500000, 0x044F,
  0x00000000, 0x00000000, 0x00000000, 0xF4240000, 0x0452, 0x00000000, 0x00000000, 0x00000000, 0x98968000, 0x0456,
  0x00000000, 0x00000000, 0x00000000, 0xBEBC2000, 0x0459, 0x00000000, 0x00000000, 0x00000000, 0xEE6B2800, 0x045C,
  0x00000000, 0x00000000, 0x00000000, 0x9502F900, 0x0460, 0x00000000, 0x00000000, 0x00000000, 0xBA43B740, 0x0463,
  0x00000000, 0x00000000, 0x00000000, 0xE8D4A510, 0x0466, 0x00000000, 0x00000000, 0x00000000, 0x9184E72A, 0x046A,
  0x00000000, 0x00000000, 0x80000000, 0xB5E620F4, 0x046D, 0x00000000, 0x00000000, 0xA0000000, 0xE35FA931, 0x0470,
  0x00000000, 0x00000000, 0x04000000, 0x8E1BC9BF, 0x0474, 0x00000000, 0x00000000, 0xC5000000, 0xB1A2BC2E, 0x0477,
  0x00000000, 0x00000000, 0x76400000, 0xDE0B6B3A, 0x047A, 0x00000000, 0x00000000, 0x89E80000, 0x8AC72304, 0x047E,
  0x00000000, 0x00000000, 0xAC620000, 0xAD78EBC5, 0x0481, 0x00000000, 0x00000000, 0x177A8000, 0xD8D726B7, 0x0484,
  0x00000000, 0x00000000, 0x6EAC9000, 0x87867832, 0x0488, 0x00000000, 0x00000000, 0x0A57B400, 0xA968163F, 0x048B,
  0x00000000, 0x00000000, 0xCCEDA100, 0xD3C21BCE, 0x048E, 0x00000000, 0x00000000, 0x401484A0, 0x84595161, 0x0492,
  0x00000000, 0x00000000, 0x9019A5C8, 0xA56FA5B9, 0x0495, 0x00000000, 0x00000000, 0xF4200F3A, 0xCECB8F27, 0x0498,
  0x00000000, 0x40000000, 0xF8940984, 0x813F3978, 0x049C, 0x00000000, 0x50000000, 0x36B90BE5, 0xA18F07D7, 0x049F,
  0x00000000, 0xA4000000, 0x04674EDE, 0xC9F2C9CD, 0x04A2, 0x00000000, 0x4D000000, 0x45812296, 0xFC6F7C40, 0x04A5,
  0x00000000, 0xF0200000, 0x2B70B59D, 0x9DC5ADA8, 0x04A9, 0x00000000, 0x6C280000, 0x364CE305, 0xC5371912, 0x04AC,
  0x00000000, 0xC7320000, 0xC3E01BC6, 0xF684DF56, 0x04AF, 0x00000000, 0x3C7F4000, 0x3A6C115C, 0x9A130B96, 0x04B3,
  0x00000000, 0x4B9F1000, 0xC90715B3, 0xC097CE7B, 0x04B6, 0x00000000, 0x1E86D400, 0xBB48DB20, 0xF0BDC21A, 0x04B9,
  0x00000000, 0x13144480, 0xB50D88F4, 0x96769950, 0x04BD, 0x00000000, 0x17D955A0, 0xE250EB31, 0xBC143FA4, 0x04C0,
  0x00000000, 0x5DCFAB08, 0x1AE525FD, 0xEB194F8E, 0x04C3, 0x00000000, 0x5AA1CAE5, 0xD0CF37BE, 0x92EFD1B8, 0x04C7,
  0x40000000, 0xF14A3D9E, 0x050305AD, 0xB7ABC627, 0x04CA, 0xD0000000, 0x6D9CCD05, 0xC643C719, 0xE596B7B0, 0x04CD,
  0xA2000000, 0xE4820023, 0x7BEA5C6F, 0x8F7E32CE, 0x04D1, 0x8A800000, 0xDDA2802C, 0x1AE4F38B, 0xB35DBF82, 0x04D4,
  0xAD200000, 0xD50B2037, 0xA19E306E, 0xE0352F62, 0x04D7, 0xCC340000, 0x4526F422, 0xA502DE45, 0x8C213D9D, 0x04DB,
  0x7F410000, 0x9670B12B, 0x0E4395D6, 0xAF298D05, 0x04DE, 0x5F114000, 0x3C0CDD76, 0x51D47B4C, 0xDAF3F046, 0x04E1,
  0xFB6AC800, 0xA5880A69, 0xF324CD0F, 0x88D8762B, 0x04E5, 0x7A457A00, 0x8EEA0D04, 0xEFEE0053, 0xAB0E93B6, 0x04E8,
  0x98D6D880, 0x72A49045, 0xABE98068, 0xD5D238A4, 0x04EB, 0x7F864750, 0x47A6DA2B, 0xEB71F041, 0x85A36366, 0x04EF,
  0x5F67D924, 0x999090B6, 0xA64E6C51, 0xA70C3C40, 0x04F2, 0xF741CF6D, 0xFFF4B4E3, 0xCFE20765, 0xD0CF4B50, 0x04F5,
  0x7A8921A4, 0xBFF8F10E, 0x81ED449F, 0x82818F12, 0x04F9, 0x192B6A0D, 0xAFF72D52, 0x226895C7, 0xA321F2D7, 0x04FC,
  0x9F764490, 0x9BF4F8A6, 0xEB02BB39, 0xCBEA6F8C, 0x04FF, 0x4753D5B4, 0x02F236D0, 0x25C36A08, 0xFEE50B70, 0x0502,
  0x2C946590, 0x01D76242, 0x179A2245, 0x9F4F2726, 0x0506, 0xB7B97EF5, 0x424D3AD2, 0x9D80AAD6, 0xC722F0EF, 0x0509,
  0x65A7DEB2, 0xD2E08987, 0x84E0D58B, 0xF8EBAD2B, 0x050C, 0x9F88EB2F, 0x63CC55F4, 0x330C8577, 0x9B934C3B, 0x0510,
  0xC76B25FB, 0x3CBF6B71, 0xFFCFA6D5, 0xC2781F49, 0x0513, 0x3945EF7A, 0x8BEF464E, 0x7FC3908A, 0xF316271C, 0x0516,
  0xE3CBB5AC, 0x97758BF0, 0xCFDA3A56, 0x97EDD871, 0x051A, 0x1CBEA317, 0x3D52EEED, 0x43D0C8EC, 0xBDE94E8E, 0x051D,
  0x63EE4BDD, 0x4CA7AAA8, 0xD4C4FB27, 0xED63A231, 0x0520, 0x3E74EF6A, 0x8FE8CAA9, 0x24FB1CF8, 0x945E455F, 0x0524,
  0x8E122B44, 0xB3E2FD53, 0xEE39E436, 0xB975D6B6, 0x0527, 0x7196B616, 0x60DBBCA8, 0xA9C85D44, 0xE7D34C64, 0x052A,
  0x46FE31CD, 0xBC8955E9, 0xEA1D3A4A, 0x90E40FBE, 0x052E, 0x98BDBE41, 0x6BABAB63, 0xA4A488DD, 0xB51D13AE, 0x0531,
  0x7EED2DD1, 0xC696963C, 0x4DCDAB14, 0xE264589A, 0x0534, 0xCF543CA2, 0xFC1E1DE5, 0x70A08AEC, 0x8D7EB760, 0x0538,
  0x43294BCB, 0x3B25A55F, 0x8CC8ADA8, 0xB0DE6538, 0x053B, 0x13F39EBE, 0x49EF0EB7, 0xAFFAD912, 0xDD15FE86, 0x053E,
  0x6C784337, 0x6E356932, 0x2DFCC7AB, 0x8A2DBF14, 0x0542, 0x07965404, 0x49C2C37F, 0x397BF996, 0xACB92ED9, 0x0545,
  0xC97BE906, 0xDC33745E, 0x87DAF7FB, 0xD7E77A8F, 0x0548, 0x3DED71A3, 0x69A028BB, 0xB4E8DAFD, 0x86F0AC99, 0x054C,
  0x0D68CE0C, 0xC40832EA, 0x222311BC, 0xA8ACD7C0, 0x054F, 0x90C30190, 0xF50A3FA4, 0x2AABD62B, 0xD2D80DB0, 0x0552,
  0xDA79E0FA, 0x792667C6, 0x1AAB65DB, 0x83C7088E, 0x0556, 0x91185938, 0x577001B8, 0xA1563F52, 0xA4B8CAB1, 0x0559,
  0xB55E6F86, 0xED4C0226, 0x09ABCF26, 0xCDE6FD5E, 0x055C, 0x315B05B4, 0x544F8158, 0xC60B6178, 0x80B05E5A, 0x0560,
  0x3DB1C721, 0x696361AE, 0x778E39D6, 0xA0DC75F1, 0x0563, 0xCD1E38E9, 0x03BC3A19, 0xD571C84C, 0xC913936D, 0x0566,
  0x4065C723, 0x04AB48A0, 0x4ACE3A5F, 0xFB587849, 0x0569, 0x283F9C76, 0x62EB0D64, 0xCEC0E47B, 0x9D174B2D, 0x056D,
  0x324F8394, 0x3BA5D0BD, 0x42711D9A, 0xC45D1DF9, 0x0570, 0x7EE36479, 0xCA8F44EC, 0x930D6500, 0xF5746577, 0x0573,
  0xCF4E1ECB, 0x7E998B13, 0xBBE85F20, 0x9968BF6A, 0x0577, 0xC321A67E, 0x9E3FEDD8, 0x6AE276E8, 0xBFC2EF45, 0x057A,
  0xF3EA101E, 0xC5CFE94E, 0xC59B14A2, 0xEFB3AB16, 0x057D, 0x58724A12, 0xBBA1F1D1, 0x3B80ECE5, 0x95D04AEE, 0x0581,
  0xAE8EDC97, 0x2A8A6E45, 0xCA61281F, 0xBB445DA9, 0x0584, 0x1A3293BD, 0xF52D09D7, 0x3CF97226, 0xEA157514, 0x0587,
  0x705F9C56, 0x593C2626, 0xA61BE758, 0x924D692C, 0x058B, 0x0C77836C, 0x6F8B2FB0, 0xCFA2E12E, 0xB6E0C377, 0x058E,
  0x0F956447, 0x0B6DFB9C, 0xC38B997A, 0xE498F455, 0x0591, 0x89BD5EAC, 0x4724BD41, 0x9A373FEC, 0x8EDF98B5, 0x0595,
  0xEC2CB657, 0x58EDEC91, 0x00C50FE7, 0xB2977EE3, 0x0598, 0x6737E3ED, 0x2F2967B6, 0xC0F653E1, 0xDF3D5E9B, 0x059B,
  0x0082EE74, 0xBD79E0D2, 0x5899F46C, 0x8B865B21, 0x059F, 0x80A3AA11, 0xECD85906, 0xAEC07187, 0xAE67F1E9, 0x05A2,
  0x20CC9495, 0xE80E6F48, 0x1A708DE9, 0xDA01EE64, 0x05A5, 0x147FDCDD, 0x3109058D, 0x908658B2, 0x884134FE, 0x05A9,
  0x599FD415, 0xBD4B46F0, 0x34A7EEDE, 0xAA51823E, 0x05AC, 0x7007C91A, 0x6C9E18AC, 0xC1D1EA96, 0xD4E5E2CD, 0x05AF,
  0xC604DDB0, 0x03E2CF6B, 0x9923329E, 0x850FADC0, 0x05B3, 0xB786151C, 0x84DB8346, 0xBF6BFF45, 0xA6539930, 0x05B6,
  0x65679A63, 0xE6126418, 0xEF46FF16, 0xCFE87F7C, 0x05B9, 0x3F60C07E, 0x4FCB7E8F, 0x158C5F6E, 0x81F14FAE, 0x05BD,
  0x0F38F09D, 0xE3BE5E33, 0x9AEF7749, 0xA26DA399, 0x05C0, 0xD3072CC5, 0x5CADF5BF, 0x01AB551C, 0xCB090C80, 0x05C3,
  0xC7C8F7F6, 0x73D9732F, 0x02162A63, 0xFDCB4FA0, 0x05C6, 0xDCDD9AFA, 0x2867E7FD, 0x014DDA7E, 0x9E9F11C4, 0x05CA,
  0x541501B8, 0xB281E1FD, 0x01A1511D, 0xC646D635, 0x05CD, 0xA91A4226, 0x1F225A7C, 0x4209A565, 0xF7D88BC2, 0x05D0,
  0xE9B06958, 0x3375788D, 0x6946075F, 0x9AE75759, 0x05D4, 0x641C83AE, 0x0052D6B1, 0xC3978937, 0xC1A12D2F, 0x05D7,
  0xBD23A49A, 0xC0678C5D, 0xB47D6B84, 0xF209787B, 0x05DA, 0x963646E0, 0xF840B7BA, 0x50CE6332, 0x9745EB4D, 0x05DE,
  0x3BC3D898, 0xB650E5A9, 0xA501FBFF, 0xBD176620, 0x05E1, 0x8AB4CEBE, 0xA3E51F13, 0xCE427AFF, 0xEC5D3FA8, 0x05E4,
  0x36B10137, 0xC66F336C, 0x80E98CDF, 0x93BA47C9, 0x05E8, 0x445D4184, 0xB80B0047, 0xE123F017, 0xB8A8D9BB, 0x05EB,
  0x157491E5, 0xA60DC059, 0xD96CEC1D, 0xE6D3102A, 0x05EE, 0xAD68DB2F, 0x87C89837, 0xC7E41392, 0x9043EA1A, 0x05F2,
  0x98C311FB, 0x29BABE45, 0x79DD1877, 0xB454E4A1, 0x05F5, 0xFEF3D67A, 0xF4296DD6, 0xD8545E94, 0xE16A1DC9, 0x05F8,
  0x5F58660C, 0x1899E4A6, 0x2734BB1D, 0x8CE2529E, 0x05FC, 0xF72E7F8F, 0x5EC05DCF, 0xB101E9E4, 0xB01AE745, 0x05FF,
  0xF4FA1F73, 0x76707543, 0x1D42645D, 0xDC21A117, 0x0602, 0x791C53A8, 0x6A06494A, 0x72497EBA, 0x899504AE, 0x0606,
  0x17636892, 0x0487DB9D, 0x0EDBDE69, 0xABFA45DA, 0x0609, 0x5D3C42B6, 0x45A9D284, 0x9292D603, 0xD6F8D750, 0x060C,
  0xBA45A9B2, 0x0B8A2392, 0x5B9BC5C2, 0x865B8692, 0x0610, 0x68D7141E, 0x8E6CAC77, 0xF282B732, 0xA7F26836, 0x0613,
  0x430CD926, 0x3207D795, 0xAF2364FF, 0xD1EF0244, 0x0616, 0x49E807B8, 0x7F44E6BD, 0xED761F1F, 0x8335616A, 0x061A,
  0x9C6209A6, 0x5F16206C, 0xA8D3A6E7, 0xA402B9C5, 0x061D, 0xC37A8C0F, 0x36DBA887, 0x130890A1, 0xCD036837, 0x0620,
  0xDA2C9789, 0xC2494954, 0x6BE55A64, 0x80222122, 0x0624, 0x10B7BD6C, 0xF2DB9BAA, 0x06DEB0FD, 0xA02AA96B, 0x0627,
  0x94E5ACC7, 0x6F928294, 0xC8965D3D, 0xC83553C5, 0x062A, 0xBA1F17F9, 0xCB772339, 0x3ABBF48C, 0xFA42A8B7, 0x062D,
  0x14536EFB, 0xFF2A7604, 0x84B578D7, 0x9C69A972, 0x0631, 0x19684ABA, 0xFEF51385, 0x25E2D70D, 0xC38413CF, 0x0634,
  0x5FC25D69, 0x7EB25866, 0xEF5B8CD1, 0xF46518C2, 0x0637, 0xFBD97A61, 0xEF2F773F, 0xD5993802, 0x98BF2F79, 0x063B,
  0xFACFD8FA, 0xAAFB550F, 0x4AFF8603, 0xBEEEFB58, 0x063E, 0xF983CF38, 0x95BA2A53, 0x5DBF6784, 0xEEAABA2E, 0x0641,
  0x7BF26183, 0xDD945A74, 0xFA97A0B2, 0x952AB45C, 0x0645, 0x9AEEF9E4, 0x94F97111, 0x393D88DF, 0xBA756174, 0x0648,
  0x01AAB85D, 0x7A37CD56, 0x478CEB17, 0xE912B9D1, 0x064B, 0xC10AB33A, 0xAC62E055, 0xCCB812EE, 0x91ABB422, 0x064F,
  0x314D6009, 0x577B986B, 0x7FE617AA, 0xB616A12B, 0x0652, 0xFDA0B80B, 0xED5A7E85, 0x5FDF9D94, 0xE39C4976, 0x0655,
  0xBE847307, 0x14588F13, 0xFBEBC27D, 0x8E41ADE9, 0x0659, 0xAE258FC8, 0x596EB2D8, 0x7AE6B31C, 0xB1D21964, 0x065C,
  0xD9AEF3BB, 0x6FCA5F8E, 0x99A05FE3, 0xDE469FBD, 0x065F, 0x480D5854, 0x25DE7BB9, 0x80043BEE, 0x8AEC23D6, 0x0663,
  0x9A10AE6A, 0xAF561AA7, 0x20054AE9, 0xADA72CCC, 0x0666, 0x8094DA04, 0x1B2BA151, 0x28069DA4, 0xD910F7FF, 0x0669,
  0xF05D0842, 0x90FB44D2, 0x79042286, 0x87AA9AFF, 0x066D, 0xAC744A53, 0x353A1607, 0x57452B28, 0xA99541BF, 0x0670,
  0x97915CE8, 0x42889B89, 0x2D1675F2, 0xD3FA922F, 0x0673, 0xFEBADA11, 0x69956135, 0x7C2E09B7, 0x847C9B5D, 0x0677,
  0x7E699095, 0x43FAB983, 0xDB398C25, 0xA59BC234, 0x067A, 0x5E03F4BB, 0x94F967E4, 0x1207EF2E, 0xCF02B2C2, 0x067D,
  0xBAC278F5, 0x1D1BE0EE, 0x4B44F57D, 0x8161AFB9, 0x0681, 0x69731732, 0x6462D92A, 0x9E1632DC, 0xA1BA1BA7, 0x0684,
  0x03CFDCFE, 0x7D7B8F75, 0x859BBF93, 0xCA28A291, 0x0687, 0x44C3D43E, 0x5CDA7352, 0xE702AF78, 0xFCB2CB35, 0x068A,
  0x6AFA64A7, 0x3A088813, 0xB061ADAB, 0x9DEFBF01, 0x068E, 0x45B8FDD0, 0x088AAA18, 0x1C7A1916, 0xC56BAEC2, 0x0691,
  0x57273D45, 0x8AAD549E, 0xA3989F5B, 0xF6C69A72, 0x0694, 0xF678864B, 0x36AC54E2, 0xA63F6399, 0x9A3C2087, 0x0698,
  0xB416A7DD, 0x84576A1B, 0x8FCF3C7F, 0xC0CB28A9, 0x069B, 0xA11C51D5, 0x656D44A2, 0xF3C30B9F, 0xF0FDF2D3, 0x069E,
  0xA4B1B325, 0x9F644AE5, 0x7859E743, 0x969EB7C4, 0x06A2, 0x0DDE1FEE, 0x873D5D9F, 0x96706114, 0xBC4665B5, 0x06A5,
  0xD155A7EA, 0xA90CB506, 0xFC0C7959, 0xEB57FF22, 0x06A8, 0x42D588F2, 0x09A7F124, 0xDD87CBD8, 0x9316FF75, 0x06AC,
  0x538AEB2F, 0x0C11ED6D, 0x54E9BECE, 0xB7DCBF53, 0x06AF, 0xA86DA5FA, 0x8F1668C8, 0x2A242E81, 0xE5D3EF28, 0x06B2,
  0x694487BC, 0xF96E017D, 0x1A569D10, 0x8FA47579, 0x06B6, 0xC395A9AC, 0x37C981DC, 0x60EC4455, 0xB38D92D7, 0x06B9,
  0xF47B1417, 0x85BBE253, 0x3927556A, 0xE070F78D, 0x06BC, 0x78CCEC8E, 0x93956D74, 0x43B89562, 0x8C469AB8, 0x06C0,
  0x970027B2, 0x387AC8D1, 0x54A6BABB, 0xAF584166, 0x06C3, 0xFCC0319E, 0x06997B05, 0xE9D0696A, 0xDB2E51BF, 0x06C6,
  0xBDF81F03, 0x441FECE3, 0xF22241E2, 0x88FCF317, 0x06CA, 0xAD7626C3, 0xD527E81C, 0xEEAAD25A, 0xAB3C2FDD, 0x06CD,
  0xD8D3B074, 0x8A71E223, 0x6A5586F1, 0xD60B3BD5, 0x06D0, 0x67844E49, 0xF6872D56, 0x62757456, 0x85C70565, 0x06D4,
  0x016561DB, 0xB428F8AC, 0xBB12D16C, 0xA738C6BE, 0x06D7, 0x01BEBA52, 0xE13336D7, 0x69D785C7, 0xD106F86E, 0x06DA,
  0x61173473, 0xECC00246, 0x0226B39C, 0x82A45B45, 0x06DE, 0xF95D0190, 0x27F002D7, 0x42B06084, 0xA34D7216, 0x06E1,
  0xF7B441F4, 0x31EC038D, 0xD35C78A5, 0xCC20CE9B, 0x06E4, 0x75A15271, 0x7E670471, 0xC83396CE, 0xFF290242, 0x06E7,
  0xE984D386, 0x0F0062C6, 0xBD203E41, 0x9F79A169, 0x06EB, 0xA3E60868, 0x52C07B78, 0x2C684DD1, 0xC75809C4, 0x06EE,
  0xCCDF8A82, 0xA7709A56, 0x37826145, 0xF92E0C35, 0x06F1, 0x400BB691, 0x88A66076, 0x42B17CCB, 0x9BBCC7A1, 0x06F5,
  0xD00EA435, 0x6ACFF893, 0x935DDBFE, 0xC2ABF989, 0x06F8, 0xC4124D43, 0x0583F6B8, 0xF83552FE, 0xF356F7EB, 0x06FB,
  0x7A8B704A, 0xC3727A33, 0x7B2153DE, 0x98165AF3, 0x06FF, 0x592E4C5C, 0x744F18C0, 0x59E9A8D6, 0xBE1BF1B0, 0x0702,
  0x6F79DF73, 0x1162DEF0, 0x7064130C, 0xEDA2EE1C, 0x0705, 0x45AC2BA8, 0x8ADDCB56, 0xC63E8BE7, 0x9485D4D1, 0x0709,
  0xD7173692, 0x6D953E2B, 0x37CE2EE1, 0xB9A74A06, 0x070C, 0xCCDD0437, 0xC8FA8DB6, 0xC5C1BA99, 0xE8111C87, 0x070F,
  0x400A22A2, 0x1D9C9892, 0xDB9914A0, 0x910AB1D4, 0x0713, 0xD00CAB4B, 0x2503BEB6, 0x127F59C8, 0xB54D5E4A, 0x0716,
  0x840FD61D, 0x2E44AE64, 0x971F303A, 0xE2A0B5DC, 0x0719, 0xD289E5D2, 0x5CEAECFE, 0xDE737E24, 0x8DA471A9, 0x071D,
  0x872C5F47, 0x7425A83E, 0x56105DAD, 0xB10D8E14, 0x0720, 0x28F77719, 0xD12F124E, 0x6B947518, 0xDD50F199, 0x0723,
  0xD99AAA6F, 0x82BD6B70, 0xE33CC92F, 0x8A5296FF, 0x0727, 0x1001550B, 0x636CC64D, 0xDC0BFB7B, 0xACE73CBF, 0x072A,
  0x5401AA4E, 0x3C47F7E0, 0xD30EFA5A, 0xD8210BEF, 0x072D, 0x34810A71, 0x65ACFAEC, 0xE3E95C78, 0x8714A775, 0x0731,
  0x41A14D0D, 0x7F1839A7, 0x5CE3B396, 0xA8D9D153, 0x0734, 0x1209A050, 0x1EDE4811, 0x341CA07C, 0xD31045A8, 0x0737,
  0xAB460432, 0x934AED0A, 0x2091E44D, 0x83EA2B89, 0x073B, 0x5617853F, 0xF81DA84D, 0x68B65D60, 0xA4E4B66B, 0x073E,
  0xAB9D668E, 0x36251260, 0x42E3F4B9, 0xCE1DE406, 0x0741, 0x6B426019, 0xC1D72B7C, 0xE9CE78F3, 0x80D2AE83, 0x0745,
  0x8612F81F, 0xB24CF65B, 0xE4421730, 0xA1075A24, 0x0748, 0x6797B627, 0xDEE033F2, 0x1D529CFC, 0xC94930AE, 0x074B,
  0x017DA3B1, 0x169840EF, 0xA4A7443C, 0xFB9B7CD9, 0x074E, 0x60EE864E, 0x8E1F2895, 0x06E88AA5, 0x9D412E08, 0x0752,
  0xB92A27E2, 0xF1A6F2BA, 0x08A2AD4E, 0xC491798A, 0x0755, 0x6774B1DB, 0xAE10AF69, 0x8ACB58A2, 0xF5B5D7EC, 0x0758,
  0xE0A8EF29, 0xACCA6DA1, 0xD6BF1765, 0x9991A6F3, 0x075C, 0x58D32AF3, 0x17FD090A, 0xCC6EDD3F, 0xBFF610B0, 0x075F,
  0xEF07F5B0, 0xDDFC4B4C, 0xFF8A948E, 0xEFF394DC, 0x0762, 0x1564F98E, 0x4ABDAF10, 0x1FB69CD9, 0x95F83D0A, 0x0766,
  0x1ABE37F1, 0x9D6D1AD4, 0xA7A4440F, 0xBB764C4C, 0x0769, 0x216DC5ED, 0x84C86189, 0xD18D5513, 0xEA53DF5F, 0x076C,
  0xB4E49BB4, 0x32FD3CF5, 0xE2F8552C, 0x92746B9B, 0x0770, 0x221DC2A1, 0x3FBC8C33, 0xDBB66A77, 0xB7118682, 0x0773,
  0xEAA5334A, 0x0FABAF3F, 0x92A40515, 0xE4D5E823, 0x0776, 0xF2A7400E, 0x29CB4D87, 0x3BA6832D, 0x8F05B116, 0x077A,
  0xEF511012, 0x743E20E9, 0xCA9023F8, 0xB2C71D5B, 0x077D, 0x6B255416, 0x914DA924, 0xBD342CF6, 0xDF78E4B2, 0x0780,
  0xC2F7548E, 0x1AD089B6, 0xB6409C1A, 0x8BAB8EEF, 0x0784, 0x73B529B1, 0xA184AC24, 0xA3D0C320, 0xAE9672AB, 0x0787,
  0x90A2741E, 0xC9E5D72D, 0x8CC4F3E8, 0xDA3C0F56, 0x078A, 0x7A658892, 0x7E2FA67C, 0x17FB1871, 0x88658996, 0x078E,
  0x98FEEAB7, 0xDDBB901B, 0x9DF9DE8D, 0xAA7EEBFB, 0x0791, 0x7F3EA565, 0x552A7422, 0x85785631, 0xD51EA6FA, 0x0794,
  0x8F87275F, 0xD53A8895, 0x936B35DE, 0x8533285C, 0x0798, 0xF368F137, 0x8A892ABA, 0xB8460356, 0xA67FF273, 0x079B,
  0xB0432D85, 0x2D2B7569, 0xA657842C, 0xD01FEF10, 0x079E, 0x0E29FC73, 0x9C3B2962, 0x67F6B29B, 0x8213F56A, 0x07A2,
  0x91B47B8F, 0x8349F3BA, 0x01F45F42, 0xA298F2C5, 0x07A5, 0x36219A73, 0x241C70A9, 0x42717713, 0xCB3F2F76, 0x07A8,
  0x83AA0110, 0xED238CD3, 0xD30DD4D7, 0xFE0EFB53, 0x07AB, 0x324A40AA, 0xF4363804, 0x63E8A506, 0x9EC95D14, 0x07AF,
  0x3EDCD0D5, 0xB143C605, 0x7CE2CE48, 0xC67BB459, 0x07B2, 0x8E94050A, 0xDD94B786, 0xDC1B81DA, 0xF81AA16F, 0x07B5,
  0x191C8326, 0xCA7CF2B4, 0xE9913128, 0x9B10A4E5, 0x07B9, 0x1F63A3F0, 0xFD1C2F61, 0x63F57D72, 0xC1D4CE1F, 0x07BC,
  0x673C8CEC, 0xBC633B39, 0x3CF2DCCF, 0xF24A01A7, 0x07BF, 0xE085D813, 0xD5BE0503, 0x8617CA01, 0x976E4108, 0x07C3,
  0xD8A74E18, 0x4B2D8644, 0xA79DBC82, 0xBD49D14A, 0x07C6, 0x0ED1219E, 0xDDF8E7D6, 0x51852BA2, 0xEC9C459D, 0x07C9,
  0xC942B503, 0xCABB90E5, 0x52F33B45, 0x93E1AB82, 0x07CD, 0x3B936243, 0x3D6A751F, 0xE7B00A17, 0xB8DA1662, 0x07D0,
  0x0A783AD4, 0x0CC51267, 0xA19C0C9D, 0xE7109BFB, 0x07D3, 0x668B24C5, 0x27FB2B80, 0x450187E2, 0x906A617D, 0x07D7,
  0x802DEDF6, 0xB1F9F660, 0x9641E9DA, 0xB484F9DC, 0x07DA, 0xA0396973, 0x5E7873F8, 0xBBD26451, 0xE1A63853, 0x07DD,
  0x6423E1E8, 0xDB0B487B, 0x55637EB2, 0x8D07E334, 0x07E1, 0x3D2CDA62, 0x91CE1A9A, 0x6ABC5E5F, 0xB049DC01, 0x07E4,
  0xCC7810FB, 0x7641A140, 0xC56B75F7, 0xDC5C5301, 0x07E7, 0x7FCB0A9D, 0xA9E904C8, 0x1B6329BA, 0x89B9B3E1, 0x07EB,
  0x9FBDCD44, 0x546345FA, 0x623BF429, 0xAC2820D9, 0x07EE, 0x47AD4095, 0xA97C1779, 0xBACAF133, 0xD732290F, 0x07F1,
  0xCCCC485D, 0x49ED8EAB, 0xD4BED6C0, 0x867F59A9, 0x07F5, 0xBFFF5A74, 0x5C68F256, 0x49EE8C70, 0xA81F3014, 0x07F8,
  0x6FFF3111, 0x73832EEC, 0x5C6A2F8C, 0xD226FC19, 0x07FB, 0xC5FF7EAB, 0xC831FD53, 0xD9C25DB7, 0x83585D8F, 0x07FF,
  0xB77F5E55, 0xBA3E7CA8, 0xD032F525, 0xA42E74F3, 0x0802, 0xE55F35EB, 0x28CE1BD2, 0xC43FB26F, 0xCD3A1230, 0x0805,
  0xCF5B81B3, 0x7980D163, 0x7AA7CF85, 0x80444B5E, 0x0809, 0xC332621F, 0xD7E105BC, 0x1951C366, 0xA0555E36, 0x080C,
  0xF3FEFAA7, 0x8DD9472B, 0x9FA63440, 0xC86AB5C3, 0x080F, 0xF0FEB951, 0xB14F98F6, 0x878FC150, 0xFA856334, 0x0812,
  0x569F33D3, 0x6ED1BF9A, 0xD4B9D8D2, 0x9C935E00, 0x0816, 0xEC4700C8, 0x0A862F80, 0x09E84F07, 0xC3B83581, 0x0819,
  0x2758C0FA, 0xCD27BB61, 0x4C6262C8, 0xF4A642E1, 0x081C, 0xB897789C, 0x8038D51C, 0xCFBD7DBD, 0x98E7E9CC, 0x0820,
  0xE6BD56C3, 0xE0470A63, 0x03ACDD2C, 0xBF21E440, 0x0823, 0xE06CAC74, 0x1858CCFC, 0x04981478, 0xEEEA5D50, 0x0826,
  0x0C43EBC8, 0x0F37801E, 0x02DF0CCB, 0x95527A52, 0x082A, 0x8F54E6BA, 0xD3056025, 0x8396CFFD, 0xBAA718E6, 0x082D,
  0xF32A2069, 0x47C6B82E, 0x247C83FD, 0xE950DF20, 0x0830, 0x57FA5441, 0x4CDC331D, 0x16CDD27E, 0x91D28B74, 0x0834,
  0xADF8E952, 0xE0133FE4, 0x1C81471D, 0xB6472E51, 0x0837, 0xD97723A6, 0x58180FDD, 0x63A198E5, 0xE3D8F9E5, 0x083A,
  0xA7EA7648, 0x570F09EA, 0x5E44FF8F, 0x8E679C2F, 0x083E, 0x51E513DA, 0x2CD2CC65, 0x35D63F73, 0xB201833B, 0x0841,
  0xA65E58D1, 0xF8077F7E, 0x034BCF4F, 0xDE81E40A, 0x0844
]
/-- WUFFS_BASE__PRIVATE_IMPLEMENTATION__HPD__DECIMAL_POINT__RANGE. -/
def HPD__DECIMAL_POINT__RANGE : Int := 2047

/-- WUFFS_BASE__PRIVATE_IMPLEMENTATION__HPD__DIGITS_PRECISION. -/
def HPD__DIGITS_PRECISION : Nat := 800

/-- WUFFS_BASE__PRIVATE_IMPLEMENTATION__HPD__SHIFT__MAX_INCL. -/
def HPD__SHIFT__MAX_INCL : Nat := 60

/-- wuffs_base__private_implementation__high_prec_dec.  The fixed `uint8_t
digits[800]` array is modelled as a total function; only indices the C code
writes are updated and only indices it reads are consulted. -/
structure HighPrecDec where
  num_digits : Nat
  decimal_point : Int
  negative : Bool
  truncated : Bool
  digits : Nat → Nat

/-- Pointwise store into the modelled digits array (`h->digits[i] = v`). -/
def setDigit (f : Nat → Nat) (i v : Nat) : Nat → Nat :=
  fun j => if j = i then v else f j

/-- The loop of wuffs_base__private_implementation__high_prec_dec__trim:
starting from candidate count `n`, drop trailing zero digits. -/
def trimCount (digits : Nat → Nat) : Nat → Nat
  | 0 => 0
  | n + 1 => if digits n = 0 then trimCount digits n else n + 1

/-- wuffs_base__private_implementation__high_prec_dec__trim. -/
def high_prec_dec__trim (h : HighPrecDec) : HighPrecDec :=
  { h with num_digits := trimCount h.digits h.num_digits }

/-- The digit-extraction do-while loop of high_prec_dec__assign: compute the
decimal digits of x right-to-left (prepending, so the result is
big-endian).  The first argument mirrors the C scratch buffer capacity of
20 bytes (enough for UINT64_MAX, as the C comment notes), so the
out-of-fuel branch is unreachable for any uint64 x. -/
def assignDigitsLoop : Nat → Nat → List Nat → List Nat
  | 0, _, acc => acc
  | fuel + 1, x, acc =>
    let remaining := x / 10
    let digit := x - remaining * 10
    if remaining > 0 then assignDigitsLoop fuel remaining (digit :: acc)
    else digit :: acc

/-- wuffs_base__private_implementation__high_prec_dec__assign.  The C code
computes the decimal digits of x right-to-left into a scratch buffer and
copies them big-endian into h->digits ([] for x = 0). -/
def high_prec_dec__assign (x : Nat) (negative : Bool) : HighPrecDec :=
  let ds : List Nat := if x > 0 then assignDigitsLoop 20 x [] else []
  high_prec_dec__trim
    { num_digits := ds.length
      decimal_point := (ds.length : Int)
      negative := negative
      truncated := false
      digits := fun i => ds.getD i 0 }
/-- The repeated C idiom `for (; (p < q) && (*p == '_'); p++)`. -/
def skipUnderscores : List Nat → List Nat
  | [] => []
  | c :: t => if c = 95 then skipUnderscores t else c :: t

/-- The sign-parsing do-while block shared (textually) by
high_prec_dec__parse and parse_number_f64_special: an optional single
sign character followed, only when a sign was consumed, by an underscore
skip.  Returns (negative, rest). -/
def parseSign : List Nat → Bool × List Nat
  | [] => (false, [])
  | c :: t =>
    if c = 43 then (false, skipUnderscores t)
    else if c = 45 then (true, skipUnderscores t)
    else (false, c :: t)

/-- State of the digit-parsing loop in high_prec_dec__parse (its local
variables nd, dp, saw_digits, saw_non_zero_digits, saw_dot together with the
parts of *h it mutates). -/
structure ParseDigitsState where
  nd : Nat
  dp : Int
  saw_digits : Bool
  saw_non_zero_digits : Bool
  saw_dot : Bool
  truncated : Bool
  digits : Nat → Nat

/-- The main digit loop of high_prec_dec__parse (lines "Parse digits").
Returns (ok, final state, unconsumed rest); ok = false is the early
`return bad_argument` on a duplicate separator or an unnecessary leading
zero, with the state as mutated so far. -/
def parseDigitsLoop (st : ParseDigitsState) : List Nat → Bool × ParseDigitsState × List Nat
  | [] => (true, st, [])
  | c :: t =>
    if c = 95 then
      parseDigitsLoop st t
    else if c = 46 ∨ c = 44 then
      if st.saw_dot then (false, st, c :: t)
      else parseDigitsLoop { st with saw_dot := true, dp := (st.nd : Int) } t
    else if c = 48 then
      if ¬st.saw_dot ∧ ¬st.saw_non_zero_digits ∧ st.saw_digits then (false, st, c :: t)
      else if st.nd = 0 then
        parseDigitsLoop { st with saw_digits := true, dp := st.dp - 1 } t
      else if st.nd < HPD__DIGITS_PRECISION then
        parseDigitsLoop { st with saw_digits := true, digits := setDigit st.digits st.nd 0,
                                  nd := st.nd + 1 } t
      else
        parseDigitsLoop { st with saw_digits := true } t
    else if 48 < c ∧ c ≤ 57 then
      if ¬st.saw_dot ∧ ¬st.saw_non_zero_digits ∧ st.saw_digits then (false, st, c :: t)
      else if st.nd < HPD__DIGITS_PRECISION then
        parseDigitsLoop { st with saw_digits := true, saw_non_zero_digits := true,
                                  digits := setDigit st.digits st.nd (c - 48),
                                  nd := st.nd + 1 } t
      else
        parseDigitsLoop { st with saw_digits := true, saw_non_zero_digits := true,
                                  truncated := true } t
    else (true, st, c :: t)

/-- The exponent-digit loop of high_prec_dec__parse, with the saturation
threshold exp_large = DECIMAL_POINT__RANGE + DIGITS_PRECISION = 2847.
Returns (exp, saw_exp_digits, rest). -/
def parseExpDigitsLoop (exp : Int) (sawd : Bool) : List Nat → Int × Bool × List Nat
  | [] => (exp, sawd, [])
  | c :: t =>
    if c = 95 then parseExpDigitsLoop exp sawd t
    else if 48 ≤ c ∧ c ≤ 57 then
      parseExpDigitsLoop
        (if exp < HPD__DECIMAL_POINT__RANGE + (HPD__DIGITS_PRECISION : Int) then
          10 * exp + ((c : Int) - 48)
        else exp) true t
    else (exp, sawd, c :: t)

/-- The exponent-sign parse inside high_prec_dec__parse (no underscore skip
after the sign, unlike the mantissa sign). -/
def parseExpSign : List Nat → Int × List Nat
  | [] => (1, [])
  | c :: t =>
    if c = 43 then (1, t)
    else if c = 45 then (-1, t)
    else (1, c :: t)

/-- The "Finish." tail of high_prec_dec__parse: set num_digits, saturate
decimal_point to the ±(2047+1) sentinels, trim. -/
def hpdParseFinish (st : ParseDigitsState) (neg : Bool) (dp : Int) : Status × HighPrecDec :=
  (Status.null, high_prec_dec__trim
    { num_digits := st.nd
      decimal_point :=
        if st.nd = 0 then 0
        else if dp < -HPD__DECIMAL_POINT__RANGE then -HPD__DECIMAL_POINT__RANGE - 1
        else if dp > HPD__DECIMAL_POINT__RANGE then HPD__DECIMAL_POINT__RANGE + 1
        else dp
      negative := neg
      truncated := st.truncated
      digits := st.digits })

/-- wuffs_base__private_implementation__high_prec_dec__parse.  `h0` is the
caller's HPD (the C code receives a non-NULL pointer and first zeroes the
header fields; the digits array keeps its previous contents until written).
On a bad_argument return the HPD is exactly as the C code leaves it:
header fields zeroed, digits written as far as the loop got. -/
def high_prec_dec__parse (h0 : HighPrecDec) (s : List Nat) : Status × HighPrecDec :=
  let h : HighPrecDec :=
    { h0 with num_digits := 0, decimal_point := 0, negative := false, truncated := false }
  match skipUnderscores s with
  | [] => (Status.badArgument, h)
  | c0 :: t0 =>
    let (neg, p) := parseSign (c0 :: t0)
    let (ok, st, rest) :=
      parseDigitsLoop
        { nd := 0, dp := 0, saw_digits := false, saw_non_zero_digits := false,
          saw_dot := false, truncated := false, digits := h.digits } p
    let hFail : HighPrecDec := { h with negative := neg, truncated := st.truncated, digits := st.digits }
    if ¬ok then (Status.badArgument, hFail)
    else if ¬st.saw_digits then (Status.badArgument, hFail)
    else
      let dp : Int := if st.saw_dot then st.dp else (st.nd : Int)
      match rest with
      | [] => hpdParseFinish st neg dp
      | c :: t =>
        if c = 69 ∨ c = 101 then
          match skipUnderscores t with
          | [] => (Status.badArgument, hFail)
          | c1 :: t1 =>
            let (exp_sign, p2) := parseExpSign (c1 :: t1)
            let (exp, saw_exp_digits, rest2) := parseExpDigitsLoop 0 false p2
            if ¬saw_exp_digits then (Status.badArgument, hFail)
            else
              match rest2 with
              | [] => hpdParseFinish st neg (dp + exp_sign * exp)
              | _ :: _ => (Status.badArgument, hFail)
        else (Status.badArgument, hFail)
/-- The comparison loop of
wuffs_base__private_implementation__high_prec_dec__lshift_num_new_digits:
compare h's digits lexicographically against
powers_of_5[pow5_a .. pow5_a + n), deciding between num_new_digits and
num_new_digits - 1.  `fuel` only bounds the recursion (callers pass n + 1,
one more than the loop can iterate), keeping the definition structurally
recursive; the out-of-fuel branch is unreachable. -/
def lshiftCmpLoop (h : HighPrecDec) (pow5_a num_new_digits n : Nat) :
    Nat → Nat → Nat
  | 0, _ => num_new_digits
  | fuel + 1, i =>
    if i < n then
      if i ≥ h.num_digits then num_new_digits - 1
      else if h.digits i = wuffs_powers_of_5.getD (pow5_a + i) 0 then
        lshiftCmpLoop h pow5_a num_new_digits n fuel (i + 1)
      else if h.digits i < wuffs_powers_of_5.getD (pow5_a + i) 0 then num_new_digits - 1
      else num_new_digits
    else num_new_digits

/-- wuffs_base__private_implementation__high_prec_dec__lshift_num_new_digits. -/
def high_prec_dec__lshift_num_new_digits (h : HighPrecDec) (shift : Nat) : Nat :=
  let shift := shift &&& 63
  let x_a := wuffs_hpd_left_shift.getD shift 0
  let x_b := wuffs_hpd_left_shift.getD (shift + 1) 0
  let num_new_digits := x_a >>> 11
  let pow5_a := 0x7FF &&& x_a
  let pow5_b := 0x7FF &&& x_b
  lshiftCmpLoop h pow5_a num_new_digits (pow5_b - pow5_a) (pow5_b - pow5_a + 1) 0

/-- Accumulation loop of
wuffs_base__private_implementation__high_prec_dec__rounded_integer:
`for (; i < dp; i++) { n = (10 * n) + ((i < num_digits) ? digits[i] : 0); }`
on a uint64 accumulator.  `fuel` = dp + 1 at the call site; the
out-of-fuel branch is unreachable. -/
def riAccLoop (h : HighPrecDec) (dp : Nat) : Nat → Nat → Nat → Nat
  | 0, _, n => n
  | fuel + 1, i, n =>
    if i < dp then
      riAccLoop h dp fuel (i + 1) ((10 * n + (if i < h.num_digits then h.digits i else 0)) % 2 ^ 64)
    else n

/-- wuffs_base__private_implementation__high_prec_dec__rounded_integer. -/
def high_prec_dec__rounded_integer (h : HighPrecDec) : Nat :=
  if h.num_digits = 0 ∨ h.decimal_point < 0 then 0
  else if h.decimal_point > 18 then 2 ^ 64 - 1
  else
    let dp := h.decimal_point.toNat
    let n := riAccLoop h dp (dp + 1) 0 0
    let round_up : Bool :=
      if dp < h.num_digits then
        if h.digits dp = 5 ∧ dp + 1 = h.num_digits then
          h.truncated || decide (0 < dp ∧ h.digits (dp - 1) % 2 = 1)
        else decide (5 ≤ h.digits dp)
      else false
    if round_up then (n + 1) % 2 ^ 64 else n

/-- Mutable state threaded through the two loops of small_lshift: the digits
array, the truncated flag, the uint64 carry n, and the (signed view of the)
write index wx.  In the C code wx is a uint32 that may wrap below zero at
the very end; the write guard `wx < 800` then fails, which the Int model
expresses as `0 ≤ wx ∧ wx < 800`. -/
structure LshiftSt where
  digits : Nat → Nat
  truncated : Bool
  n : Nat
  wx : Int

/-- One store step shared by both small_lshift loops: write `rem` at wx when
in range, else record truncation for a non-zero remainder; then move wx
down. -/
def lshiftStore (st : LshiftSt) (rem : Nat) : LshiftSt :=
  if 0 ≤ st.wx ∧ st.wx < (HPD__DIGITS_PRECISION : Int) then
    { st with digits := setDigit st.digits st.wx.toNat rem, wx := st.wx - 1 }
  else if rem > 0 then { st with truncated := true, wx := st.wx - 1 }
  else { st with wx := st.wx - 1 }

/-- First loop of small_lshift ("pick up a digit, put down a digit, right to
left"); `k` counts the remaining reads, the current read index is k - 1. -/
def lshiftReadLoop (shift : Nat) : Nat → LshiftSt → LshiftSt
  | 0, st => st
  | k + 1, st =>
    let n := (st.n + (st.digits k <<< shift)) % 2 ^ 64
    let quo := n / 10
    let rem := n - 10 * quo
    let st1 := lshiftStore st rem
    lshiftReadLoop shift k { digits := st1.digits, truncated := st1.truncated, n := quo, wx := st1.wx }

/-- Second loop of small_lshift ("put down leading digits, right to left");
`while (n > 0) { ... n /= 10 ... }`.  The carry n is a uint64, so it has at
most 20 decimal digits and the loop runs at most 20 times; callers pass
fuel = 24 and the out-of-fuel branch is unreachable. -/
def lshiftWriteLoop : Nat → LshiftSt → LshiftSt
  | 0, st => st
  | fuel + 1, st =>
    if st.n = 0 then st
    else
      let quo := st.n / 10
      let rem := st.n - 10 * quo
      let st1 := lshiftStore st rem
      lshiftWriteLoop fuel { digits := st1.digits, truncated := st1.truncated, n := quo, wx := st1.wx }

/-- wuffs_base__private_implementation__high_prec_dec__small_lshift, up to
but not including the final trim (the C function's last statement). -/
def high_prec_dec__small_lshift_pretrim (h : HighPrecDec) (shift : Nat) : HighPrecDec :=
  let num_new_digits := high_prec_dec__lshift_num_new_digits h shift
  let st0 : LshiftSt :=
    { digits := h.digits, truncated := h.truncated, n := 0,
      wx := (h.num_digits : Int) - 1 + num_new_digits }
  let st1 := lshiftReadLoop shift h.num_digits st0
  let st2 := lshiftWriteLoop 24 st1
  { num_digits := min (h.num_digits + num_new_digits) HPD__DIGITS_PRECISION
    decimal_point := h.decimal_point + num_new_digits
    negative := h.negative
    truncated := st2.truncated
    digits := st2.digits }

/-- wuffs_base__private_implementation__high_prec_dec__small_lshift. -/
def high_prec_dec__small_lshift (h : HighPrecDec) (shift : Nat) : HighPrecDec :=
  if h.num_digits = 0 then h
  else high_prec_dec__trim (high_prec_dec__small_lshift_pretrim h shift)

/-- The inner zero-padding loop of small_rshift ("read sufficient implicit
trailing zeroes"): `while ((n >> shift) == 0) { n = 10 * n; rx++ }`, entered
with n ≠ 0.  Starting from n ≥ 1, at most `shift` multiplications by 10
reach n ≥ 10^shift ≥ 2^shift, so callers pass fuel = shift + 2 and the
out-of-fuel branch is unreachable. -/
def rshiftZeroPad (shift : Nat) : Nat → Nat → Nat → Nat × Nat
  | 0, n, rx => (n, rx)
  | fuel + 1, n, rx =>
    if n >>> shift ≠ 0 then (n, rx)
    else rshiftZeroPad shift fuel (10 * n) (rx + 1)

/-- First loop of small_rshift ("pick up enough leading digits to cover the
first shift").  Returns none for the early `return` when h's number used to
be zero and remains zero, else some (n, rx).  The loop reads at most
num_digits digits before switching to implicit zeroes; callers pass
fuel = num_digits + shift + 2 and the out-of-fuel branch is unreachable. -/
def rshiftPickup (shift : Nat) (h : HighPrecDec) : Nat → Nat → Nat → Option (Nat × Nat)
  | 0, n, rx => some (n, rx)
  | fuel + 1, n, rx =>
    if n >>> shift ≠ 0 then some (n, rx)
    else if rx < h.num_digits then
      rshiftPickup shift h fuel (10 * n + h.digits rx) (rx + 1)
    else if n = 0 then none
    else some (rshiftZeroPad shift (shift + 2) n rx)

/-- Main loop of small_rshift ("pick up a digit, put down a digit, left to
right").  Returns (digits, n, wx).  Callers pass fuel = num_digits + 1;
out of fuel is unreachable. -/
def rshiftMainLoop (shift : Nat) (h : HighPrecDec) (mask : Nat) :
    Nat → (Nat → Nat) → Nat → Nat → Nat → (Nat → Nat) × Nat × Nat
  | 0, digits, n, _rx, wx => (digits, n, wx)
  | fuel + 1, digits, n, rx, wx =>
    if rx < h.num_digits then
      let new_digit := (n >>> shift) % 256
      rshiftMainLoop shift h mask fuel (setDigit digits wx new_digit)
        (10 * (n &&& mask) + digits rx) (rx + 1) (wx + 1)
    else (digits, n, wx)

/-- Trailing loop of small_rshift ("put down trailing digits, left to
right").  Each pass replaces n by 10 * (n mod 2^shift), which raises the
2-adic valuation by one, so after at most shift passes n is divisible by
2^shift and the pass after that yields n = 0: callers pass
fuel = shift + 2 and the out-of-fuel branch is unreachable. -/
def rshiftTrailingLoop (shift mask : Nat) :
    Nat → (Nat → Nat) → Bool → Nat → Nat → (Nat → Nat) × Bool × Nat
  | 0, digits, trunc, _n, wx => (digits, trunc, wx)
  | fuel + 1, digits, trunc, n, wx =>
    if n = 0 then (digits, trunc, wx)
    else
      let new_digit := (n >>> shift) % 256
      if wx < HPD__DIGITS_PRECISION then
        rshiftTrailingLoop shift mask fuel (setDigit digits wx new_digit) trunc
          (10 * (n &&& mask)) (wx + 1)
      else
        rshiftTrailingLoop shift mask fuel digits
          (if new_digit > 0 then true else trunc) (10 * (n &&& mask)) wx

/-- wuffs_base__private_implementation__high_prec_dec__small_rshift. -/
def high_prec_dec__small_rshift (h : HighPrecDec) (shift : Nat) : HighPrecDec :=
  match rshiftPickup shift h (h.num_digits + shift + 2) 0 0 with
  | none => h
  | some (n, rx) =>
    let dp := h.decimal_point - ((rx : Int) - 1)
    if dp < -HPD__DECIMAL_POINT__RANGE then
      { num_digits := 0, decimal_point := 0, negative := false, truncated := false,
        digits := h.digits }
    else
      let mask := (1 <<< shift) - 1
      let r1 := rshiftMainLoop shift h mask (h.num_digits + 1) h.digits n rx 0
      let r2 := rshiftTrailingLoop shift mask (shift + 2) r1.1 h.truncated r1.2.1 r1.2.2
      high_prec_dec__trim
        { num_digits := r2.2.2, decimal_point := dp, negative := h.negative,
          truncated := r2.2.1, digits := r2.1 }

/-- The positive branch of
wuffs_base__private_implementation__high_prec_dec__lshift: left-shift in
chunks of at most 60 (`while (shift > 60)`), then once more.  Callers pass
fuel = shift, far above the chunk count; out of fuel falls through to the
final small shift. -/
def lshiftPosLoop (h : HighPrecDec) : Nat → Nat → HighPrecDec
  | 0, shift => high_prec_dec__small_lshift h shift
  | fuel + 1, shift =>
    if shift > HPD__SHIFT__MAX_INCL then
      lshiftPosLoop (high_prec_dec__small_lshift h HPD__SHIFT__MAX_INCL) fuel
        (shift - HPD__SHIFT__MAX_INCL)
    else high_prec_dec__small_lshift h shift

/-- The negative branch of lshift: right-shift in chunks of at most 60. -/
def rshiftNegLoop (h : HighPrecDec) : Nat → Nat → HighPrecDec
  | 0, shift => high_prec_dec__small_rshift h shift
  | fuel + 1, shift =>
    if shift > HPD__SHIFT__MAX_INCL then
      rshiftNegLoop (high_prec_dec__small_rshift h HPD__SHIFT__MAX_INCL) fuel
        (shift - HPD__SHIFT__MAX_INCL)
    else high_prec_dec__small_rshift h shift

/-- wuffs_base__private_implementation__high_prec_dec__lshift (signed shift:
positive means left, negative means right, zero is a no-op). -/
def high_prec_dec__lshift (h : HighPrecDec) (shift : Int) : HighPrecDec :=
  if shift > 0 then lshiftPosLoop h shift.toNat shift.toNat
  else if shift < 0 then rshiftNegLoop h (-shift).toNat (-shift).toNat
  else h
/-- wuffs_base__private_implementation__high_prec_dec__round_down. -/
def high_prec_dec__round_down (h : HighPrecDec) (n : Int) : HighPrecDec :=
  if n < 0 ∨ (h.num_digits : Int) ≤ n then h
  else high_prec_dec__trim { h with num_digits := n.toNat }

/-- The downward scan of
wuffs_base__private_implementation__high_prec_dec__round_up
(`for (n--; n >= 0; n--)`); `k` is the number of candidate positions left,
the current position is k - 1; k = 0 is the "all 9s" tail. -/
def roundUpLoop (h : HighPrecDec) : Nat → HighPrecDec
  | 0 =>
    { h with digits := setDigit h.digits 0 1, num_digits := 1,
             decimal_point := h.decimal_point + 1 }
  | k + 1 =>
    if h.digits k < 9 then
      { h with digits := setDigit h.digits k (h.digits k + 1), num_digits := k + 1 }
    else roundUpLoop h k

/-- wuffs_base__private_implementation__high_prec_dec__round_up. -/
def high_prec_dec__round_up (h : HighPrecDec) (n : Int) : HighPrecDec :=
  if n < 0 ∨ (h.num_digits : Int) ≤ n then h
  else roundUpLoop h n.toNat

/-- wuffs_base__private_implementation__high_prec_dec__round_nearest. -/
def high_prec_dec__round_nearest (h : HighPrecDec) (n : Int) : HighPrecDec :=
  if n < 0 ∨ (h.num_digits : Int) ≤ n then h
  else
    let nn := n.toNat
    let up : Bool :=
      if h.digits nn = 5 ∧ nn + 1 = h.num_digits then
        h.truncated ∨ (0 < nn ∧ h.digits (nn - 1) % 2 = 1)
      else 5 ≤ h.digits nn
    if up then high_prec_dec__round_up h n else high_prec_dec__round_down h n

/-- The digit-walking loop of
wuffs_base__private_implementation__high_prec_dec__round_just_enough.
upper_delta is the three-state tracker (-1 / 0 / +1); ui is upper's digit
index.  The loop breaks once hi = ui - upper.decimal_point + h.decimal_point
reaches num_digits, i.e. within (num_digits + upper.decimal_point -
h.decimal_point) + 1 iterations; the caller passes one more than that as
structural fuel, so the out-of-fuel branch is unreachable.  The C reads `digits[zi]` under the guard `(uint32_t)zi < num_digits`,
which on a negative zi is false; the Int model writes that guard as
`0 ≤ zi ∧ zi < num_digits`. -/
def rjeLoop (h lower upper : HighPrecDec) (inclusive : Bool) :
    Nat → Int → Int → HighPrecDec
  | 0, _, _ => h
  | fuel + 1, upper_delta, ui =>
    let hi := ui - upper.decimal_point + h.decimal_point
    if (h.num_digits : Int) ≤ hi then h
    else
      let hd := if 0 ≤ hi ∧ hi < (h.num_digits : Int) then h.digits hi.toNat else 0
      let li := ui - upper.decimal_point + lower.decimal_point
      let ld := if 0 ≤ li ∧ li < (lower.num_digits : Int) then lower.digits li.toNat else 0
      let can_round_down : Bool :=
        ld ≠ hd ∨ (inclusive ∧ li + 1 = (lower.num_digits : Int))
      let ud := if 0 ≤ ui ∧ ui < (upper.num_digits : Int) then upper.digits ui.toNat else 0
      let upper_delta1 : Int :=
        if upper_delta < 0 then
          if hd + 1 < ud then 1
          else if hd ≠ ud then 0
          else upper_delta
        else if upper_delta = 0 then
          if hd ≠ 9 ∨ ud ≠ 0 then 1 else upper_delta
        else upper_delta
      let can_round_up : Bool :=
        upper_delta1 > 0 ∨
          (upper_delta1 = 0 ∧ (inclusive ∨ ui + 1 < (upper.num_digits : Int)))
      if can_round_down then
        if can_round_up then high_prec_dec__round_nearest h (hi + 1)
        else high_prec_dec__round_down h (hi + 1)
      else
        if can_round_up then high_prec_dec__round_up h (hi + 1)
        else rjeLoop h lower upper inclusive fuel upper_delta1 (ui + 1)

/-- wuffs_base__private_implementation__high_prec_dec__round_just_enough. -/
def high_prec_dec__round_just_enough (h : HighPrecDec) (exp2 : Int) (mantissa : Nat) :
    HighPrecDec :=
  if mantissa = 0 ∨ (exp2 < 53 ∧ h.decimal_point ≥ (h.num_digits : Int)) then h
  else
    let min_incl_normal_exp2 : Int := -1022
    let min_incl_normal_mantissa : Nat := 0x0010000000000000
    let le : Int × Nat :=
      if exp2 > min_incl_normal_exp2 ∧ mantissa ≤ min_incl_normal_mantissa then
        (exp2 - 1, 2 * mantissa - 1)
      else (exp2, mantissa - 1)
    let lower :=
      high_prec_dec__lshift (high_prec_dec__assign (2 * le.2 + 1) false) (le.1 - 53)
    let upper :=
      high_prec_dec__lshift (high_prec_dec__assign (2 * mantissa + 1) false) (exp2 - 53)
    let inclusive := mantissa % 2 = 0
    rjeLoop h lower upper inclusive
      (((h.num_digits : Int) + upper.decimal_point - h.decimal_point).toNat + 2) (-1) 0
/-- Binary length of a natural number (number of bits), written as a
structural recursion on a fuel bound so that concrete instances reduce in
the kernel; every caller passes fuel at least the actual bit length. -/
def bitLen : Nat → Nat → Nat
  | 0, _ => 0
  | fuel + 1, n => if n = 0 then 0 else bitLen fuel (n / 2) + 1

/-- wuffs_base__count_leading_zeroes_u64 (defined in the wuffs base headers,
outside this file): the number of leading zero bits of a uint64. -/
def count_leading_zeroes_u64 (u : Nat) : Nat :=
  64 - bitLen 64 u

/-- wuffs_base__multiply_u64 (defined in the wuffs base headers, outside this
file): the full 64x64 -> 128 bit product, split as (hi, lo). -/
def multiply_u64 (x y : Nat) : Nat × Nat :=
  ((x * y) / 2 ^ 64, (x * y) % 2 ^ 64)

/-- wuffs_base__private_implementation__medium_prec_bin. -/
structure MediumPrecBin where
  mantissa : Nat
  exp2 : Int
deriving DecidableEq, Repr

/-- wuffs_base__private_implementation__medium_prec_bin__normalize.  Returns
(shift, normalized m). -/
def medium_prec_bin__normalize (m : MediumPrecBin) : Nat × MediumPrecBin :=
  if m.mantissa = 0 then (0, m)
  else
    let shift := count_leading_zeroes_u64 m.mantissa
    (shift, { mantissa := (m.mantissa <<< shift) % 2 ^ 64, exp2 := m.exp2 - shift })

/-- wuffs_base__private_implementation__medium_prec_bin__mul_pow_10.  The C
function receives a pointer into the powers_of_10 array; here `p` is the
corresponding flat index (the caller passes 5 * (exp10 + 326)), so
p[2] | (p[3] << 32) is the high half of the 128-bit tabulated mantissa and
p[4] is the biased exponent. -/
def medium_prec_bin__mul_pow_10 (m : MediumPrecBin) (p : Nat) : MediumPrecBin :=
  let p_mantissa :=
    wuffs_powers_of_10.getD (p + 2) 0 ||| (wuffs_powers_of_10.getD (p + 3) 0 <<< 32)
  let p_exp2 : Int := (wuffs_powers_of_10.getD (p + 4) 0 : Int)
  let o := multiply_u64 m.mantissa p_mantissa
  { mantissa := (o.1 + (o.2 >>> 63)) % 2 ^ 64
    exp2 := m.exp2 + p_exp2 + 128 - 1214 }

/-- wuffs_base__private_implementation__medium_prec_bin__as_f64: convert m to
a double, returned as its bit pattern. -/
def medium_prec_bin__as_f64 (m : MediumPrecBin) (negative : Bool) : Nat :=
  let mantissa64 := m.mantissa
  let exp2a := m.exp2 + 63
  let step1 : Nat × Int :=
    if -1022 > exp2a then (mantissa64 >>> (-1022 - exp2a).toNat, -1022)
    else (mantissa64, exp2a)
  let mantissa53 := step1.1 >>> 11
  let step2 : Nat × Int :=
    if step1.1 &&& 1024 ≠ 0 then
      if (mantissa53 + 1) >>> 53 ≠ 0 then ((mantissa53 + 1) >>> 1, step1.2 + 1)
      else (mantissa53 + 1, step1.2)
    else (mantissa53, step1.2)
  let step3 : Nat × Int :=
    if step2.2 ≥ 1024 then (0, 1024)
    else if step2.1 >>> 52 = 0 then (step2.1, -1023)
    else step2
  let f64_bias : Int := -1023
  let exp2_bits := (step3.2 - f64_bias).toNat &&& 0x7FF
  (step3.1 &&& 0x000FFFFFFFFFFFFF) ||| (exp2_bits <<< 52) |||
    (if negative then 0x8000000000000000 else 0)

/-- Exact value of a finite binary64 bit pattern as a sign and a fraction
(numerator, positive denominator); both are powers-of-two scalings of the
mantissa, so the value is num / den exactly.  An Inf/NaN exponent field
yields (sign, 0, 1), but no caller applies it there. -/
def f64BitsToFrac (bits : Nat) : Bool × Nat × Nat :=
  let sign := bits >>> 63 ≠ 0
  let e := (bits >>> 52) &&& 0x7FF
  let man := bits &&& 0x000FFFFFFFFFFFFF
  if e = 0x7FF then (sign, 0, 1)
  else if e = 0 then (sign, man, 2 ^ 1074)
  else if e ≥ 1075 then (sign, (2 ^ 52 + man) <<< (e - 1075), 1)
  else (sign, 2 ^ 52 + man, 2 ^ (1075 - e))

/-- Floor of the base-2 logarithm of the positive fraction num / den.  The
bit lengths of num and den pin the logarithm to two candidates; one exact
comparison picks the right one. -/
def fracLog2 (num den : Nat) : Int :=
  let e0 : Int := (bitLen 4096 num : Int) - (bitLen 4096 den : Int) - 1
  let e1 := e0 + 1
  let holds : Bool :=
    if e1 ≥ 0 then num ≥ den <<< e1.toNat else num <<< (-e1).toNat ≥ den
  if holds then e1 else e0

/-- IEEE 754 binary64 round-to-nearest-even of the exact value
(-1)^negative * num / den (den > 0), as a bit pattern; overflow saturates
to ±Inf, underflow to a signed zero.  This is the IEEE semantics of the C
double arithmetic on the fast path: a finite double operation rounds its
exact result. -/
def fracToF64Bits (negative : Bool) (num den : Nat) : Nat :=
  let sign : Nat := if negative then 0x8000000000000000 else 0
  if num = 0 ∨ den = 0 then sign
  else
    let p : Int := max (fracLog2 num den - 52) (-1074)
    let scaled : Nat × Nat :=
      if p ≥ 0 then (num, den <<< p.toNat) else (num <<< (-p).toNat, den)
    let q := scaled.1 / scaled.2
    let r := scaled.1 % scaled.2
    let n0 :=
      if 2 * r < scaled.2 then q
      else if 2 * r > scaled.2 then q + 1
      else if q % 2 = 0 then q else q + 1
    let np : Nat × Int := if n0 = 2 ^ 53 then (2 ^ 52, p + 1) else (n0, p)
    if np.1 = 0 then sign
    else if np.2 + 52 > 1023 then sign ||| 0x7FF0000000000000
    else if np.1 < 2 ^ 52 then sign ||| np.1
    else sign ||| (((np.2 + 52 + 1023).toNat &&& 0x7FF) <<< 52) ||| (np.1 - 2 ^ 52)

/-- The C cast `(double)mantissa` (round uint64 to double). -/
def f64_from_u64 (x : Nat) : Nat := fracToF64Bits false x 1

/-- C double multiplication on finite operands, on bit patterns. -/
def f64_mul (x y : Nat) : Nat :=
  let a := f64BitsToFrac x
  let b := f64BitsToFrac y
  fracToF64Bits (xor a.1 b.1) (a.2.1 * b.2.1) (a.2.2 * b.2.2)

/-- C double division on finite operands, on bit patterns. -/
def f64_div (x y : Nat) : Nat :=
  let a := f64BitsToFrac x
  let b := f64BitsToFrac y
  fracToF64Bits (xor a.1 b.1) (a.2.1 * b.2.2) (a.2.2 * b.2.1)

/-- The C comparison `d >= 1e15` on a finite nonnegative double d. -/
def f64_ge_1e15 (bits : Nat) : Bool :=
  let a := f64BitsToFrac bits
  ¬a.1 ∧ a.2.1 ≥ 10 ^ 15 * a.2.2

/-- `h->negative ? -d : +d` for a non-negative finite double d. -/
def applySign (negative : Bool) (bits : Nat) : Nat :=
  if negative then bits ||| 0x8000000000000000 else bits

/-- wuffs_base__private_implementation__f64_powers_of_10: the 23 powers of
ten 1e0 .. 1e22 that a float64 represents exactly, as bit patterns. -/
def f64_pow10 (k : Nat) : Nat := fracToF64Bits false (10 ^ k) 1

/-- The mantissa-accumulation loop of
medium_prec_bin__parse_number_f64: fold the first i_end decimal digits into
a uint64.  The caller passes fuel = i_end + 1; out of fuel is
unreachable. -/
def mpbAccLoop (h : HighPrecDec) (i_end : Nat) : Nat → Nat → Nat → Nat
  | 0, _, n => n
  | fuel + 1, i, n =>
    if i < i_end then
      mpbAccLoop h i_end fuel (i + 1) ((10 * n + h.digits i) % 2 ^ 64)
    else n

/-- The "Try a fast path, if float64 math would be exact" block of
medium_prec_bin__parse_number_f64; none is the `break` out of the
do-while (fall through to the long multiplication). -/
def mpbFastShortcut (h : HighPrecDec) (mantissa : Nat) (exp10 : Int)
    (skip_fast_path_for_tests : Bool) : Option ResultF64 :=
  if skip_fast_path_for_tests ∨ mantissa >>> 52 ≠ 0 then none
  else
    let d := f64_from_u64 mantissa
    if exp10 = 0 then some ⟨Status.null, applySign h.negative d⟩
    else if exp10 > 0 then
      if exp10 > 22 then
        if exp10 > 15 + 22 then none
        else
          let d2 := f64_mul d (f64_pow10 (exp10 - 22).toNat)
          if f64_ge_1e15 d2 then none
          else some ⟨Status.null, applySign h.negative (f64_mul d2 (f64_pow10 22))⟩
      else some ⟨Status.null, applySign h.negative (f64_mul d (f64_pow10 exp10.toNat))⟩
    else
      if exp10 < -22 then none
      else some ⟨Status.null, applySign h.negative (f64_div d (f64_pow10 (-exp10).toNat))⟩

/-- The uint64 -> int64 reinterpretation used for the final *signed*
surplus / halfway / error comparison. -/
def toInt64 (x : Nat) : Int :=
  if x % 2 ^ 64 < 2 ^ 63 then (x % 2 ^ 64 : Int) else (x % 2 ^ 64 : Int) - 2 ^ 64

/-- wuffs_base__private_implementation__medium_prec_bin__parse_number_f64.
The scratch MPB m is internal state here; the C caller only consumes the
returned result. -/
def medium_prec_bin__parse_number_f64 (h : HighPrecDec)
    (skip_fast_path_for_tests : Bool) : ResultF64 :=
  let error0 : Nat := if h.num_digits > 19 then 1 else 0
  let i_end := min h.num_digits 19
  let mantissa := mpbAccLoop h i_end (i_end + 1) 0 0
  let m : MediumPrecBin := { mantissa := mantissa, exp2 := 0 }
  let exp10 : Int := h.decimal_point - (i_end : Int)
  if exp10 < -326 ∨ 310 < exp10 then ⟨Status.mpbFailed, 0⟩
  else
    match mpbFastShortcut h mantissa exp10 skip_fast_path_for_tests with
    | some ret => ret
    | none =>
      let n1 := medium_prec_bin__normalize m
      let error1 := error0 <<< n1.1
      let m2 := medium_prec_bin__mul_pow_10 n1.2 (5 * (exp10 + 326)).toNat
      let error2 := error1 + 2
      let n3 := medium_prec_bin__normalize m2
      let error3 := error2 <<< n3.1
      let m3 := n3.2
      let f64_bias : Int := -1023
      let subnormal_exp2 : Int := f64_bias - 63
      let surplus_bits : Nat :=
        if subnormal_exp2 ≥ m3.exp2 then 11 + (1 + (subnormal_exp2 - m3.exp2).toNat)
        else 11
      let surplus_mask := (1 <<< surplus_bits) - 1
      let surplus := m3.mantissa &&& surplus_mask
      let halfway := (1 <<< (surplus_bits - 1)) % 2 ^ 64
      let i_surplus := toInt64 surplus
      let i_halfway := toInt64 halfway
      let i_error := toInt64 error3
      if i_surplus > i_halfway - i_error ∧ i_surplus < i_halfway + i_error then
        ⟨Status.mpbFailed, 0⟩
      else ⟨Status.null, medium_prec_bin__as_f64 m3 h.negative⟩
/-- The token-recognition core of wuffs_base__parse_number_f64_special:
underscore padding, optional sign, then case-insensitive Inf / Infinity /
NaN with optional trailing underscore padding.  Returns some (negative, nan)
on acceptance, none for every `goto fallback`. -/
def special_token (s : List Nat) : Option (Bool × Bool) :=
  match skipUnderscores s with
  | [] => none
  | c0 :: t0 =>
    let sp := parseSign (c0 :: t0)
    let negative := sp.1
    match sp.2 with
    | [] => none
    | c :: t =>
      if c = 73 ∨ c = 105 then
        match t with
        | c1 :: c2 :: t2 =>
          if (c1 = 78 ∨ c1 = 110) ∧ (c2 = 70 ∨ c2 = 102) then
            match t2 with
            | [] => some (negative, false)
            | d :: _ =>
              if d = 95 then
                if skipUnderscores t2 = [] then some (negative, false) else none
              else
                match t2 with
                | d1 :: d2 :: d3 :: d4 :: d5 :: t3 =>
                  if (d1 = 73 ∨ d1 = 105) ∧ (d2 = 78 ∨ d2 = 110) ∧
                      (d3 = 73 ∨ d3 = 105) ∧ (d4 = 84 ∨ d4 = 116) ∧
                      (d5 = 89 ∨ d5 = 121) then
                    match t3 with
                    | [] => some (negative, false)
                    | e :: _ =>
                      if e = 95 then
                        if skipUnderscores t3 = [] then some (negative, false) else none
                      else none
                  else none
                | _ => none
          else none
        | _ => none
      else if c = 78 ∨ c = 110 then
        match t with
        | c1 :: c2 :: t2 =>
          if (c1 = 65 ∨ c1 = 97) ∧ (c2 = 78 ∨ c2 = 110) then
            match t2 with
            | [] => some (negative, true)
            | d :: _ =>
              if d = 95 then
                if skipUnderscores t2 = [] then some (negative, true) else none
              else none
          else none
        | _ => none
      else none

/-- wuffs_base__parse_number_f64_special. -/
def parse_number_f64_special (s : List Nat) (fallback_status : Status) : ResultF64 :=
  match special_token s with
  | some (negative, nan) =>
    ⟨Status.null,
      (if nan then 0x7FFFFFFFFFFFFFFF else 0x7FF0000000000000) |||
        (if negative then 0x8000000000000000 else 0)⟩
  | none => ⟨fallback_status, 0⟩

/-- The `powers` table local to wuffs_base__parse_number_f64: decimal powers
of 10 to binary powers of 2, stopping before elements exceed 60. -/
def parsePowersTable : List Nat :=
  [0, 3, 6, 9, 13, 16, 19, 23, 26, 29, 33, 36, 39, 43, 46, 49, 53, 56, 59]

/-- The `goto zero` tail of wuffs_base__parse_number_f64 (reads the current
h->negative). -/
def parseZeroResult (negative : Bool) : ResultF64 :=
  ⟨Status.null, if negative then 0x8000000000000000 else 0⟩

/-- The `goto infinity` tail of wuffs_base__parse_number_f64. -/
def parseInfinityResult (negative : Bool) : ResultF64 :=
  ⟨Status.null, if negative then 0xFFF0000000000000 else 0x7FF0000000000000⟩

/-- The first scaling loop of the slow path ("First we shift right"): while
decimal_point > 0, right-shift by powers[decimal_point] (clamped at 60).
Except-error carries the HPD at a `goto zero` exit.  `fuel` bounds the
iteration count; each pass divides h's value by at least 2^3 while
decimal_point > 0 forces the value above 10^(decimal_point-1), so the loop
ends well within 100000 passes from any parsed HPD and the out-of-fuel
branch (which just stops early) is unreachable. -/
def parseRshiftLoop : Nat → HighPrecDec → Int → Except HighPrecDec (HighPrecDec × Int)
  | 0, h, exp2 => .ok (h, exp2)
  | fuel + 1, h, exp2 =>
    if h.decimal_point > 0 then
      let n := h.decimal_point.toNat
      let shift := if n < 19 then parsePowersTable.getD n 0 else HPD__SHIFT__MAX_INCL
      let h2 := high_prec_dec__small_rshift h shift
      if h2.decimal_point < -HPD__DECIMAL_POINT__RANGE then .error h2
      else parseRshiftLoop fuel h2 (exp2 + shift)
    else .ok (h, exp2)

/-- The second scaling loop of the slow path ("then we shift left, putting us
in [1/2 .. 1]").  Except-error carries the HPD at a `goto infinity` exit. -/
def parseLshiftLoop : Nat → HighPrecDec → Int → Except HighPrecDec (HighPrecDec × Int)
  | 0, h, exp2 => .ok (h, exp2)
  | fuel + 1, h, exp2 =>
    if h.decimal_point ≤ 0 then
      if h.decimal_point = 0 ∧ 5 ≤ h.digits 0 then .ok (h, exp2)
      else
        let shift :=
          if h.decimal_point = 0 then (if h.digits 0 ≤ 2 then 2 else 1)
          else
            let n := (-h.decimal_point).toNat
            if n < 19 then parsePowersTable.getD n 0 else HPD__SHIFT__MAX_INCL
        let h2 := high_prec_dec__small_lshift h shift
        if h2.decimal_point > HPD__DECIMAL_POINT__RANGE then .error h2
        else parseLshiftLoop fuel h2 (exp2 - shift)
    else .ok (h, exp2)

/-- The subnormal adjustment loop ("The minimum normal exponent is
(f64_bias + 1)"): right-shift until exp2 reaches -1022, in chunks of at
most 60.  Each pass raises exp2 by at least 1, so the caller's fuel of
(-1022 - exp2).toNat + 1 makes the out-of-fuel branch unreachable. -/
def parseSubnormalLoop : Nat → HighPrecDec → Int → HighPrecDec × Int
  | 0, h, exp2 => (h, exp2)
  | fuel + 1, h, exp2 =>
    if -1022 > exp2 then
      let n := min (-1022 - exp2).toNat HPD__SHIFT__MAX_INCL
      parseSubnormalLoop fuel (high_prec_dec__small_rshift h n) (exp2 + n)
    else (h, exp2)

/-- The tail of wuffs_base__parse_number_f64 after the scaling loops:
subtract 1 (mapping [1/2, 1) to [1, 2)), subnormal adjustment, overflow
check, 53-bit mantissa extraction via rounded_integer, carry fix-up, and
final bit packing. -/
def parseSlowPathTail (h : HighPrecDec) (exp2a : Int) : ResultF64 :=
  let exp2 := exp2a - 1
  let s := parseSubnormalLoop ((-1022 - exp2).toNat + 1) h exp2
  let h2 := s.1
  let exp2 := s.2
  let f64_bias : Int := -1023
  if exp2 - f64_bias ≥ 0x7FF then parseInfinityResult h2.negative
  else
    let h3 := high_prec_dec__small_lshift h2 53
    let man2 := high_prec_dec__rounded_integer h3
    let step : Nat × Int :=
      if man2 >>> 53 ≠ 0 then (man2 >>> 1, exp2 + 1) else (man2, exp2)
    if man2 >>> 53 ≠ 0 ∧ step.2 - f64_bias ≥ 0x7FF then parseInfinityResult h3.negative
    else
      let exp2b := if step.1 >>> 52 = 0 then f64_bias else step.2
      let bits :=
        (step.1 &&& 0x000FFFFFFFFFFFFF) ||| (((exp2b - f64_bias).toNat &&& 0x7FF) <<< 52) |||
          (if h3.negative then 0x8000000000000000 else 0)
      ⟨Status.null, bits⟩

/-- Fuel for the two scaling loops; see parseRshiftLoop.  Far above the
mathematical iteration bound (about 2 * 2048). -/
def parseScalingFuel : Nat := 100000

/-- wuffs_base__parse_number_f64. -/
def parse_number_f64 (s : List Nat) : ResultF64 :=
  let h0 : HighPrecDec :=
    { num_digits := 0, decimal_point := 0, negative := false, truncated := false,
      digits := fun _ => 0 }
  let pr := high_prec_dec__parse h0 s
  if pr.1 ≠ Status.null then parse_number_f64_special s pr.1
  else
    let h := pr.2
    if h.num_digits = 0 ∨ h.decimal_point < -326 then parseZeroResult h.negative
    else if h.decimal_point > 310 then parseInfinityResult h.negative
    else
      let mpb_result := medium_prec_bin__parse_number_f64 h false
      if mpb_result.status = Status.null then mpb_result
      else
        match parseRshiftLoop parseScalingFuel h 0 with
        | .error h2 => parseZeroResult h2.negative
        | .ok (h2, exp2) =>
          match parseLshiftLoop parseScalingFuel h2 exp2 with
          | .error h3 => parseInfinityResult h3.negative
          | .ok (h3, exp2b) => parseSlowPathTail h3 exp2b
/-- Option flags consumed by render_number_f64.
Modelled from the spec: the numeric flag values live in the wuffs base
headers, outside this file; the spec specifies only a closed bitset
(LEADING_PLUS_SIGN, ALIGN_RIGHT, DECIMAL_SEPARATOR_IS_A_COMMA,
EXPONENT_ABSENT, EXPONENT_PRESENT, JUST_ENOUGH_PRECISION), so the flags are
modelled as six distinct bits; no theorem below depends on the particular
values, only on their distinctness. -/
def RENDER_NUMBER__LEADING_PLUS_SIGN : Nat := 1

/-- Modelled from the spec: see RENDER_NUMBER__LEADING_PLUS_SIGN. -/
def RENDER_NUMBER__ALIGN_RIGHT : Nat := 2

/-- Modelled from the spec: see RENDER_NUMBER__LEADING_PLUS_SIGN. -/
def RENDER_NUMBER__DECIMAL_SEPARATOR_IS_A_COMMA : Nat := 4

/-- Modelled from the spec: see RENDER_NUMBER__LEADING_PLUS_SIGN. -/
def RENDER_NUMBER__EXPONENT_ABSENT : Nat := 8

/-- Modelled from the spec: see RENDER_NUMBER__LEADING_PLUS_SIGN. -/
def RENDER_NUMBER__EXPONENT_PRESENT : Nat := 16

/-- Modelled from the spec: see RENDER_NUMBER__LEADING_PLUS_SIGN. -/
def RENDER_NUMBER__JUST_ENOUGH_PRECISION : Nat := 32

/-- The C truth test `options & FLAG`. -/
def optionSet (options flag : Nat) : Bool := options &&& flag ≠ 0

/-- wuffs_base__private_implementation__render_inf.  Output is the list of
written bytes ('-Inf' / '+Inf' / 'Inf'); [] models the `return 0` when dst
is too short.  ALIGN_RIGHT only moves the bytes within dst, it does not
change them, so the byte-list model drops the placement. -/
def render_inf (dstLen : Nat) (neg : Bool) (options : Nat) : List Nat :=
  if neg then
    if dstLen < 4 then [] else [45, 73, 110, 102]
  else if optionSet options RENDER_NUMBER__LEADING_PLUS_SIGN then
    if dstLen < 4 then [] else [43, 73, 110, 102]
  else
    if dstLen < 3 then [] else [73, 110, 102]

/-- wuffs_base__private_implementation__render_nan: the bytes 'NaN'. -/
def render_nan (dstLen : Nat) : List Nat :=
  if dstLen < 3 then [] else [78, 97, 78]

/-- The C cast `(uint32_t)(h->decimal_point)` used when indexing fractional
digits. -/
def u32ofInt (x : Int) : Nat := (x % 2 ^ 32).toNat

/-- The separator byte: ',' or '.' according to
DECIMAL_SEPARATOR_IS_A_COMMA. -/
def sepByte (options : Nat) : Nat :=
  if optionSet options RENDER_NUMBER__DECIMAL_SEPARATOR_IS_A_COMMA then 44 else 46

/-- The leading sign bytes: '-' for negative, else '+' under
LEADING_PLUS_SIGN, else nothing. -/
def signBytes (negative : Bool) (options : Nat) : List Nat :=
  if negative then [45]
  else if optionSet options RENDER_NUMBER__LEADING_PLUS_SIGN then [43]
  else []

/-- wuffs_base__private_implementation__high_prec_dec__render_exponent_absent.
Output is the list of written bytes; [] models `return 0` (formatted number
does not fit).  ALIGN_RIGHT only selects the position inside dst and is
dropped by the byte-list model. -/
def render_exponent_absent (dstLen : Nat) (h : HighPrecDec) (precision : Nat)
    (options : Nat) : List Nat :=
  let signLen : Nat :=
    if h.negative ∨ optionSet options RENDER_NUMBER__LEADING_PLUS_SIGN then 1 else 0
  let intLen : Nat := if h.decimal_point ≤ 0 then 1 else h.decimal_point.toNat
  let n := signLen + intLen + (if precision > 0 then precision + 1 else 0)
  if n > dstLen then []
  else
    let intPart : List Nat :=
      if h.decimal_point ≤ 0 then [48]
      else
        let m := min h.num_digits h.decimal_point.toNat
        ((List.range m).map fun i => 48 ||| h.digits i) ++
          List.replicate (h.decimal_point.toNat - m) 48
    let fracPart : List Nat :=
      if precision > 0 then
        sepByte options ::
          ((List.range precision).map fun i =>
            let j := u32ofInt h.decimal_point + i
            48 ||| (if j < h.num_digits then h.digits j else 0))
      else []
    signBytes h.negative options ++ intPart ++ fracPart

/-- wuffs_base__private_implementation__high_prec_dec__render_exponent_present.
Output is the list of written bytes; [] models `return 0`. -/
def render_exponent_present (dstLen : Nat) (h : HighPrecDec) (precision : Nat)
    (options : Nat) : List Nat :=
  let exp : Int := if h.num_digits > 0 then h.decimal_point - 1 else 0
  let negative_exp := exp < 0
  let expA : Nat := (if negative_exp then -exp else exp).toNat
  let n :=
    (if h.negative ∨ optionSet options RENDER_NUMBER__LEADING_PLUS_SIGN then 4 else 3) +
      (if precision > 0 then precision + 1 else 0) + (if expA < 100 then 2 else 3)
  if n > dstLen then []
  else
    let firstDigit : Nat := if h.num_digits > 0 then 48 ||| h.digits 0 else 48
    let fracPart : List Nat :=
      if precision > 0 then
        let j := min h.num_digits (precision + 1)
        sepByte options ::
          (((List.range (j - 1)).map fun k => 48 ||| h.digits (k + 1)) ++
            List.replicate (precision + 1 - j) 48)
      else []
    let expPart : List Nat :=
      if expA < 10 then [48, 48 ||| expA]
      else if expA < 100 then [48 ||| (expA / 10), 48 ||| (expA % 10)]
      else
        let e := expA / 100
        let r := expA - e * 100
        [48 ||| e, 48 ||| (r / 10), 48 ||| (r % 10)]
    signBytes h.negative options ++ firstDigit :: fracPart ++
      (101 :: (if negative_exp then 45 else 43) :: expPart)

/-- The code of wuffs_base__render_number_f64 after the EXPONENT_ABSENT /
EXPONENT_PRESENT switch: the "%g" general format (also reached when both
flag bits are set, since the switch matches neither single bit). -/
def renderGeneral (dstLen : Nat) (h : HighPrecDec) (exp2 : Int) (man : Nat)
    (precision0 : Nat) (options : Nat) : List Nat :=
  let hpe : HighPrecDec × Nat × Int :=
    if optionSet options RENDER_NUMBER__JUST_ENOUGH_PRECISION then
      let h2 := high_prec_dec__round_just_enough h exp2 man
      (h2, h2.num_digits, 6)
    else
      let precision := if precision0 = 0 then 1 else precision0
      let h2 := high_prec_dec__round_nearest h (precision : Int)
      let nd : Int := (h2.num_digits : Int)
      let et : Int :=
        if (precision : Int) > nd ∧ nd ≥ h2.decimal_point then nd else (precision : Int)
      (h2, precision, et)
  let h2 := hpe.1
  let precision := hpe.2.1
  let e_threshold := hpe.2.2
  let e := h2.decimal_point - 1
  if e < -4 ∨ e_threshold ≤ e then
    let p := min precision h2.num_digits
    render_exponent_present dstLen h2 (if p > 0 then p - 1 else 0) options
  else
    let p : Int := if (precision : Int) > h2.decimal_point then (h2.num_digits : Int)
      else (precision : Int)
    render_exponent_absent dstLen h2 (max 0 (p - h2.decimal_point)).toNat options

/-- wuffs_base__render_number_f64.  The double argument is its bit pattern;
the output is the list of written bytes ([] models `return 0`). -/
def render_number_f64 (dstLen : Nat) (bits : Nat) (precision0 : Nat)
    (options : Nat) : List Nat :=
  let neg := bits >>> 63 ≠ 0
  let expField := (bits >>> 52) &&& 0x7FF
  let man0 := bits &&& 0x000FFFFFFFFFFFFF
  if expField = 0x7FF then
    if man0 ≠ 0 then render_nan dstLen
    else render_inf dstLen neg options
  else
    let em : Int × Nat :=
      if expField = 0 then (-1022, man0)
      else ((expField : Int) - 1023, man0 ||| 0x0010000000000000)
    let exp2 := em.1
    let man := em.2
    let precision := if precision0 > 4095 then 4095 else precision0
    let h1 := high_prec_dec__assign man neg
    let h := if h1.num_digits > 0 then high_prec_dec__lshift h1 (exp2 - 52) else h1
    let mode :=
      options &&& (RENDER_NUMBER__EXPONENT_ABSENT ||| RENDER_NUMBER__EXPONENT_PRESENT)
    if mode = RENDER_NUMBER__EXPONENT_ABSENT then
      if optionSet options RENDER_NUMBER__JUST_ENOUGH_PRECISION then
        let h2 := high_prec_dec__round_just_enough h exp2 man
        let p : Int := (h2.num_digits : Int) - h2.decimal_point
        render_exponent_absent dstLen h2 (max 0 p).toNat options
      else
        let h2 := high_prec_dec__round_nearest h ((precision : Int) + h.decimal_point)
        render_exponent_absent dstLen h2 precision options
    else if mode = RENDER_NUMBER__EXPONENT_PRESENT then
      if optionSet options RENDER_NUMBER__JUST_ENOUGH_PRECISION then
        let h2 := high_prec_dec__round_just_enough h exp2 man
        render_exponent_present dstLen h2
          (if h2.num_digits > 0 then h2.num_digits - 1 else 0) options
      else
        let h2 := high_prec_dec__round_nearest h ((precision : Int) + 1)
        render_exponent_present dstLen h2 precision options
    else renderGeneral dstLen h exp2 man precision options
/-! ### Well-formedness of HPD states -/

/-- The HPD invariant of the spec: at most 800 digits, every digit cell of
the 800-byte array in 0..=9, and trailing-zero trimmed (num_digits = 0 or
the last digit non-zero). -/
def HpdWF (h : HighPrecDec) : Prop :=
  h.num_digits ≤ HPD__DIGITS_PRECISION ∧
    (∀ i < HPD__DIGITS_PRECISION, h.digits i ≤ 9) ∧
    (h.num_digits = 0 ∨ h.digits (h.num_digits - 1) ≠ 0)

instance (h : HighPrecDec) : Decidable (HpdWF h) := by
  unfold HpdWF; infer_instance

/-! ### Generic list helpers -/

/-! ### Claim C4: rounded_integer -/

/-- Accumulating further digits (each at most 9) on top of n < 10^i stays
below 10^(i + length). -/
lemma foldl_digits_lt :
    ∀ (L : List Nat), (∀ x ∈ L, x ≤ 9) → ∀ (i n : Nat), n < 10 ^ i →
      (L.foldl (fun a d => 10 * a + d) n) < 10 ^ (i + L.length) := by
  intro L
  induction L with
  | nil =>
    intro _ i n hn
    simpa using hn
  | cons x xs ih =>
    intro hL i n hn
    simp only [List.foldl_cons, List.length_cons]
    have hx : x ≤ 9 := hL x (by simp)
    have hpow : (10 : Nat) ^ (i + 1) = 10 * 10 ^ i := by ring
    have h1 : 10 * n + x < 10 ^ (i + 1) := by
      rw [hpow]
      omega
    have h2 := ih (fun y hy => hL y (by simp [hy])) (i + 1) (10 * n + x) h1
    rw [show i + 1 + xs.length = i + (xs.length + 1) from by omega] at h2
    exact h2

/-- Base-10 left-fold accumulation equals the positional value of the
big-endian digit list (Nat.ofDigits takes little-endian digits, hence the
reverse). -/
lemma foldl_eq_ofDigits :
    ∀ (L : List Nat) (n : Nat),
      L.foldl (fun a d => 10 * a + d) n = n * 10 ^ L.length + Nat.ofDigits 10 L.reverse := by
  intro L
  induction L with
  | nil => intro n; simp [Nat.ofDigits]
  | cons x xs ih =>
    intro n
    simp only [List.foldl_cons, List.length_cons, List.reverse_cons]
    rw [ih (10 * n + x), Nat.ofDigits_append]
    simp [Nat.ofDigits]
    ring

/-- The accumulation loop of rounded_integer computes the base-10 fold of
the first dp (guarded) digits: with all digit cells at most 9 and
dp ≤ 18 the uint64 accumulator cannot wrap. -/
lemma riAccLoop_eq_foldl (h : HighPrecDec) (hdig : ∀ i < HPD__DIGITS_PRECISION, h.digits i ≤ 9)
    (dp : Nat) (hdp : dp ≤ 18) :
    ∀ fuel i n, dp ≤ i + fuel → n < 10 ^ i →
      riAccLoop h dp fuel i n =
        (((List.range (dp - i)).map fun k =>
            if i + k < h.num_digits then h.digits (i + k) else 0).foldl
          (fun a d => 10 * a + d) n) := by
  intro fuel
  induction fuel with
  | zero =>
    intro i n hle _
    have : dp - i = 0 := by omega
    simp [riAccLoop, this]
  | succ fuel ih =>
    intro i n hle hn
    by_cases hi : i < dp
    · have hd9 : (if i < h.num_digits then h.digits i else 0) ≤ 9 := by
        split
        · refine hdig i ?_
          simp only [HPD__DIGITS_PRECISION]
          omega
        · omega
      have hpow : (10 : Nat) ^ (i + 1) = 10 * 10 ^ i := by ring
      have hstep : 10 * n + (if i < h.num_digits then h.digits i else 0) < 10 ^ (i + 1) := by
        rw [hpow]
        omega
      have h10 : (10 : Nat) ^ (i + 1) ≤ 10 ^ 19 :=
        Nat.pow_le_pow_right (by norm_num) (by omega)
      have h19 : (10 : Nat) ^ 19 < 2 ^ 64 := by norm_num
      have hnowrap : 10 * n + (if i < h.num_digits then h.digits i else 0) < 2 ^ 64 := by
        omega
      rw [riAccLoop]
      simp only [if_pos hi]
      rw [Nat.mod_eq_of_lt hnowrap]
      rw [ih (i + 1) _ (by omega) hstep]
      have hrange : dp - i = (dp - (i + 1)) + 1 := by omega
      rw [hrange, List.range_succ_eq_map]
      simp only [List.map_cons, List.foldl_cons, List.map_map, Nat.add_zero]
      have hmap : List.map ((fun k => if i + k < h.num_digits then h.digits (i + k) else 0) ∘
            Nat.succ) (List.range (dp - (i + 1))) =
          List.map (fun k => if i + 1 + k < h.num_digits then h.digits (i + 1 + k) else 0)
            (List.range (dp - (i + 1))) := by
        refine List.map_congr_left fun k _hk => ?_
        simp only [Function.comp_apply, Nat.succ_eq_add_one]
        rw [show i + (k + 1) = i + 1 + k from by omega]
      rw [hmap]
    · rw [riAccLoop]
      simp only [if_neg hi]
      have : dp - i = 0 := by omega
      simp [this]
/-- The rounding decision of rounded_integer in the spec's vocabulary: round
up exactly when the digit at position dp is present and either exceeds 5,
or equals 5 and the value is above an exact half (more digits follow, or
truncated), or is an exact half and the preceding digit is odd
(nearest-even). -/
def roundsUpSpec (h : HighPrecDec) (dp : Nat) : Prop :=
  dp < h.num_digits ∧
    (5 < h.digits dp ∨
      (h.digits dp = 5 ∧
        (dp + 1 ≠ h.num_digits ∨ h.truncated = true ∨
          (0 < dp ∧ h.digits (dp - 1) % 2 = 1))))

instance (h : HighPrecDec) (dp : Nat) : Decidable (roundsUpSpec h dp) := by
  unfold roundsUpSpec; infer_instance

/-- The boolean round_up computed by the code agrees with roundsUpSpec. -/
lemma roundUpBool_iff (h : HighPrecDec) (dp : Nat) :
    ((if dp < h.num_digits then
        if h.digits dp = 5 ∧ dp + 1 = h.num_digits then
          h.truncated || decide (0 < dp ∧ h.digits (dp - 1) % 2 = 1)
        else decide (5 ≤ h.digits dp)
      else false) = true) ↔ roundsUpSpec h dp := by
  unfold roundsUpSpec
  by_cases hlt : dp < h.num_digits
  · simp only [if_pos hlt]
    by_cases h5 : h.digits dp = 5 ∧ dp + 1 = h.num_digits
    · simp only [if_pos h5, Bool.or_eq_true, decide_eq_true_eq]
      constructor
      · rintro (ht | hodd)
        · exact ⟨hlt, Or.inr ⟨h5.1, Or.inr (Or.inl ht)⟩⟩
        · exact ⟨hlt, Or.inr ⟨h5.1, Or.inr (Or.inr hodd)⟩⟩
      · rintro ⟨-, h51 | ⟨-, hne | ht | hodd⟩⟩
        · have := h5.1
          omega
        · exact absurd h5.2 hne
        · exact Or.inl ht
        · exact Or.inr hodd
    · simp only [if_neg h5, decide_eq_true_eq]
      constructor
      · intro hge
        refine ⟨hlt, ?_⟩
        by_cases h5d : h.digits dp = 5
        · exact Or.inr ⟨h5d, Or.inl fun hc => h5 ⟨h5d, hc⟩⟩
        · exact Or.inl (by omega)
      · rintro ⟨-, hgt | ⟨h5d, -⟩⟩
        · omega
        · omega
  · simp only [if_neg hlt, Bool.false_eq_true, false_iff]
    rintro ⟨hc, -⟩
    exact hlt hc

/-- A concrete HPD: the single digit 7 with decimal_point 0, i.e. the
number 0.7. -/
def hpdPoint7 : HighPrecDec :=
  { num_digits := 1, decimal_point := 0, negative := false, truncated := false,
    digits := fun i => [7].getD i 0 }

/-- C4, counterexample: the claim says rounded_integer returns 0 whenever
decimal_point ≤ 0, but on the HPD 0.7 (decimal_point = 0) the code rounds
to nearest and returns 1. -/
theorem C4_counterexample :
    hpdPoint7.decimal_point ≤ 0 ∧ high_prec_dec__rounded_integer hpdPoint7 ≠ 0 := by
  decide

/-- C4, amended: rounded_integer returns 0 when num_digits = 0 or
decimal_point < 0 (not ≤ 0: at decimal_point = 0 it still rounds, so 0.7
gives 1); otherwise UINT64_MAX when decimal_point > 18; otherwise the
positional base-10 value of the first decimal_point digits (implicit zeros
beyond num_digits), rounded to nearest-even per roundsUpSpec: using the
digit at position decimal_point (if present), the truncated flag, and the
parity of the preceding digit at exact halves. -/
theorem C4_theorem (h : HighPrecDec)
    (hdig : ∀ i < HPD__DIGITS_PRECISION, h.digits i ≤ 9) :
    high_prec_dec__rounded_integer h =
      if h.num_digits = 0 ∨ h.decimal_point < 0 then 0
      else if 18 < h.decimal_point then 2 ^ 64 - 1
      else if roundsUpSpec h h.decimal_point.toNat then
        Nat.ofDigits 10 (((List.range h.decimal_point.toNat).map fun k =>
          if k < h.num_digits then h.digits k else 0).reverse) + 1
      else
        Nat.ofDigits 10 (((List.range h.decimal_point.toNat).map fun k =>
          if k < h.num_digits then h.digits k else 0).reverse) := by
  by_cases h0 : h.num_digits = 0 ∨ h.decimal_point < 0
  · simp [high_prec_dec__rounded_integer, h0]
  · by_cases h18 : h.decimal_point > 18
    · simp [high_prec_dec__rounded_integer, h0, h18]
    · simp only [high_prec_dec__rounded_integer, if_neg h0, if_neg h18, gt_iff_lt]
      set dp := h.decimal_point.toNat with hdp
      have hdple : dp ≤ 18 := by omega
      have hacc := riAccLoop_eq_foldl h hdig dp hdple (dp + 1) 0 0 (by omega) (by norm_num)
      simp only [Nat.sub_zero, Nat.zero_add] at hacc
      have hval : riAccLoop h dp (dp + 1) 0 0 =
          Nat.ofDigits 10 (((List.range dp).map fun k =>
            if k < h.num_digits then h.digits k else 0).reverse) := by
        rw [hacc]
        have hfold := foldl_eq_ofDigits
          ((List.range dp).map fun k => if k < h.num_digits then h.digits k else 0) 0
        simpa using hfold
      have hnlt : Nat.ofDigits 10 (((List.range dp).map fun k =>
          if k < h.num_digits then h.digits k else 0).reverse) + 1 < 2 ^ 64 := by
        have hb := foldl_digits_lt
          ((List.range dp).map fun k => if k < h.num_digits then h.digits k else 0)
          (by
            intro x hx
            rcases List.mem_map.mp hx with ⟨k, hk, hkx⟩
            have hklt := List.mem_range.mp hk
            rw [← hkx]
            split
            · refine hdig k ?_
              simp only [HPD__DIGITS_PRECISION]
              omega
            · omega)
          0 0 (by norm_num)
        have hfo : List.foldl (fun a d => 10 * a + d) 0
            ((List.range dp).map fun k => if k < h.num_digits then h.digits k else 0) =
            Nat.ofDigits 10 (((List.range dp).map fun k =>
              if k < h.num_digits then h.digits k else 0).reverse) := hacc.symm.trans hval
        rw [hfo] at hb
        simp only [List.length_map, List.length_range, Nat.zero_add] at hb
        have h10 : (10 : Nat) ^ dp ≤ 10 ^ 18 := Nat.pow_le_pow_right (by norm_num) hdple
        have h19 : (10 : Nat) ^ 18 < 2 ^ 64 - 1 := by norm_num
        omega
      rw [hval, Nat.mod_eq_of_lt hnlt]
      by_cases hcl : roundsUpSpec h dp
      · rw [if_pos ((roundUpBool_iff h dp).mpr hcl), if_pos hcl]
      · rw [if_neg fun hc => hcl ((roundUpBool_iff h dp).mp hc), if_neg hcl]

set_option maxRecDepth 4000 in
/-- C4, witness: the amended statement applied to the HPD 0.7. -/
theorem C4_witness :
    high_prec_dec__rounded_integer hpdPoint7 =
      if hpdPoint7.num_digits = 0 ∨ hpdPoint7.decimal_point < 0 then 0
      else if 18 < hpdPoint7.decimal_point then 2 ^ 64 - 1
      else if roundsUpSpec hpdPoint7 hpdPoint7.decimal_point.toNat then
        Nat.ofDigits 10 (((List.range hpdPoint7.decimal_point.toNat).map fun k =>
          if k < hpdPoint7.num_digits then hpdPoint7.digits k else 0).reverse) + 1
      else
        Nat.ofDigits 10 (((List.range hpdPoint7.decimal_point.toNat).map fun k =>
          if k < hpdPoint7.num_digits then hpdPoint7.digits k else 0).reverse) :=
  C4_theorem hpdPoint7 (by decide)
/-! ### Claim C8: mul_pow_10 cannot overflow -/

/-- The high 64 bits of the 128-bit mantissa in row i of the powers-of-ten
table, as loaded by mul_pow_10: p[2] | (p[3] << 32). -/
def pow10RowMantissa (i : Nat) : Nat :=
  wuffs_powers_of_10.getD (5 * i + 2) 0 ||| (wuffs_powers_of_10.getD (5 * i + 3) 0 <<< 32)

/-- The biased exponent word in row i of the powers-of-ten table: p[4]. -/
def pow10RowExp2 (i : Nat) : Int :=
  (wuffs_powers_of_10.getD (5 * i + 4) 0 : Int)

/-- C8: for every normalized non-zero 64-bit MPB m and every row i of the
powers-of-ten table (whose words are uint32 values, which is what the two
bound hypotheses record), the high half hi of the 128-bit product of
m.mantissa and the row's 64-bit mantissa satisfies hi ≤ 2^64 - 2, the
rounded mantissa hi + (lo >> 63) does not wrap around 64-bit arithmetic,
and the resulting exponent is exactly m.exp2 + p_exp2 + 128 - 1214. -/
theorem C8_theorem (m : MediumPrecBin) (i : Nat) (_hi : i < 637)
    (hw2 : wuffs_powers_of_10.getD (5 * i + 2) 0 < 2 ^ 32)
    (hw3 : wuffs_powers_of_10.getD (5 * i + 3) 0 < 2 ^ 32)
    (hmant : m.mantissa < 2 ^ 64) (_hm0 : m.mantissa ≠ 0)
    (_hnorm : 2 ^ 63 ≤ m.mantissa) :
    (m.mantissa * pow10RowMantissa i) / 2 ^ 64 ≤ 2 ^ 64 - 2 ∧
    (medium_prec_bin__mul_pow_10 m (5 * i)).mantissa =
      (m.mantissa * pow10RowMantissa i) / 2 ^ 64 +
        ((m.mantissa * pow10RowMantissa i) % 2 ^ 64) >>> 63 ∧
    (medium_prec_bin__mul_pow_10 m (5 * i)).exp2 = m.exp2 + pow10RowExp2 i + 128 - 1214 := by
  have hp : pow10RowMantissa i < 2 ^ 64 := by
    unfold pow10RowMantissa
    have h3 : wuffs_powers_of_10.getD (5 * i + 3) 0 <<< 32 < 2 ^ 64 := by
      rw [Nat.shiftLeft_eq]
      have hx : wuffs_powers_of_10.getD (5 * i + 3) 0 ≤ 2 ^ 32 - 1 := by omega
      have hm := Nat.mul_le_mul hx (Nat.le_refl (2 ^ 32))
      have he : (2 ^ 32 - 1) * 2 ^ 32 < 2 ^ 64 := by norm_num
      omega
    exact Nat.or_lt_two_pow (by omega) h3
  have hhi : (m.mantissa * pow10RowMantissa i) / 2 ^ 64 ≤ 2 ^ 64 - 2 := by
    have hle : m.mantissa * pow10RowMantissa i ≤ (2 ^ 64 - 1) * (2 ^ 64 - 1) :=
      Nat.mul_le_mul (by omega) (by omega)
    have := Nat.div_le_div_right (c := 2 ^ 64) hle
    have heval : (2 ^ 64 - 1) * (2 ^ 64 - 1) / 2 ^ 64 = 2 ^ 64 - 2 := by norm_num
    omega
  have hlo : ((m.mantissa * pow10RowMantissa i) % 2 ^ 64) >>> 63 ≤ 1 := by
    have hm : (m.mantissa * pow10RowMantissa i) % 2 ^ 64 < 2 ^ 64 :=
      Nat.mod_lt _ (by norm_num)
    rw [Nat.shiftRight_eq_div_pow]
    omega
  refine ⟨hhi, ?_, ?_⟩
  · have hsum : (m.mantissa * pow10RowMantissa i) / 2 ^ 64 +
        ((m.mantissa * pow10RowMantissa i) % 2 ^ 64) >>> 63 < 2 ^ 64 := by omega
    simp only [medium_prec_bin__mul_pow_10, multiply_u64, pow10RowMantissa] at hsum ⊢
    rw [Nat.mod_eq_of_lt hsum]
  · simp only [medium_prec_bin__mul_pow_10, pow10RowExp2]

/-- C8, witness: the normalized MPB with mantissa 2^63 against table row 0. -/
theorem C8_witness :
    (((⟨2 ^ 63, 0⟩ : MediumPrecBin).mantissa * pow10RowMantissa 0) / 2 ^ 64 ≤ 2 ^ 64 - 2) ∧
    (medium_prec_bin__mul_pow_10 ⟨2 ^ 63, 0⟩ (5 * 0)).mantissa =
      ((⟨2 ^ 63, 0⟩ : MediumPrecBin).mantissa * pow10RowMantissa 0) / 2 ^ 64 +
        (((⟨2 ^ 63, 0⟩ : MediumPrecBin).mantissa * pow10RowMantissa 0) % 2 ^ 64) >>> 63 ∧
    (medium_prec_bin__mul_pow_10 ⟨2 ^ 63, 0⟩ (5 * 0)).exp2 =
      (⟨2 ^ 63, 0⟩ : MediumPrecBin).exp2 + pow10RowExp2 0 + 128 - 1214 :=
  C8_theorem ⟨2 ^ 63, 0⟩ 0 (by norm_num) (by decide) (by decide)
    (by norm_num) (by norm_num) (by norm_num)
/-! ### Claim C5: small_lshift new-digit count -/

/-- Lexicographic (byte-wise) strictly-less on digit strings, as used to
choose between N and N - 1 new digits: shorter-but-equal-so-far counts as
less. -/
def lexLessBool : List Nat → List Nat → Bool
  | _, [] => false
  | [], _ :: _ => true
  | a :: l, b :: m => if a < b then true else if a = b then lexLessBool l m else false

/-- N(s): the larger of the two possible new-digit counts for a left shift
by s, the top 5 bits of the hpd_left_shift table entry. -/
def lshiftN (s : Nat) : Nat := wuffs_hpd_left_shift.getD (s &&& 63) 0 >>> 11

/-- The decimal digits of 5^s: the slice of the powers-of-5 blob between
the offsets stored in hpd_left_shift[s] and hpd_left_shift[s+1]. -/
def pow5Digits (s : Nat) : List Nat :=
  (wuffs_powers_of_5.drop (0x7FF &&& wuffs_hpd_left_shift.getD (s &&& 63) 0)).take
    ((0x7FF &&& wuffs_hpd_left_shift.getD ((s &&& 63) + 1) 0) -
      (0x7FF &&& wuffs_hpd_left_shift.getD (s &&& 63) 0))

/-- The explicit digit string of an HPD: digits[0 .. num_digits). -/
def hpdDigitList (h : HighPrecDec) : List Nat :=
  (List.range h.num_digits).map fun k => h.digits k

lemma lexLessBool_nil_right (L : List Nat) : lexLessBool L [] = false := by
  cases L <;> rfl

set_option maxRecDepth 6000 in
lemma pow5_length : wuffs_powers_of_5.length = 1308 := by decide

/-- For the shifts the code uses, the two offsets into the powers-of-5 blob
are ordered and the slice fits inside the blob. -/
lemma pow5_fit (s : Nat) (h1 : 1 ≤ s) (h60 : s ≤ 60) :
    (0x7FF &&& wuffs_hpd_left_shift.getD s 0) +
      ((0x7FF &&& wuffs_hpd_left_shift.getD (s + 1) 0) -
        (0x7FF &&& wuffs_hpd_left_shift.getD s 0)) ≤ 1308 := by
  interval_cases s <;> decide

/-- Masking with 0x3F is the identity on the shifts the code uses. -/
lemma and63_eq (s : Nat) (h1 : 1 ≤ s) (h60 : s ≤ 60) : s &&& 63 = s := by
  interval_cases s <;> rfl

/-- The comparison loop of lshift_num_new_digits computes exactly the
lexicographic comparison of the HPD digit string (from index i) against the
corresponding tail of the 5^s digit slice. -/
lemma cmpLoop_eq_lex (h : HighPrecDec) (a N n : Nat)
    (hfit : a + n ≤ wuffs_powers_of_5.length) :
    ∀ fuel i, n ≤ i + fuel →
      lshiftCmpLoop h a N n fuel i =
        if lexLessBool ((List.range (h.num_digits - i)).map fun k => h.digits (i + k))
            ((wuffs_powers_of_5.drop (a + i)).take (n - i)) = true then N - 1 else N := by
  intro fuel
  induction fuel with
  | zero =>
    intro i hle
    have hni : n - i = 0 := by omega
    simp [lshiftCmpLoop, hni, lexLessBool_nil_right]
  | succ fuel ih =>
    intro i hle
    by_cases hin : i < n
    · have hai : a + i < wuffs_powers_of_5.length := by omega
      have hdropeq : wuffs_powers_of_5.drop (a + i) =
          wuffs_powers_of_5[a + i] :: wuffs_powers_of_5.drop (a + i + 1) :=
        List.drop_eq_getElem_cons hai
      have htake : n - i = (n - (i + 1)) + 1 := by omega
      by_cases hnd : i ≥ h.num_digits
      · have hrange : h.num_digits - i = 0 := by omega
        rw [lshiftCmpLoop]
        simp only [if_pos hin, if_pos hnd, hrange, List.range_zero, List.map_nil,
          hdropeq, htake, List.take_succ_cons]
        rfl
      · push_neg at hnd
        have hrange : h.num_digits - i = (h.num_digits - (i + 1)) + 1 := by omega
        have hgetD : wuffs_powers_of_5.getD (a + i) 0 = wuffs_powers_of_5[a + i] :=
          List.getD_eq_getElem wuffs_powers_of_5 0 hai
        rw [lshiftCmpLoop]
        simp only [if_pos hin, if_neg (by omega : ¬ i ≥ h.num_digits)]
        rw [hrange, List.range_succ_eq_map, hdropeq, htake]
        simp only [List.map_cons, List.take_succ_cons, List.map_map, Nat.add_zero]
        by_cases heq : h.digits i = wuffs_powers_of_5.getD (a + i) 0
        · rw [if_pos heq]
          have hlt : ¬ h.digits i < wuffs_powers_of_5[a + i] := by
            rw [← hgetD, heq]
            omega
          rw [ih (i + 1) (by omega)]
          have hmap : List.map ((fun k => h.digits (i + k)) ∘ Nat.succ)
              (List.range (h.num_digits - (i + 1))) =
              List.map (fun k => h.digits (i + 1 + k))
                (List.range (h.num_digits - (i + 1))) := by
            refine List.map_congr_left fun k _hk => ?_
            simp only [Function.comp_apply, Nat.succ_eq_add_one]
            rw [show i + (k + 1) = i + 1 + k from by omega]
          rw [← hmap, show a + (i + 1) = a + i + 1 from by omega]
          have heq2 : h.digits i = wuffs_powers_of_5[a + i] := by rw [← hgetD]; exact heq
          conv_rhs =>
            rw [lexLessBool]
          rw [if_neg hlt, if_pos heq2]
        · rw [if_neg heq]
          by_cases hlt : h.digits i < wuffs_powers_of_5.getD (a + i) 0
          · rw [if_pos hlt]
            have hlt2 : h.digits i < wuffs_powers_of_5[a + i] := by rw [← hgetD]; exact hlt
            conv_rhs => rw [lexLessBool]
            rw [if_pos hlt2]
            simp
          · rw [if_neg hlt]
            have hlt2 : ¬ h.digits i < wuffs_powers_of_5[a + i] := by rw [← hgetD]; exact hlt
            have heq2 : ¬ h.digits i = wuffs_powers_of_5[a + i] := by rw [← hgetD]; exact heq
            conv_rhs => rw [lexLessBool]
            rw [if_neg hlt2, if_neg heq2]
            simp
    · have hni : n - i = 0 := by omega
      rw [lshiftCmpLoop]
      simp [if_neg hin, hni, lexLessBool_nil_right]

/-- A concrete HPD: digits 2, 5 with decimal_point 2, i.e. the number 25. -/
def hpd25 : HighPrecDec :=
  { num_digits := 2, decimal_point := 2, negative := false, truncated := false,
    digits := fun i => [2, 5].getD i 0 }

/-- C5, counterexample: shifting the HPD 25 left by 2 (to 100) ends, after
the final trim, with num_digits = 1, which differs from num_digits + N(2)
and from num_digits + N(2) - 1 (both clamped at 800): the claim ignores the
trailing-zero trim that follows the shift. -/
theorem C5_counterexample :
    (high_prec_dec__small_lshift hpd25 2).num_digits ≠
        min (hpd25.num_digits + lshiftN 2) HPD__DIGITS_PRECISION ∧
      (high_prec_dec__small_lshift hpd25 2).num_digits ≠
        min (hpd25.num_digits + (lshiftN 2 - 1)) HPD__DIGITS_PRECISION := by
  decide

/-- C5, amended: for every HPD with at least one digit and every shift
1 ≤ s ≤ 60, the new-digit count chosen by the code is N(s), or N(s) - 1
exactly when the digit string compares lexicographically less than the
decimal digits of 5^s (including when it is a proper shorter run); and it
is the num_digits increase measured before the final trailing-zero trim,
clamped at 800 digits - the final trim (the function's last step) may then
remove further trailing zeros, as 25 << 2 = 100 shows. -/
theorem C5_theorem (h : HighPrecDec) (s : Nat) (h1 : 1 ≤ s) (h60 : s ≤ 60)
    (hnz : h.num_digits ≠ 0) :
    high_prec_dec__lshift_num_new_digits h s =
      (if lexLessBool (hpdDigitList h) (pow5Digits s) = true
        then lshiftN s - 1 else lshiftN s) ∧
    (high_prec_dec__small_lshift_pretrim h s).num_digits =
      min (h.num_digits + high_prec_dec__lshift_num_new_digits h s) HPD__DIGITS_PRECISION ∧
    high_prec_dec__small_lshift h s =
      high_prec_dec__trim (high_prec_dec__small_lshift_pretrim h s) := by
  refine ⟨?_, ?_, ?_⟩
  · unfold high_prec_dec__lshift_num_new_digits hpdDigitList pow5Digits lshiftN
    rw [and63_eq s h1 h60]
    have hfit : (0x7FF &&& wuffs_hpd_left_shift.getD s 0) +
        ((0x7FF &&& wuffs_hpd_left_shift.getD (s + 1) 0) -
          (0x7FF &&& wuffs_hpd_left_shift.getD s 0)) ≤ wuffs_powers_of_5.length := by
      rw [pow5_length]
      exact pow5_fit s h1 h60
    rw [cmpLoop_eq_lex h _ _ _ hfit _ 0 (by omega)]
    simp only [Nat.sub_zero, Nat.add_zero, Nat.zero_add]
  · rfl
  · unfold high_prec_dec__small_lshift
    rw [if_neg hnz]

/-- C5, witness: the amended statement applied to the HPD 25 with shift 2. -/
theorem C5_witness :
    high_prec_dec__lshift_num_new_digits hpd25 2 =
      (if lexLessBool (hpdDigitList hpd25) (pow5Digits 2) = true
        then lshiftN 2 - 1 else lshiftN 2) ∧
    (high_prec_dec__small_lshift_pretrim hpd25 2).num_digits =
      min (hpd25.num_digits + high_prec_dec__lshift_num_new_digits hpd25 2)
        HPD__DIGITS_PRECISION ∧
    high_prec_dec__small_lshift hpd25 2 =
      high_prec_dec__trim (high_prec_dec__small_lshift_pretrim hpd25 2) :=
  C5_theorem hpd25 2 (by norm_num) (by norm_num) (by decide)
/-! ### Claim C3: EXPONENT_ABSENT together with EXPONENT_PRESENT -/

lemma and_xor_of_disjoint (o M F : Nat) (hMF : M &&& F = 0) :
    (o ^^^ M) &&& F = o &&& F := by
  apply Nat.eq_of_testBit_eq
  intro i
  have hb := congrArg (fun x => Nat.testBit x i) hMF
  simp only [Nat.testBit_and, Nat.zero_testBit, Bool.and_eq_false_iff] at hb
  rcases hb with hM | hF
  · simp [Nat.testBit_and, Nat.testBit_xor, hM]
  · simp [Nat.testBit_and, hF]

lemma xor_and_self_eq_zero (o M : Nat) (hoM : o &&& M = M) : (o ^^^ M) &&& M = 0 := by
  apply Nat.eq_of_testBit_eq
  intro i
  have hb := congrArg (fun x => Nat.testBit x i) hoM
  simp only [Nat.testBit_and] at hb
  simp only [Nat.testBit_and, Nat.testBit_xor, Nat.zero_testBit]
  cases hM : Nat.testBit M i
  · simp [hM]
  · rw [hM] at hb
    simp only [Bool.and_true] at hb
    simp [hb]

lemma optionSet_congr {o o2 f : Nat} (hf : o &&& f = o2 &&& f) :
    optionSet o f = optionSet o2 f := by
  simp [optionSet, hf]

lemma sepByte_congr {o o2 : Nat}
    (h4 : o &&& RENDER_NUMBER__DECIMAL_SEPARATOR_IS_A_COMMA =
      o2 &&& RENDER_NUMBER__DECIMAL_SEPARATOR_IS_A_COMMA) :
    sepByte o = sepByte o2 := by
  unfold sepByte
  rw [optionSet_congr h4]

lemma signBytes_congr (neg : Bool) {o o2 : Nat}
    (h1 : o &&& RENDER_NUMBER__LEADING_PLUS_SIGN = o2 &&& RENDER_NUMBER__LEADING_PLUS_SIGN) :
    signBytes neg o = signBytes neg o2 := by
  unfold signBytes
  rw [optionSet_congr h1]

lemma render_exponent_absent_congr (d : Nat) (h : HighPrecDec) (p : Nat) {o o2 : Nat}
    (h1 : o &&& RENDER_NUMBER__LEADING_PLUS_SIGN = o2 &&& RENDER_NUMBER__LEADING_PLUS_SIGN)
    (h4 : o &&& RENDER_NUMBER__DECIMAL_SEPARATOR_IS_A_COMMA =
      o2 &&& RENDER_NUMBER__DECIMAL_SEPARATOR_IS_A_COMMA) :
    render_exponent_absent d h p o = render_exponent_absent d h p o2 := by
  simp only [render_exponent_absent]
  rw [optionSet_congr h1, sepByte_congr h4, signBytes_congr h.negative h1]

lemma render_exponent_present_congr (d : Nat) (h : HighPrecDec) (p : Nat) {o o2 : Nat}
    (h1 : o &&& RENDER_NUMBER__LEADING_PLUS_SIGN = o2 &&& RENDER_NUMBER__LEADING_PLUS_SIGN)
    (h4 : o &&& RENDER_NUMBER__DECIMAL_SEPARATOR_IS_A_COMMA =
      o2 &&& RENDER_NUMBER__DECIMAL_SEPARATOR_IS_A_COMMA) :
    render_exponent_present d h p o = render_exponent_present d h p o2 := by
  simp only [render_exponent_present]
  rw [optionSet_congr h1, sepByte_congr h4, signBytes_congr h.negative h1]

lemma render_inf_congr (d : Nat) (neg : Bool) {o o2 : Nat}
    (h1 : o &&& RENDER_NUMBER__LEADING_PLUS_SIGN = o2 &&& RENDER_NUMBER__LEADING_PLUS_SIGN) :
    render_inf d neg o = render_inf d neg o2 := by
  simp only [render_inf]
  rw [optionSet_congr h1]

lemma renderGeneral_congr (d : Nat) (h : HighPrecDec) (e : Int) (m p : Nat) {o o2 : Nat}
    (h1 : o &&& RENDER_NUMBER__LEADING_PLUS_SIGN = o2 &&& RENDER_NUMBER__LEADING_PLUS_SIGN)
    (h4 : o &&& RENDER_NUMBER__DECIMAL_SEPARATOR_IS_A_COMMA =
      o2 &&& RENDER_NUMBER__DECIMAL_SEPARATOR_IS_A_COMMA)
    (hJE : o &&& RENDER_NUMBER__JUST_ENOUGH_PRECISION =
      o2 &&& RENDER_NUMBER__JUST_ENOUGH_PRECISION) :
    renderGeneral d h e m p o = renderGeneral d h e m p o2 := by
  simp only [renderGeneral]
  rw [optionSet_congr hJE]
  rw [show ∀ a b c, render_exponent_present a b c o = render_exponent_present a b c o2 from
    fun a b c => render_exponent_present_congr a b c h1 h4]
  rw [show ∀ a b c, render_exponent_absent a b c o = render_exponent_absent a b c o2 from
    fun a b c => render_exponent_absent_congr a b c h1 h4]

/-- C3, counterexample: with both EXPONENT_ABSENT and EXPONENT_PRESENT set,
rendering 100.0 at precision 0 into a 20-byte buffer produces the general
"%g" output "1e+02", not the fixed-point "100" obtained with
EXPONENT_ABSENT alone. -/
theorem C3_counterexample :
    render_number_f64 20 0x4059000000000000 0
        (RENDER_NUMBER__EXPONENT_ABSENT ||| RENDER_NUMBER__EXPONENT_PRESENT) =
      [49, 101, 43, 48, 50] ∧
    render_number_f64 20 0x4059000000000000 0 RENDER_NUMBER__EXPONENT_ABSENT =
      [49, 48, 48] ∧
    render_number_f64 20 0x4059000000000000 0
        (RENDER_NUMBER__EXPONENT_ABSENT ||| RENDER_NUMBER__EXPONENT_PRESENT) ≠
      render_number_f64 20 0x4059000000000000 0 RENDER_NUMBER__EXPONENT_ABSENT := by
  refine ⟨by decide, by decide, by decide⟩

/-- C3, amended: when both EXPONENT_ABSENT and EXPONENT_PRESENT are set,
render_number_f64 falls through the format switch (whose cases match each
flag alone) into the general "%g" mode: the output equals that of the same
options word with both flags cleared, not the fixed-point output. -/
theorem C3_theorem (dstLen bits precision options : Nat)
    (hopt : options &&&
        (RENDER_NUMBER__EXPONENT_ABSENT ||| RENDER_NUMBER__EXPONENT_PRESENT) =
      RENDER_NUMBER__EXPONENT_ABSENT ||| RENDER_NUMBER__EXPONENT_PRESENT) :
    render_number_f64 dstLen bits precision options =
      render_number_f64 dstLen bits precision
        (options ^^^
          (RENDER_NUMBER__EXPONENT_ABSENT ||| RENDER_NUMBER__EXPONENT_PRESENT)) := by
  have h1 : options &&& RENDER_NUMBER__LEADING_PLUS_SIGN =
      (options ^^^ (RENDER_NUMBER__EXPONENT_ABSENT ||| RENDER_NUMBER__EXPONENT_PRESENT)) &&&
        RENDER_NUMBER__LEADING_PLUS_SIGN :=
    (and_xor_of_disjoint _ _ _ (by decide)).symm
  have h4 : options &&& RENDER_NUMBER__DECIMAL_SEPARATOR_IS_A_COMMA =
      (options ^^^ (RENDER_NUMBER__EXPONENT_ABSENT ||| RENDER_NUMBER__EXPONENT_PRESENT)) &&&
        RENDER_NUMBER__DECIMAL_SEPARATOR_IS_A_COMMA :=
    (and_xor_of_disjoint _ _ _ (by decide)).symm
  have hJE : options &&& RENDER_NUMBER__JUST_ENOUGH_PRECISION =
      (options ^^^ (RENDER_NUMBER__EXPONENT_ABSENT ||| RENDER_NUMBER__EXPONENT_PRESENT)) &&&
        RENDER_NUMBER__JUST_ENOUGH_PRECISION :=
    (and_xor_of_disjoint _ _ _ (by decide)).symm
  have hmode2 : (options ^^^
      (RENDER_NUMBER__EXPONENT_ABSENT ||| RENDER_NUMBER__EXPONENT_PRESENT)) &&&
      (RENDER_NUMBER__EXPONENT_ABSENT ||| RENDER_NUMBER__EXPONENT_PRESENT) = 0 :=
    xor_and_self_eq_zero _ _ hopt
  simp only [render_number_f64]
  rw [hopt, hmode2]
  rw [show ∀ a b, render_inf a b options = render_inf a b
      (options ^^^ (RENDER_NUMBER__EXPONENT_ABSENT ||| RENDER_NUMBER__EXPONENT_PRESENT)) from
    fun a b => render_inf_congr a b h1]
  rw [if_neg (show ¬ (RENDER_NUMBER__EXPONENT_ABSENT ||| RENDER_NUMBER__EXPONENT_PRESENT) =
    RENDER_NUMBER__EXPONENT_ABSENT from by decide)]
  rw [if_neg (show ¬ (RENDER_NUMBER__EXPONENT_ABSENT ||| RENDER_NUMBER__EXPONENT_PRESENT) =
    RENDER_NUMBER__EXPONENT_PRESENT from by decide)]
  rw [if_neg (show ¬ (0 : Nat) = RENDER_NUMBER__EXPONENT_ABSENT from by decide)]
  rw [if_neg (show ¬ (0 : Nat) = RENDER_NUMBER__EXPONENT_PRESENT from by decide)]
  rw [show ∀ a b c d e, renderGeneral a b c d e options = renderGeneral a b c d e
      (options ^^^ (RENDER_NUMBER__EXPONENT_ABSENT ||| RENDER_NUMBER__EXPONENT_PRESENT)) from
    fun a b c d e => renderGeneral_congr a b c d e h1 h4 hJE]

/-- C3, witness: the amended statement applied at the options word that sets
exactly the two exponent flags. -/
theorem C3_witness :
    render_number_f64 20 0x4059000000000000 0
        (RENDER_NUMBER__EXPONENT_ABSENT ||| RENDER_NUMBER__EXPONENT_PRESENT) =
      render_number_f64 20 0x4059000000000000 0
        ((RENDER_NUMBER__EXPONENT_ABSENT ||| RENDER_NUMBER__EXPONENT_PRESENT) ^^^
          (RENDER_NUMBER__EXPONENT_ABSENT ||| RENDER_NUMBER__EXPONENT_PRESENT)) :=
  C3_theorem 20 0x4059000000000000 0
    (RENDER_NUMBER__EXPONENT_ABSENT ||| RENDER_NUMBER__EXPONENT_PRESENT) (by decide)
/-! ### Claim C6: NaN handling -/

/-- Inversion: when the special-token parser accepts s as NaN, s consists of
underscore padding, an optional sign (giving `neg`), and a token starting
with 'N' or 'n'. -/
lemma special_token_nan_shape (s : List Nat) (neg : Bool)
    (hacc : special_token s = some (neg, true)) :
    ∃ c0 t0 c t, skipUnderscores s = c0 :: t0 ∧
      parseSign (c0 :: t0) = (neg, c :: t) ∧ (c = 78 ∨ c = 110) := by
  rcases hsk : skipUnderscores s with _ | ⟨c0, t0⟩
  · simp [special_token, hsk] at hacc
  · rcases hps : parseSign (c0 :: t0) with ⟨neg1, rest⟩
    rcases rest with _ | ⟨c, t⟩
    · simp [special_token, hsk, hps] at hacc
    · simp only [special_token, hsk, hps] at hacc
      by_cases hI : c = 73 ∨ c = 105
      · rw [if_pos hI] at hacc
        exfalso
        repeat' split at hacc
        all_goals simp_all
      · rw [if_neg hI] at hacc
        by_cases hN : c = 78 ∨ c = 110
        · rw [if_pos hN] at hacc
          have hneg : neg1 = neg := by
            repeat' split at hacc
            all_goals simp_all
          exact ⟨c0, t0, c, t, rfl, by rw [← hneg]; exact hps, hN⟩
        · rw [if_neg hN] at hacc
          simp at hacc

/-- When the input is underscore padding, an optional sign and then a letter
'N'/'n', high_prec_dec__parse sees no digits and fails with bad_argument
(this is the failure that routes the top-level parser to the special-token
branch). -/
lemma hpd_parse_fails_on_nan_token (h0 : HighPrecDec) (s : List Nat) (c0 : Nat)
    (t0 : List Nat) (neg : Bool) (c : Nat) (t : List Nat)
    (hsk : skipUnderscores s = c0 :: t0)
    (hps : parseSign (c0 :: t0) = (neg, c :: t))
    (hc : c = 78 ∨ c = 110) :
    (high_prec_dec__parse h0 s).1 = Status.badArgument := by
  simp only [high_prec_dec__parse, hsk, hps]
  rcases hc with rfl | rfl <;> simp [parseDigitsLoop]

/-- C6, counterexample: "nan" and "-nan" are both accepted as NaN by the
special-token parser, but they parse to different 64-bit bit patterns
(0x7FFFFFFFFFFFFFFF versus 0xFFFFFFFFFFFFFFFF: the sign bit is kept), so
not every accepted NaN input yields one and the same bit pattern. -/
theorem C6_counterexample :
    special_token [110, 97, 110] = some (false, true) ∧
    special_token [45, 110, 97, 110] = some (true, true) ∧
    (parse_number_f64 [110, 97, 110]).value = 0x7FFFFFFFFFFFFFFF ∧
    (parse_number_f64 [45, 110, 97, 110]).value = 0xFFFFFFFFFFFFFFFF ∧
    (parse_number_f64 [110, 97, 110]).value ≠ (parse_number_f64 [45, 110, 97, 110]).value := by
  refine ⟨by decide, by decide, by decide, by decide, by decide⟩

/-- C6, amended: every input accepted as NaN by the special-token parser
parses (with null status) to the single canonical quiet-NaN pattern
0x7FFFFFFFFFFFFFFF, with only the sign bit additionally set when a '-'
sign was present; and render_number_f64 emits the same 3-byte string "NaN"
for every NaN argument (any sign or payload bits), given at least 3 bytes
of room. -/
theorem C6_theorem :
    (∀ (s : List Nat) (neg : Bool), special_token s = some (neg, true) →
      parse_number_f64 s =
        ⟨Status.null, 0x7FFFFFFFFFFFFFFF ||| (if neg then 0x8000000000000000 else 0)⟩) ∧
    (∀ (dstLen bits precision options : Nat), 3 ≤ dstLen →
      (bits >>> 52) &&& 0x7FF = 0x7FF → bits &&& 0x000FFFFFFFFFFFFF ≠ 0 →
      render_number_f64 dstLen bits precision options = [78, 97, 78]) := by
  constructor
  · intro s neg hacc
    obtain ⟨c0, t0, c, t, hsk, hps, hc⟩ := special_token_nan_shape s neg hacc
    have hfail := hpd_parse_fails_on_nan_token
      { num_digits := 0, decimal_point := 0, negative := false, truncated := false,
        digits := fun _ => 0 } s c0 t0 neg c t hsk hps hc
    simp only [parse_number_f64]
    rw [if_pos (by rw [hfail]; decide)]
    simp [parse_number_f64_special, hacc]
  · intro dstLen bits precision options hlen hexp hman
    simp only [render_number_f64]
    rw [if_pos hexp, if_pos hman]
    simp only [render_nan]
    rw [if_neg (by omega)]

/-- C6, witness: the amended statement applied to the input "nan" and to a
NaN bit pattern with a non-canonical payload. -/
theorem C6_witness :
    parse_number_f64 [110, 97, 110] =
      ⟨Status.null, 0x7FFFFFFFFFFFFFFF ||| (if false then 0x8000000000000000 else 0)⟩ ∧
    render_number_f64 3 0x7FF0000000000001 5 2 = [78, 97, 78] :=
  ⟨C6_theorem.1 [110, 97, 110] false (by decide),
    C6_theorem.2 3 0x7FF0000000000001 5 2 (by norm_num) (by decide) (by decide)⟩
/-! ### Claim C7: leading zeros and decimal separators -/

lemma skipUnderscores_replicate (k : Nat) (l : List Nat) :
    skipUnderscores (List.replicate k 95 ++ l) = skipUnderscores l := by
  induction k with
  | zero => simp
  | succ k ih =>
    rw [List.replicate_succ, List.cons_append, skipUnderscores]
    simpa using ih

lemma skipUnderscores_cons_ne (x : Nat) (l : List Nat) (hx : x ≠ 95) :
    skipUnderscores (x :: l) = x :: l := by
  rw [skipUnderscores]
  simp [hx]

lemma parseDigitsLoop_replicate (st : ParseDigitsState) (k : Nat) (l : List Nat) :
    parseDigitsLoop st (List.replicate k 95 ++ l) = parseDigitsLoop st l := by
  induction k generalizing st with
  | zero => simp
  | succ k ih =>
    rw [List.replicate_succ, List.cons_append, parseDigitsLoop]
    simpa using ih st

/-- The digit loop on a leading '0' followed (after optional underscores) by
any further digit rejects with the leading-zero error. -/
lemma digitLoop_rejects (dg : Nat → Nat) (k d : Nat) (rest : List Nat)
    (hd1 : 48 ≤ d) (hd2 : d ≤ 57) :
    parseDigitsLoop
      { nd := 0, dp := 0, saw_digits := false, saw_non_zero_digits := false,
        saw_dot := false, truncated := false, digits := dg }
      (48 :: (List.replicate k 95 ++ d :: rest)) =
      (false,
        { nd := 0, dp := -1, saw_digits := true, saw_non_zero_digits := false,
          saw_dot := false, truncated := false, digits := dg },
        d :: rest) := by
  rw [parseDigitsLoop]
  simp only [show ¬ (48 : Nat) = 95 from by decide, if_neg,
    show ¬ ((48 : Nat) = 46 ∨ (48 : Nat) = 44) from by decide]
  norm_num
  rw [parseDigitsLoop_replicate, parseDigitsLoop]
  by_cases h48 : d = 48
  · subst h48
    norm_num
  · rw [if_neg (by omega), if_neg (by omega : ¬ (d = 46 ∨ d = 44)), if_neg h48,
      if_pos (show 48 < d ∧ d ≤ 57 from by omega)]
    norm_num

/-- The common ending: once the underscore/sign preamble is consumed and the
significand starts with '0' then (after underscores) another digit,
parse_number_f64 rejects with bad_argument and value 0 (the special-token
fallback also rejects, preserving the status). -/
lemma parse_rejects_after (s : List Nat) (c0 : Nat) (t0 : List Nat) (neg : Bool)
    (k d : Nat) (rest : List Nat) (hd1 : 48 ≤ d) (hd2 : d ≤ 57)
    (hsk : skipUnderscores s = c0 :: t0)
    (hps : parseSign (c0 :: t0) = (neg, 48 :: (List.replicate k 95 ++ d :: rest))) :
    parse_number_f64 s = ⟨Status.badArgument, 0⟩ := by
  have hloop := digitLoop_rejects (fun _ => 0) k d rest hd1 hd2
  have hpr : (high_prec_dec__parse
      { num_digits := 0, decimal_point := 0, negative := false, truncated := false,
        digits := fun _ => 0 } s).1 = Status.badArgument := by
    simp only [high_prec_dec__parse, hsk, hps, hloop]
    simp
  have hnone : special_token s = none := by
    simp only [special_token, hsk, hps]
    rw [if_neg (by decide), if_neg (by decide)]
  simp only [parse_number_f64]
  rw [if_pos (by rw [hpr]; decide)]
  simp [parse_number_f64_special, hnone, hpr]

set_option maxRecDepth 100000 in
/-- C7: every input whose integer part starts with '0' followed (after
optional underscore padding and an optional sign before the '0') by another
digit before any decimal separator is rejected as bad_argument with value
0.0; while a single leading 0 directly followed by a separator is fine
("0.5" parses to 0.5) and ',' is accepted as a decimal separator ("7,5"
parses to 7.5); "007" itself is rejected. -/
theorem C7_theorem :
    (∀ (a b k : Nat) (sgn : List Nat) (d : Nat) (rest : List Nat),
      sgn = [] ∨ sgn = [43] ∨ sgn = [45] → 48 ≤ d → d ≤ 57 →
      parse_number_f64 (List.replicate a 95 ++ sgn ++ List.replicate b 95 ++
        48 :: (List.replicate k 95 ++ d :: rest)) = ⟨Status.badArgument, 0⟩) ∧
    parse_number_f64 [48, 46, 53] = ⟨Status.null, 0x3FE0000000000000⟩ ∧
    parse_number_f64 [55, 44, 53] = ⟨Status.null, 0x401E000000000000⟩ ∧
    parse_number_f64 [48, 48, 55] = ⟨Status.badArgument, 0⟩ := by
  refine ⟨?_, by decide, by decide, by decide⟩
  intro a b k sgn d rest hsgn hd1 hd2
  rcases hsgn with rfl | rfl | rfl
  · refine parse_rejects_after _ 48 (List.replicate k 95 ++ d :: rest) false k d rest hd1 hd2
      ?_ ?_
    · simp only [List.append_nil, List.append_assoc]
      rw [skipUnderscores_replicate, skipUnderscores_replicate,
        skipUnderscores_cons_ne 48 _ (by decide)]
    · rw [parseSign]
      norm_num
  · refine parse_rejects_after _ 43 (List.replicate b 95 ++ 48 ::
      (List.replicate k 95 ++ d :: rest)) false k d rest hd1 hd2 ?_ ?_
    · simp only [List.append_assoc, List.singleton_append, List.cons_append, List.nil_append]
      rw [skipUnderscores_replicate, skipUnderscores_cons_ne 43 _ (by decide)]
    · rw [parseSign]
      rw [if_pos rfl, skipUnderscores_replicate, skipUnderscores_cons_ne 48 _ (by decide)]
  · refine parse_rejects_after _ 45 (List.replicate b 95 ++ 48 ::
      (List.replicate k 95 ++ d :: rest)) true k d rest hd1 hd2 ?_ ?_
    · simp only [List.append_assoc, List.singleton_append, List.cons_append, List.nil_append]
      rw [skipUnderscores_replicate, skipUnderscores_cons_ne 45 _ (by decide)]
    · rw [parseSign]
      rw [if_neg (by decide), if_pos rfl, skipUnderscores_replicate,
        skipUnderscores_cons_ne 48 _ (by decide)]

/-- C7, witness: the universal part applied at "007" (a = b = k = 0, no
sign, second digit '0', rest "7"). -/
theorem C7_witness :
    parse_number_f64 (List.replicate 0 95 ++ [] ++ List.replicate 0 95 ++
      48 :: (List.replicate 0 95 ++ 48 :: [55])) = ⟨Status.badArgument, 0⟩ :=
  C7_theorem.1 0 0 0 [] 48 [55] (Or.inl rfl) (by norm_num) (by norm_num)
/-! ### Claim C10: the parser's status set -/

lemma high_prec_dec__parse_status (h0 : HighPrecDec) (s : List Nat) :
    (high_prec_dec__parse h0 s).1 = Status.null ∨
    (high_prec_dec__parse h0 s).1 = Status.badArgument := by
  rw [high_prec_dec__parse]
  repeat' split
  all_goals simp [hpdParseFinish]

lemma parseSlowPathTail_status (h : HighPrecDec) (e : Int) :
    (parseSlowPathTail h e).status = Status.null := by
  rw [parseSlowPathTail]
  repeat' split
  all_goals simp [parseInfinityResult, apply_ite ResultF64.status]

/-- C10: for every input byte slice, parse_number_f64 returns either the
null (success) status or the bad_argument error: the bad_receiver status
can never be produced (the inner parser always receives a concrete HPD)
and the internal mpb-failed status never escapes (an MPB fast-path failure
always falls through to the slow path, which itself only ever exits with a
null status through the zero, infinity or bit-packing tails). -/
theorem C10_theorem (s : List Nat) :
    (parse_number_f64 s).status = Status.null ∨
    (parse_number_f64 s).status = Status.badArgument := by
  have hhp := high_prec_dec__parse_status
    { num_digits := 0, decimal_point := 0, negative := false, truncated := false,
      digits := fun _ => 0 } s
  simp only [parse_number_f64]
  split
  · rename_i hne
    rcases hhp with h | h
    · exact absurd h hne
    · rw [parse_number_f64_special]
      split
      · left
        rfl
      · right
        simpa using h
  · repeat' split
    all_goals
      first
        | (left; apply parseSlowPathTail_status)
        | simp_all [parseZeroResult, parseInfinityResult]
/-! ### Claim C9: the trim / digit-range invariant -/

/-- Digit-range part of the HPD invariant, for a bare digits array: every
cell of the (modelled) 800-byte array holds a value in 0..=9. -/
def DigitsLe (d : Nat → Nat) : Prop := ∀ i < HPD__DIGITS_PRECISION, d i ≤ 9

lemma trimCount_le (d : Nat → Nat) : ∀ n, trimCount d n ≤ n := by
  intro n
  induction n with
  | zero => exact Nat.le_refl 0
  | succ n ih =>
    rw [trimCount]
    split
    · exact Nat.le_trans ih (by omega)
    · exact Nat.le_refl _

lemma trimCount_spec (d : Nat → Nat) :
    ∀ n, trimCount d n = 0 ∨ d (trimCount d n - 1) ≠ 0 := by
  intro n
  induction n with
  | zero => exact Or.inl rfl
  | succ n ih =>
    rw [trimCount]
    split
    · exact ih
    · next hd => exact Or.inr (by simpa using hd)

lemma trim_wf (h : HighPrecDec) (hnd : h.num_digits ≤ HPD__DIGITS_PRECISION)
    (hdig : DigitsLe h.digits) : HpdWF (high_prec_dec__trim h) :=
  ⟨Nat.le_trans (trimCount_le _ _) hnd, hdig, trimCount_spec h.digits h.num_digits⟩

lemma setDigit_le {d : Nat → Nat} (hd : DigitsLe d) {v : Nat} (hv : v ≤ 9) (j : Nat) :
    DigitsLe (setDigit d j v) := by
  intro i hi
  unfold setDigit
  split
  · exact hv
  · exact hd i hi

/-! #### assign -/

lemma assignDigitsLoop_le :
    ∀ (fuel x : Nat) (acc : List Nat), (∀ v ∈ acc, v ≤ 9) →
      ∀ v ∈ assignDigitsLoop fuel x acc, v ≤ 9 := by
  intro fuel
  induction fuel with
  | zero => intro x acc hacc; exact hacc
  | succ fuel ih =>
    intro x acc hacc
    rw [assignDigitsLoop]
    have hd : x - x / 10 * 10 ≤ 9 := by omega
    split
    · exact ih _ _ (by
        intro v hv
        rcases List.mem_cons.mp hv with rfl | hv
        · exact hd
        · exact hacc v hv)
    · intro v hv
      rcases List.mem_cons.mp hv with rfl | hv
      · exact hd
      · exact hacc v hv

lemma assignDigitsLoop_length :
    ∀ (fuel x : Nat) (acc : List Nat),
      (assignDigitsLoop fuel x acc).length ≤ fuel + acc.length := by
  intro fuel
  induction fuel with
  | zero => intro x acc; simp [assignDigitsLoop]
  | succ fuel ih =>
    intro x acc
    rw [assignDigitsLoop]
    split
    · exact Nat.le_trans (ih _ _) (by simp; omega)
    · simp
      omega

lemma high_prec_dec__assign_wf (x : Nat) (negative : Bool) :
    HpdWF (high_prec_dec__assign x negative) := by
  rw [high_prec_dec__assign]
  set ds : List Nat := if x > 0 then assignDigitsLoop 20 x [] else [] with hds
  have hmem : ∀ v ∈ ds, v ≤ 9 := by
    rw [hds]
    split
    · exact assignDigitsLoop_le 20 x [] (by simp)
    · simp
  have hlen : ds.length ≤ HPD__DIGITS_PRECISION := by
    rw [hds]
    split
    · exact Nat.le_trans (assignDigitsLoop_length 20 x [])
        (by norm_num [HPD__DIGITS_PRECISION])
    · norm_num [HPD__DIGITS_PRECISION]
  apply trim_wf
  · exact hlen
  · intro i _
    by_cases hi : i < ds.length
    · show ds.getD i 0 ≤ 9
      rw [List.getD_eq_getElem ds 0 hi]
      exact hmem _ (List.getElem_mem hi)
    · show ds.getD i 0 ≤ 9
      have h0 : ds.getD i 0 = 0 := List.getD_eq_default ds 0 (Nat.le_of_not_lt hi)
      omega

/-! #### parse -/

lemma parseDigitsLoop_wf (p : List Nat) :
    ∀ st : ParseDigitsState, st.nd ≤ HPD__DIGITS_PRECISION → DigitsLe st.digits →
      (parseDigitsLoop st p).2.1.nd ≤ HPD__DIGITS_PRECISION ∧
        DigitsLe (parseDigitsLoop st p).2.1.digits := by
  induction p with
  | nil => intro st hnd hdig; exact ⟨hnd, hdig⟩
  | cons c t ih =>
    intro st hnd hdig
    rw [parseDigitsLoop]
    split_ifs with h1 h2 h3 h4 h5 h6 h7 h8 h9 h10
    · exact ih _ hnd hdig
    · exact ⟨hnd, hdig⟩
    · exact ih _ hnd hdig
    · exact ⟨hnd, hdig⟩
    · exact ih _ hnd hdig
    · exact ih _ (by simpa using h7) (setDigit_le hdig (by omega) _)
    · exact ih _ hnd hdig
    · exact ⟨hnd, hdig⟩
    · exact ih _ (by simpa using h10) (setDigit_le hdig (by omega) _)
    · exact ih _ hnd hdig
    · exact ⟨hnd, hdig⟩

lemma parseDigitsLoop_wf_of_eq (p : List Nat) (d0 : Nat → Nat) (hd0 : DigitsLe d0)
    (ok : Bool) (st : ParseDigitsState) (rest : List Nat)
    (heq : parseDigitsLoop
      { nd := 0, dp := 0, saw_digits := false, saw_non_zero_digits := false,
        saw_dot := false, truncated := false, digits := d0 } p = (ok, st, rest)) :
    st.nd ≤ HPD__DIGITS_PRECISION ∧ DigitsLe st.digits := by
  have hw := parseDigitsLoop_wf p
    { nd := 0, dp := 0, saw_digits := false, saw_non_zero_digits := false,
      saw_dot := false, truncated := false, digits := d0 } (Nat.zero_le _) hd0
  rw [heq] at hw
  exact hw

lemma high_prec_dec__parse_wf (h0 : HighPrecDec) (s : List Nat)
    (hdig : DigitsLe h0.digits) : HpdWF (high_prec_dec__parse h0 s).2 := by
  rw [high_prec_dec__parse]
  repeat' split
  all_goals
    first
      | exact ⟨Nat.zero_le _, hdig, Or.inl rfl⟩
      | exact ⟨Nat.zero_le _,
          (parseDigitsLoop_wf_of_eq _ _ hdig _ _ _ (by assumption)).2, Or.inl rfl⟩
      | exact trim_wf _ (parseDigitsLoop_wf_of_eq _ _ hdig _ _ _ (by assumption)).1
          (parseDigitsLoop_wf_of_eq _ _ hdig _ _ _ (by assumption)).2

/-! #### small left shift -/

lemma lshiftStore_le (st : LshiftSt) (rem : Nat) (hrem : rem ≤ 9)
    (hst : DigitsLe st.digits) : DigitsLe (lshiftStore st rem).digits := by
  rw [lshiftStore]
  split_ifs with h1 h2
  · exact setDigit_le hst hrem _
  · exact hst
  · exact hst

lemma lshiftReadLoop_le (shift : Nat) :
    ∀ (k : Nat) (st : LshiftSt), DigitsLe st.digits →
      DigitsLe (lshiftReadLoop shift k st).digits := by
  intro k
  induction k with
  | zero => intro st h; exact h
  | succ k ih =>
    intro st h
    rw [lshiftReadLoop]
    apply ih
    exact lshiftStore_le st _ (by omega) h

lemma lshiftWriteLoop_le :
    ∀ (fuel : Nat) (st : LshiftSt), DigitsLe st.digits →
      DigitsLe (lshiftWriteLoop fuel st).digits := by
  intro fuel
  induction fuel with
  | zero => intro st h; exact h
  | succ fuel ih =>
    intro st h
    rw [lshiftWriteLoop]
    split
    · exact h
    · apply ih
      exact lshiftStore_le st _ (by omega) h

lemma high_prec_dec__small_lshift_wf (h : HighPrecDec) (shift : Nat)
    (hwf : HpdWF h) : HpdWF (high_prec_dec__small_lshift h shift) := by
  rw [high_prec_dec__small_lshift]
  split
  · exact hwf
  · exact trim_wf _ (Nat.min_le_right _ _)
      (lshiftWriteLoop_le _ _ (lshiftReadLoop_le _ _ _ hwf.2.1))

/-! #### small right shift -/

lemma shiftRight_zero_lt {n shift : Nat} (h : n >>> shift = 0) : n < 2 ^ shift := by
  rw [Nat.shiftRight_eq_div_pow] at h
  by_contra hlt
  push_neg at hlt
  have h1 := (Nat.one_le_div_iff (by positivity)).mpr hlt
  rw [h] at h1
  exact absurd h1 (by norm_num)

lemma shiftRight_le_nine {n shift : Nat} (h : n < 10 * 2 ^ shift) :
    (n >>> shift) % 256 ≤ 9 := by
  rw [Nat.shiftRight_eq_div_pow]
  have h2 : 0 < 2 ^ shift := by positivity
  have h3 : n / 2 ^ shift < 10 := (Nat.div_lt_iff_lt_mul h2).mpr (by omega)
  exact le_trans (Nat.mod_le _ _) (by omega)

lemma rshiftZeroPad_lt (shift : Nat) :
    ∀ (fuel n rx : Nat), n < 10 * 2 ^ shift →
      (rshiftZeroPad shift fuel n rx).1 < 10 * 2 ^ shift := by
  intro fuel
  induction fuel with
  | zero => intro n rx hn; exact hn
  | succ fuel ih =>
    intro n rx hn
    rw [rshiftZeroPad]
    split
    · exact hn
    · next hz =>
      have h1 : n < 2 ^ shift := shiftRight_zero_lt (not_not.mp hz)
      exact ih _ _ (by omega)

lemma rshiftPickup_lt (shift : Nat) (h : HighPrecDec)
    (hnd : h.num_digits ≤ HPD__DIGITS_PRECISION) (hdig : DigitsLe h.digits) :
    ∀ (fuel n rx : Nat), n < 10 * 2 ^ shift →
      ∀ n2 rx2, rshiftPickup shift h fuel n rx = some (n2, rx2) →
        n2 < 10 * 2 ^ shift := by
  intro fuel
  induction fuel with
  | zero =>
    intro n rx hn n2 rx2 heq
    rw [rshiftPickup] at heq
    simp at heq
    omega
  | succ fuel ih =>
    intro n rx hn n2 rx2 heq
    rw [rshiftPickup] at heq
    split_ifs at heq with h1 h2 h3
    · simp at heq
      omega
    · have hz : n < 2 ^ shift := shiftRight_zero_lt (not_not.mp h1)
      have hd : h.digits rx ≤ 9 := hdig rx (Nat.lt_of_lt_of_le h2 hnd)
      exact ih _ _ (by omega) n2 rx2 heq
    · have h5 := rshiftZeroPad_lt shift (shift + 2) n rx hn
      injection heq with heq2
      rw [heq2] at h5
      simpa using h5

lemma rshiftMainLoop_wf (shift : Nat) (h : HighPrecDec) (mask : Nat)
    (hnd : h.num_digits ≤ HPD__DIGITS_PRECISION) ( _hdig0 : DigitsLe h.digits)
    (hmask : mask = 2 ^ shift - 1) :
    ∀ (fuel : Nat) (digits : Nat → Nat) (n rx wx : Nat),
      DigitsLe digits → n < 10 * 2 ^ shift →
      DigitsLe (rshiftMainLoop shift h mask fuel digits n rx wx).1 ∧
        (rshiftMainLoop shift h mask fuel digits n rx wx).2.1 < 10 * 2 ^ shift ∧
        (rshiftMainLoop shift h mask fuel digits n rx wx).2.2 ≤
          wx + (h.num_digits - rx) := by
  intro fuel
  induction fuel with
  | zero => intro digits n rx wx hd hn; exact ⟨hd, hn, Nat.le_add_right _ _⟩
  | succ fuel ih =>
    intro digits n rx wx hd hn
    rw [rshiftMainLoop]
    split
    · next hrx =>
      have hpos : 0 < 2 ^ shift := by positivity
      have hand : n &&& mask ≤ 2 ^ shift - 1 := hmask ▸ Nat.and_le_right
      have hdr : digits rx ≤ 9 := hd rx (Nat.lt_of_lt_of_le hrx hnd)
      obtain ⟨a, b, c⟩ := ih (setDigit digits wx ((n >>> shift) % 256))
        (10 * (n &&& mask) + digits rx) (rx + 1) (wx + 1)
        (setDigit_le hd (shiftRight_le_nine hn) _) (by omega)
      exact ⟨a, b, Nat.le_trans c (by omega)⟩
    · exact ⟨hd, hn, Nat.le_add_right _ _⟩

lemma rshiftTrailingLoop_wf (shift mask : Nat) (hmask : mask = 2 ^ shift - 1) :
    ∀ (fuel : Nat) (digits : Nat → Nat) (trunc : Bool) (n wx : Nat),
      DigitsLe digits → n < 10 * 2 ^ shift → wx ≤ HPD__DIGITS_PRECISION →
      DigitsLe (rshiftTrailingLoop shift mask fuel digits trunc n wx).1 ∧
        (rshiftTrailingLoop shift mask fuel digits trunc n wx).2.2 ≤
          HPD__DIGITS_PRECISION := by
  intro fuel
  induction fuel with
  | zero => intro digits trunc n wx hd _ hwx; exact ⟨hd, hwx⟩
  | succ fuel ih =>
    intro digits trunc n wx hd hn hwx
    rw [rshiftTrailingLoop]
    have hpos : 0 < 2 ^ shift := by positivity
    have hand : n &&& mask ≤ 2 ^ shift - 1 := hmask ▸ Nat.and_le_right
    split
    · exact ⟨hd, hwx⟩
    · split
      · next hwlt =>
        exact ih (setDigit digits wx ((n >>> shift) % 256)) trunc (10 * (n &&& mask))
          (wx + 1) (setDigit_le hd (shiftRight_le_nine hn) _) (by omega) (by omega)
      · exact ih digits _ (10 * (n &&& mask)) wx hd (by omega) hwx

lemma high_prec_dec__small_rshift_wf (h : HighPrecDec) (shift : Nat)
    (hwf : HpdWF h) : HpdWF (high_prec_dec__small_rshift h shift) := by
  rw [high_prec_dec__small_rshift]
  split
  · exact hwf
  · rename_i n rx heq
    have hn : n < 10 * 2 ^ shift :=
      rshiftPickup_lt shift h hwf.1 hwf.2.1 _ 0 0 (by positivity) n rx heq
    have hmask : (1 <<< shift) - 1 = 2 ^ shift - 1 := by
      rw [Nat.shiftLeft_eq]
      ring_nf
    have hmain := rshiftMainLoop_wf shift h ((1 <<< shift) - 1) hwf.1 hwf.2.1 hmask
      (h.num_digits + 1) h.digits n rx 0 hwf.2.1 hn
    have htrail := rshiftTrailingLoop_wf shift ((1 <<< shift) - 1) hmask (shift + 2)
      (rshiftMainLoop shift h ((1 <<< shift) - 1) (h.num_digits + 1) h.digits n rx 0).1
      h.truncated
      (rshiftMainLoop shift h ((1 <<< shift) - 1) (h.num_digits + 1) h.digits n rx 0).2.1
      (rshiftMainLoop shift h ((1 <<< shift) - 1) (h.num_digits + 1) h.digits n rx 0).2.2
      hmain.1 hmain.2.1 (Nat.le_trans hmain.2.2 (by have h1 := hwf.1; omega))
    dsimp only
    split
    · exact ⟨Nat.zero_le _, hwf.2.1, Or.inl rfl⟩
    · refine trim_wf _ ?_ ?_
      · exact htrail.2
      · exact htrail.1

/-! #### rounding -/

lemma high_prec_dec__round_down_wf (h : HighPrecDec) (n : Int) (hwf : HpdWF h) :
    HpdWF (high_prec_dec__round_down h n) := by
  rw [high_prec_dec__round_down]
  split
  · exact hwf
  · next hg =>
    apply trim_wf
    · show n.toNat ≤ HPD__DIGITS_PRECISION
      have h1 := hwf.1
      omega
    · exact hwf.2.1

lemma roundUpLoop_wf (h : HighPrecDec) (hdig : DigitsLe h.digits) :
    ∀ k, k < HPD__DIGITS_PRECISION → HpdWF (roundUpLoop h k) := by
  intro k
  induction k with
  | zero =>
    intro hk
    refine ⟨?_, setDigit_le hdig (by omega) 0, Or.inr ?_⟩
    · show 1 ≤ HPD__DIGITS_PRECISION
      omega
    · show setDigit h.digits 0 1 (1 - 1) ≠ 0
      simp [setDigit]
  | succ k ih =>
    intro hk
    rw [roundUpLoop]
    split
    · next hlt =>
      refine ⟨?_, setDigit_le hdig (by omega) k, Or.inr ?_⟩
      · show k + 1 ≤ HPD__DIGITS_PRECISION
        omega
      · show setDigit h.digits k (h.digits k + 1) (k + 1 - 1) ≠ 0
        simp [setDigit]
    · exact ih (by omega)

lemma high_prec_dec__round_up_wf (h : HighPrecDec) (n : Int) (hwf : HpdWF h) :
    HpdWF (high_prec_dec__round_up h n) := by
  rw [high_prec_dec__round_up]
  split
  · exact hwf
  · next hg =>
    apply roundUpLoop_wf h hwf.2.1
    have h1 := hwf.1
    omega

lemma high_prec_dec__round_nearest_wf (h : HighPrecDec) (n : Int) (hwf : HpdWF h) :
    HpdWF (high_prec_dec__round_nearest h n) := by
  rw [high_prec_dec__round_nearest]
  split
  · exact hwf
  · dsimp only
    split_ifs
    all_goals
      first
        | exact high_prec_dec__round_up_wf h n hwf
        | exact high_prec_dec__round_down_wf h n hwf

set_option maxHeartbeats 1600000 in
lemma rjeLoop_wf (h lower upper : HighPrecDec) (incl : Bool) (hwf : HpdWF h) :
    ∀ (fuel : Nat) (ud ui : Int), HpdWF (rjeLoop h lower upper incl fuel ud ui) := by
  intro fuel
  induction fuel with
  | zero => intro ud ui; exact hwf
  | succ fuel ih =>
    intro ud ui
    rw [rjeLoop]
    dsimp only
    split_ifs
    all_goals
      first
        | exact hwf
        | exact high_prec_dec__round_nearest_wf _ _ hwf
        | exact high_prec_dec__round_down_wf _ _ hwf
        | exact high_prec_dec__round_up_wf _ _ hwf
        | exact ih _ _

lemma high_prec_dec__round_just_enough_wf (h : HighPrecDec) (exp2 : Int)
    (mantissa : Nat) (hwf : HpdWF h) :
    HpdWF (high_prec_dec__round_just_enough h exp2 mantissa) := by
  rw [high_prec_dec__round_just_enough]
  split
  · exact hwf
  · exact rjeLoop_wf _ _ _ _ hwf _ _ _

/-- C9: every HPD-mutating operation preserves the HPD well-formedness
invariant HpdWF (num_digits within the 800-byte array, every array cell a
value in 0..=9, and trailing-zero trimmed: num_digits = 0 or the last
digit non-zero); assign establishes it outright, and parse needs it only
of the caller's digit array.  The first conjunct spells out that HpdWF
subsumes the externally observable property: a trimmed final digit and
digits[0 .. num_digits) all in 0..=9. -/
theorem C9_theorem :
    (∀ h : HighPrecDec, HpdWF h →
      (h.num_digits = 0 ∨ h.digits (h.num_digits - 1) ≠ 0) ∧
        ∀ i < h.num_digits, h.digits i ≤ 9) ∧
    (∀ (x : Nat) (negative : Bool), HpdWF (high_prec_dec__assign x negative)) ∧
    (∀ (h0 : HighPrecDec) (s : List Nat), HpdWF h0 →
      HpdWF (high_prec_dec__parse h0 s).2) ∧
    (∀ (h : HighPrecDec) (shift : Nat), HpdWF h →
      HpdWF (high_prec_dec__small_lshift h shift)) ∧
    (∀ (h : HighPrecDec) (shift : Nat), HpdWF h →
      HpdWF (high_prec_dec__small_rshift h shift)) ∧
    (∀ (h : HighPrecDec) (n : Int), HpdWF h → HpdWF (high_prec_dec__round_down h n)) ∧
    (∀ (h : HighPrecDec) (n : Int), HpdWF h → HpdWF (high_prec_dec__round_up h n)) ∧
    (∀ (h : HighPrecDec) (n : Int), HpdWF h →
      HpdWF (high_prec_dec__round_nearest h n)) ∧
    (∀ (h : HighPrecDec) (exp2 : Int) (mantissa : Nat), HpdWF h →
      HpdWF (high_prec_dec__round_just_enough h exp2 mantissa)) := by
  refine ⟨?_, high_prec_dec__assign_wf,
    fun h0 s hw => high_prec_dec__parse_wf h0 s hw.2.1,
    high_prec_dec__small_lshift_wf, high_prec_dec__small_rshift_wf,
    high_prec_dec__round_down_wf, high_prec_dec__round_up_wf,
    high_prec_dec__round_nearest_wf, ?_⟩
  · intro h hw
    exact ⟨hw.2.2, fun i hi => hw.2.1 i (Nat.lt_of_lt_of_le hi hw.1)⟩
  · intro h e m hw
    exact high_prec_dec__round_just_enough_wf h e m hw

set_option maxRecDepth 10000 in
/-- C9, witness: the preservation theorem applied to the concrete HPD
obtained from assign(37), feeding each of the mutating operations once. -/
theorem C9_witness :
    HpdWF (high_prec_dec__parse (high_prec_dec__assign 37 false) [53, 46, 53]).2 ∧
    HpdWF (high_prec_dec__small_lshift (high_prec_dec__assign 37 false) 2) ∧
    HpdWF (high_prec_dec__small_rshift (high_prec_dec__assign 37 false) 2) ∧
    HpdWF (high_prec_dec__round_down (high_prec_dec__assign 37 false) 1) ∧
    HpdWF (high_prec_dec__round_up (high_prec_dec__assign 37 false) 1) ∧
    HpdWF (high_prec_dec__round_nearest (high_prec_dec__assign 37 false) 1) ∧
    HpdWF (high_prec_dec__round_just_enough (high_prec_dec__assign 37 false) 55 4) ∧
    ((high_prec_dec__assign 37 false).num_digits = 0 ∨
      (high_prec_dec__assign 37 false).digits
        ((high_prec_dec__assign 37 false).num_digits - 1) ≠ 0) :=
  have hw : HpdWF (high_prec_dec__assign 37 false) := by decide
  ⟨C9_theorem.2.2.1 _ _ hw, C9_theorem.2.2.2.1 _ _ hw, C9_theorem.2.2.2.2.1 _ _ hw,
    C9_theorem.2.2.2.2.2.1 _ _ hw, C9_theorem.2.2.2.2.2.2.1 _ _ hw,
    C9_theorem.2.2.2.2.2.2.2.1 _ _ hw, C9_theorem.2.2.2.2.2.2.2.2 _ _ _ hw,
    (C9_theorem.1 _ hw).1⟩

end WuffsF64Conv
